import Mathlib

/-! Verification development for the sarif Go package: a typed model of the
SARIF 2.1.0 document tree together with its JSON codec, embedded from
src/sarif.go. JSON is modeled as an abstract syntax tree; Go maps are
modeled as association lists kept in ascending key order, the canonical
representative of a Go map value. -/

namespace Sarif

/-- JSON wire values. Numbers are exact rationals. Object entries are kept in
emission order and may repeat a key, as in a serialized byte stream. -/
inductive Json where
  | null : Json
  | bool (b : Bool) : Json
  | num (q : Rat) : Json
  | str (s : String) : Json
  | arr (elems : List Json) : Json
  | obj (entries : List (String × Json)) : Json

/-- The key list of a JSON object, in emission order. -/
def Json.keys : Json → List String
  | Json.obj entries => entries.map Prod.fst
  | _ => []

mutual

/-- Structural size of a JSON value; it strictly bounds nesting depth and so
serves as fuel for the two self-recursive entity decoders. -/
def Json.size : Json → Nat
  | Json.null => 1
  | Json.bool _ => 1
  | Json.num _ => 1
  | Json.str _ => 1
  | Json.arr es => 1 + Json.sizeList es
  | Json.obj ms => 1 + Json.sizePairs ms

/-- Summed size of array elements. -/
def Json.sizeList : List Json → Nat
  | [] => 0
  | j :: rest => Json.size j + Json.sizeList rest

/-- Summed size of object entry values. -/
def Json.sizePairs : List (String × Json) → Nat
  | [] => 0
  | (_, v) :: rest => Json.size v + Json.sizePairs rest

end

/-- Lexicographic order on character lists by code point: the byte order in
which encoding/json sorts the ASCII keys of this schema. -/
def strLtL : List Char → List Char → Bool
  | [], [] => false
  | [], _ :: _ => true
  | _ :: _, [] => false
  | a :: as, b :: bs =>
    if a.toNat < b.toNat then true
    else if b.toNat < a.toNat then false
    else strLtL as bs

/-- Strict order on strings, computable by the kernel. -/
def strLt (a b : String) : Bool := strLtL a.data b.data

/-- Write one key into a Go map, keeping the canonical ascending order. -/
def insertKV {α : Type} (k : String) (v : α) : List (String × α) → List (String × α)
  | [] => [(k, v)]
  | (k2, v2) :: rest =>
    if strLt k k2 then (k, v) :: (k2, v2) :: rest
    else if k = k2 then (k, v) :: rest
    else (k2, v2) :: insertKV k v rest

/-- Build a Go map from JSON object entries in document order; a later duplicate
key overwrites an earlier one, as in encoding/json. -/
def mapOfEntries {α : Type} (l : List (String × α)) : List (String × α) :=
  l.foldl (fun m kv => insertKV kv.1 kv.2 m) []

/-- Models json.Unmarshal of a raw value into map[string]json.RawMessage, the
first step of every UnmarshalJSON in src/sarif.go: an object becomes the map of
its entries, null leaves the map empty, anything else fails. -/
def asObject : Json → Except String (List (String × Json))
  | Json.obj entries => Except.ok (mapOfEntries entries)
  | Json.null => Except.ok []
  | _ => Except.error "json: cannot unmarshal value into map[string]json.RawMessage"

/-- json.Unmarshal into a Go string: null leaves the zero value in place. -/
def decString : Json → Except String String
  | Json.null => Except.ok ""
  | Json.str s => Except.ok s
  | _ => Except.error "json: cannot unmarshal value into string"

/-- json.Unmarshal into a Go int: the number must be integral. -/
def decInt : Json → Except String Int
  | Json.null => Except.ok 0
  | Json.num q => if q.den = 1 then Except.ok q.num else Except.error "json: cannot unmarshal number into int"
  | _ => Except.error "json: cannot unmarshal value into int"

/-- json.Unmarshal into a Go float64, with numbers kept exact. -/
def decFloat : Json → Except String Rat
  | Json.null => Except.ok 0
  | Json.num q => Except.ok q
  | _ => Except.error "json: cannot unmarshal value into float64"

/-- json.Unmarshal into a Go bool. -/
def decBool : Json → Except String Bool
  | Json.null => Except.ok false
  | Json.bool b => Except.ok b
  | _ => Except.error "json: cannot unmarshal value into bool"

/-- json.Unmarshal into a Go pointer: null sets the pointer to nil, any other
value is decoded into a fresh pointee. -/
def decOpt {α : Type} (dec : Json → Except String α) : Json → Except String (Option α)
  | Json.null => Except.ok none
  | j =>
    match dec j with
    | Except.error e => Except.error e
    | Except.ok x => Except.ok (some x)

/-- Decode the elements of a JSON array in order, stopping at the first error. -/
def decEach {α : Type} (dec : Json → Except String α) : List Json → Except String (List α)
  | [] => Except.ok []
  | j :: js =>
    match dec j with
    | Except.error e => Except.error e
    | Except.ok x =>
      match decEach dec js with
      | Except.error e => Except.error e
      | Except.ok xs => Except.ok (x :: xs)

/-- json.Unmarshal into a Go slice: null yields the nil slice, an array is
decoded elementwise, anything else fails. -/
def decList {α : Type} (dec : Json → Except String α) : Json → Except String (Option (List α))
  | Json.null => Except.ok none
  | Json.arr js =>
    match decEach dec js with
    | Except.error e => Except.error e
    | Except.ok xs => Except.ok (some xs)
  | _ => Except.error "json: cannot unmarshal value into slice"

/-- Decode the values of JSON object entries in document order. -/
def decPairs {α : Type} (dec : Json → Except String α) : List (String × Json) → Except String (List (String × α))
  | [] => Except.ok []
  | (k, v) :: rest =>
    match dec v with
    | Except.error e => Except.error e
    | Except.ok x =>
      match decPairs dec rest with
      | Except.error e => Except.error e
      | Except.ok xs => Except.ok ((k, x) :: xs)

/-- json.Unmarshal into a Go map: null yields the nil map, an object is decoded
entrywise with a later duplicate key overwriting an earlier one. -/
def decMap {α : Type} (dec : Json → Except String α) : Json → Except String (Option (List (String × α)))
  | Json.null => Except.ok none
  | Json.obj entries =>
    match decPairs dec entries with
    | Except.error e => Except.error e
    | Except.ok l => Except.ok (some (mapOfEntries l))
  | _ => Except.error "json: cannot unmarshal value into map"

/-- json.Marshal of a Go string. -/
def encString (s : String) : Except String Json := Except.ok (Json.str s)

/-- json.Marshal of a Go int. -/
def encInt (n : Int) : Except String Json := Except.ok (Json.num (n : Rat))

/-- json.Marshal of a Go float64, kept exact. -/
def encFloat (q : Rat) : Except String Json := Except.ok (Json.num q)

/-- json.Marshal of a Go bool. -/
def encBool (b : Bool) : Except String Json := Except.ok (Json.bool b)

/-- json.Marshal of a Go pointer: nil emits null. -/
def encOpt {α : Type} (enc : α → Except String Json) : Option α → Except String Json
  | none => Except.ok Json.null
  | some x => enc x

/-- Encode list elements in order, stopping at the first error. -/
def encEach {α : Type} (enc : α → Except String Json) : List α → Except String (List Json)
  | [] => Except.ok []
  | x :: xs =>
    match enc x with
    | Except.error e => Except.error e
    | Except.ok j =>
      match encEach enc xs with
      | Except.error e => Except.error e
      | Except.ok js => Except.ok (j :: js)

/-- json.Marshal of a Go slice: nil emits null, otherwise an array. -/
def encList {α : Type} (enc : α → Except String Json) : Option (List α) → Except String Json
  | none => Except.ok Json.null
  | some xs =>
    match encEach enc xs with
    | Except.error e => Except.error e
    | Except.ok js => Except.ok (Json.arr js)

/-- Encode the values of map entries in order, stopping at the first error. -/
def encPairs {α : Type} (enc : α → Except String Json) : List (String × α) → Except String (List (String × Json))
  | [] => Except.ok []
  | (k, x) :: rest =>
    match enc x with
    | Except.error e => Except.error e
    | Except.ok j =>
      match encPairs enc rest with
      | Except.error e => Except.error e
      | Except.ok js => Except.ok ((k, j) :: js)

/-- json.Marshal of a Go map: nil emits null; otherwise encoding/json emits the
entries sorted by key, which mapOfEntries provides. -/
def encMap {α : Type} (enc : α → Except String Json) : Option (List (String × α)) → Except String Json
  | none => Except.ok Json.null
  | some m =>
    match encPairs enc (mapOfEntries m) with
    | Except.error e => Except.error e
    | Except.ok kvs => Except.ok (Json.obj kvs)

/-- Did the codec call succeed? -/
def isOk {α : Type} : Except String α → Bool
  | Except.ok _ => true
  | Except.error _ => false

/-- Field record of the Go struct PropertyBag in src/sarif.go: the one open
entity. AdditionalProperties is the map capturing every key other than tags. -/
structure PropertyBag where
  AdditionalProperties : Option (List (String × Json))
  Tags : Option (List String)

/-- The Go zero value of PropertyBag: what UnmarshalJSON starts from. -/
def PropertyBag.zero : Sarif.PropertyBag where
  AdditionalProperties := none
  Tags := none

/-- Embeds func (strct *PropertyBag) MarshalJSON in src/sarif.go, made explicit
in the iteration order: the tags field is emitted first, then the additional
properties are emitted by ranging over the Go map, whose iteration order is
unspecified, so the order actually taken is passed as iter (a permutation of
the stored entries). A captured raw value marshals to itself and cannot fail. -/
def PropertyBag.marshalJSONWith (strct : Sarif.PropertyBag) (iter : List (String × Json)) : Except String Json :=
  match encList encString strct.Tags with
  | Except.error e => Except.error e
  | Except.ok j0 => Except.ok (Json.obj (("tags", j0) :: iter))

/-- Embeds func (strct *PropertyBag) MarshalJSON in src/sarif.go, taking the
canonical ascending iteration order for the additional-properties range loop. -/
def PropertyBag.marshalJSON (strct : Sarif.PropertyBag) : Except String Json :=
  PropertyBag.marshalJSONWith strct (strct.AdditionalProperties.getD [])

/-- The property loop of func (strct *PropertyBag) UnmarshalJSON in
src/sarif.go: tags is decoded as a string slice; any other key is captured into
AdditionalProperties, allocating the map on first use. A raw message is itself
valid JSON, so the interface capture cannot fail. -/
def PropertyBag.parseProps : List (String × Json) → Sarif.PropertyBag → Except String Sarif.PropertyBag
  | [], acc => Except.ok acc
  | (k, v) :: rest, strct =>
    match k with
    | "tags" =>
      match decList decString v with
      | Except.error e => Except.error e
      | Except.ok x => PropertyBag.parseProps rest { strct with Tags := x }
    | _ => PropertyBag.parseProps rest { strct with AdditionalProperties := some (insertKV k v (strct.AdditionalProperties.getD [])) }

/-- Embeds func (strct *PropertyBag) UnmarshalJSON in src/sarif.go. -/
def PropertyBag.unmarshalJSON (j : Json) : Except String Sarif.PropertyBag :=
  match asObject j with
  | Except.error e => Except.error e
  | Except.ok jsonMap =>
    match PropertyBag.parseProps jsonMap PropertyBag.zero with
    | Except.error e => Except.error e
    | Except.ok strct => Except.ok strct
/-- Field record of the Go struct Address in src/sarif.go (field order preserved). -/
structure Address where
  AbsoluteAddress : Int
  FullyQualifiedName : String
  Index : Int
  Kind : String
  Length : Int
  Name : String
  OffsetFromParent : Int
  ParentIndex : Int
  Properties : Option Sarif.PropertyBag
  RelativeAddress : Int

/-- The Go zero value of Address: what UnmarshalJSON starts from. -/
def Address.zero : Sarif.Address where
  AbsoluteAddress := 0
  FullyQualifiedName := ""
  Index := 0
  Kind := ""
  Length := 0
  Name := ""
  OffsetFromParent := 0
  ParentIndex := 0
  Properties := none
  RelativeAddress := 0

/-- The property loop of func (strct *Address) UnmarshalJSON in src/sarif.go: dispatch
on each key of the decoded object, tracking which required keys were received.
Go iterates the map in unspecified order; entries arrive here in ascending key
order, one admissible schedule, and distinct keys update disjoint fields. -/
def Address.parseProps : List (String × Json) → (Sarif.Address) → Except String (Sarif.Address)
  | [], acc => Except.ok acc
  | (k, v) :: rest, strct =>
    match k with
    | "absoluteAddress" =>
      match decInt v with
      | Except.error e => Except.error e
      | Except.ok x => Address.parseProps rest ( { strct with AbsoluteAddress := x } )
    | "fullyQualifiedName" =>
      match decString v with
      | Except.error e => Except.error e
      | Except.ok x => Address.parseProps rest ( { strct with FullyQualifiedName := x } )
    | "index" =>
      match decInt v with
      | Except.error e => Except.error e
      | Except.ok x => Address.parseProps rest ( { strct with Index := x } )
    | "kind" =>
      match decString v with
      | Except.error e => Except.error e
      | Except.ok x => Address.parseProps rest ( { strct with Kind := x } )
    | "length" =>
      match decInt v with
      | Except.error e => Except.error e
      | Except.ok x => Address.parseProps rest ( { strct with Length := x } )
    | "name" =>
      match decString v with
      | Except.error e => Except.error e
      | Except.ok x => Address.parseProps rest ( { strct with Name := x } )
    | "offsetFromParent" =>
      match decInt v with
      | Except.error e => Except.error e
      | Except.ok x => Address.parseProps rest ( { strct with OffsetFromParent := x } )
    | "parentIndex" =>
      match decInt v with
      | Except.error e => Except.error e
      | Except.ok x => Address.parseProps rest ( { strct with ParentIndex := x } )
    | "properties" =>
      match decOpt Sarif.PropertyBag.unmarshalJSON v with
      | Except.error e => Except.error e
      | Except.ok x => Address.parseProps rest ( { strct with Properties := x } )
    | "relativeAddress" =>
      match decInt v with
      | Except.error e => Except.error e
      | Except.ok x => Address.parseProps rest ( { strct with RelativeAddress := x } )
    | _ => Except.error ("additional property not allowed: \"" ++ k ++ "\"")

/-- Embeds func (strct *Address) UnmarshalJSON in src/sarif.go. -/
def Address.unmarshalJSON (j : Json) : Except String Sarif.Address :=
  match asObject j with
  | Except.error e => Except.error e
  | Except.ok jsonMap =>
    match Address.parseProps jsonMap Address.zero with
    | Except.error e => Except.error e
    | Except.ok strct =>
      Except.ok strct

/-- Embeds func (strct *Address) MarshalJSON in src/sarif.go: every declared field
is emitted, in declaration order; required fields of object type are checked for nil. -/
def Address.marshalJSON (strct : Sarif.Address) : Except String Json :=
  match encInt strct.AbsoluteAddress with
  | Except.error e => Except.error e
  | Except.ok j0 =>
  match encString strct.FullyQualifiedName with
  | Except.error e => Except.error e
  | Except.ok j1 =>
  match encInt strct.Index with
  | Except.error e => Except.error e
  | Except.ok j2 =>
  match encString strct.Kind with
  | Except.error e => Except.error e
  | Except.ok j3 =>
  match encInt strct.Length with
  | Except.error e => Except.error e
  | Except.ok j4 =>
  match encString strct.Name with
  | Except.error e => Except.error e
  | Except.ok j5 =>
  match encInt strct.OffsetFromParent with
  | Except.error e => Except.error e
  | Except.ok j6 =>
  match encInt strct.ParentIndex with
  | Except.error e => Except.error e
  | Except.ok j7 =>
  match encOpt Sarif.PropertyBag.marshalJSON strct.Properties with
  | Except.error e => Except.error e
  | Except.ok j8 =>
  match encInt strct.RelativeAddress with
  | Except.error e => Except.error e
  | Except.ok j9 =>
  Except.ok (Json.obj [("absoluteAddress", j0), ("fullyQualifiedName", j1), ("index", j2), ("kind", j3), ("length", j4), ("name", j5), ("offsetFromParent", j6), ("parentIndex", j7), ("properties", j8), ("relativeAddress", j9)])

/-- Field record of the Go struct MultiformatMessageString in src/sarif.go (field order preserved). -/
structure MultiformatMessageString where
  Markdown : String
  Properties : Option Sarif.PropertyBag
  Text : String

/-- The Go zero value of MultiformatMessageString: what UnmarshalJSON starts from. -/
def MultiformatMessageString.zero : Sarif.MultiformatMessageString where
  Markdown := ""
  Properties := none
  Text := ""

/-- The property loop of func (strct *MultiformatMessageString) UnmarshalJSON in src/sarif.go: dispatch
on each key of the decoded object, tracking which required keys were received.
Go iterates the map in unspecified order; entries arrive here in ascending key
order, one admissible schedule, and distinct keys update disjoint fields. -/
def MultiformatMessageString.parseProps : List (String × Json) → (Sarif.MultiformatMessageString × Bool) → Except String (Sarif.MultiformatMessageString × Bool)
  | [], acc => Except.ok acc
  | (k, v) :: rest, (strct, textReceived) =>
    match k with
    | "markdown" =>
      match decString v with
      | Except.error e => Except.error e
      | Except.ok x => MultiformatMessageString.parseProps rest (( { strct with Markdown := x } ), textReceived)
    | "properties" =>
      match decOpt Sarif.PropertyBag.unmarshalJSON v with
      | Except.error e => Except.error e
      | Except.ok x => MultiformatMessageString.parseProps rest (( { strct with Properties := x } ), textReceived)
    | "text" =>
      match decString v with
      | Except.error e => Except.error e
      | Except.ok x => MultiformatMessageString.parseProps rest (( { strct with Text := x } ), true)
    | _ => Except.error ("additional property not allowed: \"" ++ k ++ "\"")

/-- Embeds func (strct *MultiformatMessageString) UnmarshalJSON in src/sarif.go. -/
def MultiformatMessageString.unmarshalJSON (j : Json) : Except String Sarif.MultiformatMessageString :=
  match asObject j with
  | Except.error e => Except.error e
  | Except.ok jsonMap =>
    match MultiformatMessageString.parseProps jsonMap (MultiformatMessageString.zero, false) with
    | Except.error e => Except.error e
    | Except.ok (strct, textReceived) =>
      if !textReceived then Except.error "\"text\" is required but was not present"
      else Except.ok strct

/-- Embeds func (strct *MultiformatMessageString) MarshalJSON in src/sarif.go: every declared field
is emitted, in declaration order; required fields of object type are checked for nil. -/
def MultiformatMessageString.marshalJSON (strct : Sarif.MultiformatMessageString) : Except String Json :=
  match encString strct.Markdown with
  | Except.error e => Except.error e
  | Except.ok j0 =>
  match encOpt Sarif.PropertyBag.marshalJSON strct.Properties with
  | Except.error e => Except.error e
  | Except.ok j1 =>
  match encString strct.Text with
  | Except.error e => Except.error e
  | Except.ok j2 =>
  Except.ok (Json.obj [("markdown", j0), ("properties", j1), ("text", j2)])

/-- Field record of the Go struct ArtifactContent in src/sarif.go (field order preserved). -/
structure ArtifactContent where
  Binary : String
  Properties : Option Sarif.PropertyBag
  Rendered : Option Sarif.MultiformatMessageString
  Text : String

/-- The Go zero value of ArtifactContent: what UnmarshalJSON starts from. -/
def ArtifactContent.zero : Sarif.ArtifactContent where
  Binary := ""
  Properties := none
  Rendered := none
  Text := ""

/-- The property loop of func (strct *ArtifactContent) UnmarshalJSON in src/sarif.go: dispatch
on each key of the decoded object, tracking which required keys were received.
Go iterates the map in unspecified order; entries arrive here in ascending key
order, one admissible schedule, and distinct keys update disjoint fields. -/
def ArtifactContent.parseProps : List (String × Json) → (Sarif.ArtifactContent) → Except String (Sarif.ArtifactContent)
  | [], acc => Except.ok acc
  | (k, v) :: rest, strct =>
    match k with
    | "binary" =>
      match decString v with
      | Except.error e => Except.error e
      | Except.ok x => ArtifactContent.parseProps rest ( { strct with Binary := x } )
    | "properties" =>
      match decOpt Sarif.PropertyBag.unmarshalJSON v with
      | Except.error e => Except.error e
      | Except.ok x => ArtifactContent.parseProps rest ( { strct with Properties := x } )
    | "rendered" =>
      match decOpt Sarif.MultiformatMessageString.unmarshalJSON v with
      | Except.error e => Except.error e
      | Except.ok x => ArtifactContent.parseProps rest ( { strct with Rendered := x } )
    | "text" =>
      match decString v with
      | Except.error e => Except.error e
      | Except.ok x => ArtifactContent.parseProps rest ( { strct with Text := x } )
    | _ => Except.error ("additional property not allowed: \"" ++ k ++ "\"")

/-- Embeds func (strct *ArtifactContent) UnmarshalJSON in src/sarif.go. -/
def ArtifactContent.unmarshalJSON (j : Json) : Except String Sarif.ArtifactContent :=
  match asObject j with
  | Except.error e => Except.error e
  | Except.ok jsonMap =>
    match ArtifactContent.parseProps jsonMap ArtifactContent.zero with
    | Except.error e => Except.error e
    | Except.ok strct =>
      Except.ok strct

/-- Embeds func (strct *ArtifactContent) MarshalJSON in src/sarif.go: every declared field
is emitted, in declaration order; required fields of object type are checked for nil. -/
def ArtifactContent.marshalJSON (strct : Sarif.ArtifactContent) : Except String Json :=
  match encString strct.Binary with
  | Except.error e => Except.error e
  | Except.ok j0 =>
  match encOpt Sarif.PropertyBag.marshalJSON strct.Properties with
  | Except.error e => Except.error e
  | Except.ok j1 =>
  match encOpt Sarif.MultiformatMessageString.marshalJSON strct.Rendered with
  | Except.error e => Except.error e
  | Except.ok j2 =>
  match encString strct.Text with
  | Except.error e => Except.error e
  | Except.ok j3 =>
  Except.ok (Json.obj [("binary", j0), ("properties", j1), ("rendered", j2), ("text", j3)])

/-- Field record of the Go struct Message in src/sarif.go (field order preserved). -/
structure Message where
  Arguments : Option (List String)
  Id : String
  Markdown : String
  Properties : Option Sarif.PropertyBag
  Text : String

/-- The Go zero value of Message: what UnmarshalJSON starts from. -/
def Message.zero : Sarif.Message where
  Arguments := none
  Id := ""
  Markdown := ""
  Properties := none
  Text := ""

/-- The property loop of func (strct *Message) UnmarshalJSON in src/sarif.go: dispatch
on each key of the decoded object, tracking which required keys were received.
Go iterates the map in unspecified order; entries arrive here in ascending key
order, one admissible schedule, and distinct keys update disjoint fields. -/
def Message.parseProps : List (String × Json) → (Sarif.Message) → Except String (Sarif.Message)
  | [], acc => Except.ok acc
  | (k, v) :: rest, strct =>
    match k with
    | "arguments" =>
      match decList decString v with
      | Except.error e => Except.error e
      | Except.ok x => Message.parseProps rest ( { strct with Arguments := x } )
    | "id" =>
      match decString v with
      | Except.error e => Except.error e
      | Except.ok x => Message.parseProps rest ( { strct with Id := x } )
    | "markdown" =>
      match decString v with
      | Except.error e => Except.error e
      | Except.ok x => Message.parseProps rest ( { strct with Markdown := x } )
    | "properties" =>
      match decOpt Sarif.PropertyBag.unmarshalJSON v with
      | Except.error e => Except.error e
      | Except.ok x => Message.parseProps rest ( { strct with Properties := x } )
    | "text" =>
      match decString v with
      | Except.error e => Except.error e
      | Except.ok x => Message.parseProps rest ( { strct with Text := x } )
    | _ => Except.error ("additional property not allowed: \"" ++ k ++ "\"")

/-- Embeds func (strct *Message) UnmarshalJSON in src/sarif.go. -/
def Message.unmarshalJSON (j : Json) : Except String Sarif.Message :=
  match asObject j with
  | Except.error e => Except.error e
  | Except.ok jsonMap =>
    match Message.parseProps jsonMap Message.zero with
    | Except.error e => Except.error e
    | Except.ok strct =>
      Except.ok strct

/-- Embeds func (strct *Message) MarshalJSON in src/sarif.go: every declared field
is emitted, in declaration order; required fields of object type are checked for nil. -/
def Message.marshalJSON (strct : Sarif.Message) : Except String Json :=
  match encList encString strct.Arguments with
  | Except.error e => Except.error e
  | Except.ok j0 =>
  match encString strct.Id with
  | Except.error e => Except.error e
  | Except.ok j1 =>
  match encString strct.Markdown with
  | Except.error e => Except.error e
  | Except.ok j2 =>
  match encOpt Sarif.PropertyBag.marshalJSON strct.Properties with
  | Except.error e => Except.error e
  | Except.ok j3 =>
  match encString strct.Text with
  | Except.error e => Except.error e
  | Except.ok j4 =>
  Except.ok (Json.obj [("arguments", j0), ("id", j1), ("markdown", j2), ("properties", j3), ("text", j4)])

/-- Field record of the Go struct ArtifactLocation in src/sarif.go (field order preserved). -/
structure ArtifactLocation where
  Description : Option Sarif.Message
  Index : Int
  Properties : Option Sarif.PropertyBag
  Uri : String
  UriBaseId : String

/-- The Go zero value of ArtifactLocation: what UnmarshalJSON starts from. -/
def ArtifactLocation.zero : Sarif.ArtifactLocation where
  Description := none
  Index := 0
  Properties := none
  Uri := ""
  UriBaseId := ""

/-- The property loop of func (strct *ArtifactLocation) UnmarshalJSON in src/sarif.go: dispatch
on each key of the decoded object, tracking which required keys were received.
Go iterates the map in unspecified order; entries arrive here in ascending key
order, one admissible schedule, and distinct keys update disjoint fields. -/
def ArtifactLocation.parseProps : List (String × Json) → (Sarif.ArtifactLocation) → Except String (Sarif.ArtifactLocation)
  | [], acc => Except.ok acc
  | (k, v) :: rest, strct =>
    match k with
    | "description" =>
      match decOpt Sarif.Message.unmarshalJSON v with
      | Except.error e => Except.error e
      | Except.ok x => ArtifactLocation.parseProps rest ( { strct with Description := x } )
    | "index" =>
      match decInt v with
      | Except.error e => Except.error e
      | Except.ok x => ArtifactLocation.parseProps rest ( { strct with Index := x } )
    | "properties" =>
      match decOpt Sarif.PropertyBag.unmarshalJSON v with
      | Except.error e => Except.error e
      | Except.ok x => ArtifactLocation.parseProps rest ( { strct with Properties := x } )
    | "uri" =>
      match decString v with
      | Except.error e => Except.error e
      | Except.ok x => ArtifactLocation.parseProps rest ( { strct with Uri := x } )
    | "uriBaseId" =>
      match decString v with
      | Except.error e => Except.error e
      | Except.ok x => ArtifactLocation.parseProps rest ( { strct with UriBaseId := x } )
    | _ => Except.error ("additional property not allowed: \"" ++ k ++ "\"")

/-- Embeds func (strct *ArtifactLocation) UnmarshalJSON in src/sarif.go. -/
def ArtifactLocation.unmarshalJSON (j : Json) : Except String Sarif.ArtifactLocation :=
  match asObject j with
  | Except.error e => Except.error e
  | Except.ok jsonMap =>
    match ArtifactLocation.parseProps jsonMap ArtifactLocation.zero with
    | Except.error e => Except.error e
    | Except.ok strct =>
      Except.ok strct

/-- Embeds func (strct *ArtifactLocation) MarshalJSON in src/sarif.go: every declared field
is emitted, in declaration order; required fields of object type are checked for nil. -/
def ArtifactLocation.marshalJSON (strct : Sarif.ArtifactLocation) : Except String Json :=
  match encOpt Sarif.Message.marshalJSON strct.Description with
  | Except.error e => Except.error e
  | Except.ok j0 =>
  match encInt strct.Index with
  | Except.error e => Except.error e
  | Except.ok j1 =>
  match encOpt Sarif.PropertyBag.marshalJSON strct.Properties with
  | Except.error e => Except.error e
  | Except.ok j2 =>
  match encString strct.Uri with
  | Except.error e => Except.error e
  | Except.ok j3 =>
  match encString strct.UriBaseId with
  | Except.error e => Except.error e
  | Except.ok j4 =>
  Except.ok (Json.obj [("description", j0), ("index", j1), ("properties", j2), ("uri", j3), ("uriBaseId", j4)])

/-- Field record of the Go struct Artifact in src/sarif.go (field order preserved). -/
structure Artifact where
  Contents : Option Sarif.ArtifactContent
  Description : Option Sarif.Message
  Encoding : String
  Hashes : Option (List (String × String))
  LastModifiedTimeUtc : String
  Length : Int
  Location : Option Sarif.ArtifactLocation
  MimeType : String
  Offset : Int
  ParentIndex : Int
  Properties : Option Sarif.PropertyBag
  Roles : Option (List String)
  SourceLanguage : String

/-- The Go zero value of Artifact: what UnmarshalJSON starts from. -/
def Artifact.zero : Sarif.Artifact where
  Contents := none
  Description := none
  Encoding := ""
  Hashes := none
  LastModifiedTimeUtc := ""
  Length := 0
  Location := none
  MimeType := ""
  Offset := 0
  ParentIndex := 0
  Properties := none
  Roles := none
  SourceLanguage := ""

/-- The property loop of func (strct *Artifact) UnmarshalJSON in src/sarif.go: dispatch
on each key of the decoded object, tracking which required keys were received.
Go iterates the map in unspecified order; entries arrive here in ascending key
order, one admissible schedule, and distinct keys update disjoint fields. -/
def Artifact.parseProps : List (String × Json) → (Sarif.Artifact) → Except String (Sarif.Artifact)
  | [], acc => Except.ok acc
  | (k, v) :: rest, strct =>
    match k with
    | "contents" =>
      match decOpt Sarif.ArtifactContent.unmarshalJSON v with
      | Except.error e => Except.error e
      | Except.ok x => Artifact.parseProps rest ( { strct with Contents := x } )
    | "description" =>
      match decOpt Sarif.Message.unmarshalJSON v with
      | Except.error e => Except.error e
      | Except.ok x => Artifact.parseProps rest ( { strct with Description := x } )
    | "encoding" =>
      match decString v with
      | Except.error e => Except.error e
      | Except.ok x => Artifact.parseProps rest ( { strct with Encoding := x } )
    | "hashes" =>
      match decMap decString v with
      | Except.error e => Except.error e
      | Except.ok x => Artifact.parseProps rest ( { strct with Hashes := x } )
    | "lastModifiedTimeUtc" =>
      match decString v with
      | Except.error e => Except.error e
      | Except.ok x => Artifact.parseProps rest ( { strct with LastModifiedTimeUtc := x } )
    | "length" =>
      match decInt v with
      | Except.error e => Except.error e
      | Except.ok x => Artifact.parseProps rest ( { strct with Length := x } )
    | "location" =>
      match decOpt Sarif.ArtifactLocation.unmarshalJSON v with
      | Except.error e => Except.error e
      | Except.ok x => Artifact.parseProps rest ( { strct with Location := x } )
    | "mimeType" =>
      match decString v with
      | Except.error e => Except.error e
      | Except.ok x => Artifact.parseProps rest ( { strct with MimeType := x } )
    | "offset" =>
      match decInt v with
      | Except.error e => Except.error e
      | Except.ok x => Artifact.parseProps rest ( { strct with Offset := x } )
    | "parentIndex" =>
      match decInt v with
      | Except.error e => Except.error e
      | Except.ok x => Artifact.parseProps rest ( { strct with ParentIndex := x } )
    | "properties" =>
      match decOpt Sarif.PropertyBag.unmarshalJSON v with
      | Except.error e => Except.error e
      | Except.ok x => Artifact.parseProps rest ( { strct with Properties := x } )
    | "roles" =>
      match decList decString v with
      | Except.error e => Except.error e
      | Except.ok x => Artifact.parseProps rest ( { strct with Roles := x } )
    | "sourceLanguage" =>
      match decString v with
      | Except.error e => Except.error e
      | Except.ok x => Artifact.parseProps rest ( { strct with SourceLanguage := x } )
    | _ => Except.error ("additional property not allowed: \"" ++ k ++ "\"")

/-- Embeds func (strct *Artifact) UnmarshalJSON in src/sarif.go. -/
def Artifact.unmarshalJSON (j : Json) : Except String Sarif.Artifact :=
  match asObject j with
  | Except.error e => Except.error e
  | Except.ok jsonMap =>
    match Artifact.parseProps jsonMap Artifact.zero with
    | Except.error e => Except.error e
    | Except.ok strct =>
      Except.ok strct

/-- Embeds func (strct *Artifact) MarshalJSON in src/sarif.go: every declared field
is emitted, in declaration order; required fields of object type are checked for nil. -/
def Artifact.marshalJSON (strct : Sarif.Artifact) : Except String Json :=
  match encOpt Sarif.ArtifactContent.marshalJSON strct.Contents with
  | Except.error e => Except.error e
  | Except.ok j0 =>
  match encOpt Sarif.Message.marshalJSON strct.Description with
  | Except.error e => Except.error e
  | Except.ok j1 =>
  match encString strct.Encoding with
  | Except.error e => Except.error e
  | Except.ok j2 =>
  match encMap encString strct.Hashes with
  | Except.error e => Except.error e
  | Except.ok j3 =>
  match encString strct.LastModifiedTimeUtc with
  | Except.error e => Except.error e
  | Except.ok j4 =>
  match encInt strct.Length with
  | Except.error e => Except.error e
  | Except.ok j5 =>
  match encOpt Sarif.ArtifactLocation.marshalJSON strct.Location with
  | Except.error e => Except.error e
  | Except.ok j6 =>
  match encString strct.MimeType with
  | Except.error e => Except.error e
  | Except.ok j7 =>
  match encInt strct.Offset with
  | Except.error e => Except.error e
  | Except.ok j8 =>
  match encInt strct.ParentIndex with
  | Except.error e => Except.error e
  | Except.ok j9 =>
  match encOpt Sarif.PropertyBag.marshalJSON strct.Properties with
  | Except.error e => Except.error e
  | Except.ok j10 =>
  match encList encString strct.Roles with
  | Except.error e => Except.error e
  | Except.ok j11 =>
  match encString strct.SourceLanguage with
  | Except.error e => Except.error e
  | Except.ok j12 =>
  Except.ok (Json.obj [("contents", j0), ("description", j1), ("encoding", j2), ("hashes", j3), ("lastModifiedTimeUtc", j4), ("length", j5), ("location", j6), ("mimeType", j7), ("offset", j8), ("parentIndex", j9), ("properties", j10), ("roles", j11), ("sourceLanguage", j12)])

/-- Field record of the Go struct Region in src/sarif.go (field order preserved). -/
structure Region where
  ByteLength : Int
  ByteOffset : Int
  CharLength : Int
  CharOffset : Int
  EndColumn : Int
  EndLine : Int
  Message : Option Sarif.Message
  Properties : Option Sarif.PropertyBag
  Snippet : Option Sarif.ArtifactContent
  SourceLanguage : String
  StartColumn : Int
  StartLine : Int

/-- The Go zero value of Region: what UnmarshalJSON starts from. -/
def Region.zero : Sarif.Region where
  ByteLength := 0
  ByteOffset := 0
  CharLength := 0
  CharOffset := 0
  EndColumn := 0
  EndLine := 0
  Message := none
  Properties := none
  Snippet := none
  SourceLanguage := ""
  StartColumn := 0
  StartLine := 0

/-- The property loop of func (strct *Region) UnmarshalJSON in src/sarif.go: dispatch
on each key of the decoded object, tracking which required keys were received.
Go iterates the map in unspecified order; entries arrive here in ascending key
order, one admissible schedule, and distinct keys update disjoint fields. -/
def Region.parseProps : List (String × Json) → (Sarif.Region) → Except String (Sarif.Region)
  | [], acc => Except.ok acc
  | (k, v) :: rest, strct =>
    match k with
    | "byteLength" =>
      match decInt v with
      | Except.error e => Except.error e
      | Except.ok x => Region.parseProps rest ( { strct with ByteLength := x } )
    | "byteOffset" =>
      match decInt v with
      | Except.error e => Except.error e
      | Except.ok x => Region.parseProps rest ( { strct with ByteOffset := x } )
    | "charLength" =>
      match decInt v with
      | Except.error e => Except.error e
      | Except.ok x => Region.parseProps rest ( { strct with CharLength := x } )
    | "charOffset" =>
      match decInt v with
      | Except.error e => Except.error e
      | Except.ok x => Region.parseProps rest ( { strct with CharOffset := x } )
    | "endColumn" =>
      match decInt v with
      | Except.error e => Except.error e
      | Except.ok x => Region.parseProps rest ( { strct with EndColumn := x } )
    | "endLine" =>
      match decInt v with
      | Except.error e => Except.error e
      | Except.ok x => Region.parseProps rest ( { strct with EndLine := x } )
    | "message" =>
      match decOpt Sarif.Message.unmarshalJSON v with
      | Except.error e => Except.error e
      | Except.ok x => Region.parseProps rest ( { strct with Message := x } )
    | "properties" =>
      match decOpt Sarif.PropertyBag.unmarshalJSON v with
      | Except.error e => Except.error e
      | Except.ok x => Region.parseProps rest ( { strct with Properties := x } )
    | "snippet" =>
      match decOpt Sarif.ArtifactContent.unmarshalJSON v with
      | Except.error e => Except.error e
      | Except.ok x => Region.parseProps rest ( { strct with Snippet := x } )
    | "sourceLanguage" =>
      match decString v with
      | Except.error e => Except.error e
      | Except.ok x => Region.parseProps rest ( { strct with SourceLanguage := x } )
    | "startColumn" =>
      match decInt v with
      | Except.error e => Except.error e
      | Except.ok x => Region.parseProps rest ( { strct with StartColumn := x } )
    | "startLine" =>
      match decInt v with
      | Except.error e => Except.error e
      | Except.ok x => Region.parseProps rest ( { strct with StartLine := x } )
    | _ => Except.error ("additional property not allowed: \"" ++ k ++ "\"")

/-- Embeds func (strct *Region) UnmarshalJSON in src/sarif.go. -/
def Region.unmarshalJSON (j : Json) : Except String Sarif.Region :=
  match asObject j with
  | Except.error e => Except.error e
  | Except.ok jsonMap =>
    match Region.parseProps jsonMap Region.zero with
    | Except.error e => Except.error e
    | Except.ok strct =>
      Except.ok strct

/-- Embeds func (strct *Region) MarshalJSON in src/sarif.go: every declared field
is emitted, in declaration order; required fields of object type are checked for nil. -/
def Region.marshalJSON (strct : Sarif.Region) : Except String Json :=
  match encInt strct.ByteLength with
  | Except.error e => Except.error e
  | Except.ok j0 =>
  match encInt strct.ByteOffset with
  | Except.error e => Except.error e
  | Except.ok j1 =>
  match encInt strct.CharLength with
  | Except.error e => Except.error e
  | Except.ok j2 =>
  match encInt strct.CharOffset with
  | Except.error e => Except.error e
  | Except.ok j3 =>
  match encInt strct.EndColumn with
  | Except.error e => Except.error e
  | Except.ok j4 =>
  match encInt strct.EndLine with
  | Except.error e => Except.error e
  | Except.ok j5 =>
  match encOpt Sarif.Message.marshalJSON strct.Message with
  | Except.error e => Except.error e
  | Except.ok j6 =>
  match encOpt Sarif.PropertyBag.marshalJSON strct.Properties with
  | Except.error e => Except.error e
  | Except.ok j7 =>
  match encOpt Sarif.ArtifactContent.marshalJSON strct.Snippet with
  | Except.error e => Except.error e
  | Except.ok j8 =>
  match encString strct.SourceLanguage with
  | Except.error e => Except.error e
  | Except.ok j9 =>
  match encInt strct.StartColumn with
  | Except.error e => Except.error e
  | Except.ok j10 =>
  match encInt strct.StartLine with
  | Except.error e => Except.error e
  | Except.ok j11 =>
  Except.ok (Json.obj [("byteLength", j0), ("byteOffset", j1), ("charLength", j2), ("charOffset", j3), ("endColumn", j4), ("endLine", j5), ("message", j6), ("properties", j7), ("snippet", j8), ("sourceLanguage", j9), ("startColumn", j10), ("startLine", j11)])

/-- Field record of the Go struct Replacement in src/sarif.go (field order preserved). -/
structure Replacement where
  DeletedRegion : Option Sarif.Region
  InsertedContent : Option Sarif.ArtifactContent
  Properties : Option Sarif.PropertyBag

/-- The Go zero value of Replacement: what UnmarshalJSON starts from. -/
def Replacement.zero : Sarif.Replacement where
  DeletedRegion := none
  InsertedContent := none
  Properties := none

/-- The property loop of func (strct *Replacement) UnmarshalJSON in src/sarif.go: dispatch
on each key of the decoded object, tracking which required keys were received.
Go iterates the map in unspecified order; entries arrive here in ascending key
order, one admissible schedule, and distinct keys update disjoint fields. -/
def Replacement.parseProps : List (String × Json) → (Sarif.Replacement × Bool) → Except String (Sarif.Replacement × Bool)
  | [], acc => Except.ok acc
  | (k, v) :: rest, (strct, deletedRegionReceived) =>
    match k with
    | "deletedRegion" =>
      match decOpt Sarif.Region.unmarshalJSON v with
      | Except.error e => Except.error e
      | Except.ok x => Replacement.parseProps rest (( { strct with DeletedRegion := x } ), true)
    | "insertedContent" =>
      match decOpt Sarif.ArtifactContent.unmarshalJSON v with
      | Except.error e => Except.error e
      | Except.ok x => Replacement.parseProps rest (( { strct with InsertedContent := x } ), deletedRegionReceived)
    | "properties" =>
      match decOpt Sarif.PropertyBag.unmarshalJSON v with
      | Except.error e => Except.error e
      | Except.ok x => Replacement.parseProps rest (( { strct with Properties := x } ), deletedRegionReceived)
    | _ => Except.error ("additional property not allowed: \"" ++ k ++ "\"")

/-- Embeds func (strct *Replacement) UnmarshalJSON in src/sarif.go. -/
def Replacement.unmarshalJSON (j : Json) : Except String Sarif.Replacement :=
  match asObject j with
  | Except.error e => Except.error e
  | Except.ok jsonMap =>
    match Replacement.parseProps jsonMap (Replacement.zero, false) with
    | Except.error e => Except.error e
    | Except.ok (strct, deletedRegionReceived) =>
      if !deletedRegionReceived then Except.error "\"deletedRegion\" is required but was not present"
      else Except.ok strct

/-- Embeds func (strct *Replacement) MarshalJSON in src/sarif.go: every declared field
is emitted, in declaration order; required fields of object type are checked for nil. -/
def Replacement.marshalJSON (strct : Sarif.Replacement) : Except String Json :=
  if strct.DeletedRegion.isNone then Except.error "deletedRegion is a required field"
  else
  match encOpt Sarif.Region.marshalJSON strct.DeletedRegion with
  | Except.error e => Except.error e
  | Except.ok j0 =>
  match encOpt Sarif.ArtifactContent.marshalJSON strct.InsertedContent with
  | Except.error e => Except.error e
  | Except.ok j1 =>
  match encOpt Sarif.PropertyBag.marshalJSON strct.Properties with
  | Except.error e => Except.error e
  | Except.ok j2 =>
  Except.ok (Json.obj [("deletedRegion", j0), ("insertedContent", j1), ("properties", j2)])

/-- Field record of the Go struct ArtifactChange in src/sarif.go (field order preserved). -/
structure ArtifactChange where
  ArtifactLocation : Option Sarif.ArtifactLocation
  Properties : Option Sarif.PropertyBag
  Replacements : Option (List (Option Sarif.Replacement))

/-- The Go zero value of ArtifactChange: what UnmarshalJSON starts from. -/
def ArtifactChange.zero : Sarif.ArtifactChange where
  ArtifactLocation := none
  Properties := none
  Replacements := none

/-- The property loop of func (strct *ArtifactChange) UnmarshalJSON in src/sarif.go: dispatch
on each key of the decoded object, tracking which required keys were received.
Go iterates the map in unspecified order; entries arrive here in ascending key
order, one admissible schedule, and distinct keys update disjoint fields. -/
def ArtifactChange.parseProps : List (String × Json) → (Sarif.ArtifactChange × Bool × Bool) → Except String (Sarif.ArtifactChange × Bool × Bool)
  | [], acc => Except.ok acc
  | (k, v) :: rest, (strct, artifactLocationReceived, replacementsReceived) =>
    match k with
    | "artifactLocation" =>
      match decOpt Sarif.ArtifactLocation.unmarshalJSON v with
      | Except.error e => Except.error e
      | Except.ok x => ArtifactChange.parseProps rest (( { strct with ArtifactLocation := x } ), true, replacementsReceived)
    | "properties" =>
      match decOpt Sarif.PropertyBag.unmarshalJSON v with
      | Except.error e => Except.error e
      | Except.ok x => ArtifactChange.parseProps rest (( { strct with Properties := x } ), artifactLocationReceived, replacementsReceived)
    | "replacements" =>
      match decList (decOpt Sarif.Replacement.unmarshalJSON) v with
      | Except.error e => Except.error e
      | Except.ok x => ArtifactChange.parseProps rest (( { strct with Replacements := x } ), artifactLocationReceived, true)
    | _ => Except.error ("additional property not allowed: \"" ++ k ++ "\"")

/-- Embeds func (strct *ArtifactChange) UnmarshalJSON in src/sarif.go. -/
def ArtifactChange.unmarshalJSON (j : Json) : Except String Sarif.ArtifactChange :=
  match asObject j with
  | Except.error e => Except.error e
  | Except.ok jsonMap =>
    match ArtifactChange.parseProps jsonMap (ArtifactChange.zero, false, false) with
    | Except.error e => Except.error e
    | Except.ok (strct, artifactLocationReceived, replacementsReceived) =>
      if !artifactLocationReceived then Except.error "\"artifactLocation\" is required but was not present"
      else if !replacementsReceived then Except.error "\"replacements\" is required but was not present"
      else Except.ok strct

/-- Embeds func (strct *ArtifactChange) MarshalJSON in src/sarif.go: every declared field
is emitted, in declaration order; required fields of object type are checked for nil. -/
def ArtifactChange.marshalJSON (strct : Sarif.ArtifactChange) : Except String Json :=
  if strct.ArtifactLocation.isNone then Except.error "artifactLocation is a required field"
  else
  match encOpt Sarif.ArtifactLocation.marshalJSON strct.ArtifactLocation with
  | Except.error e => Except.error e
  | Except.ok j0 =>
  match encOpt Sarif.PropertyBag.marshalJSON strct.Properties with
  | Except.error e => Except.error e
  | Except.ok j1 =>
  match encList (encOpt Sarif.Replacement.marshalJSON) strct.Replacements with
  | Except.error e => Except.error e
  | Except.ok j2 =>
  Except.ok (Json.obj [("artifactLocation", j0), ("properties", j1), ("replacements", j2)])

/-- Field record of the Go struct Rectangle in src/sarif.go (field order preserved). -/
structure Rectangle where
  Bottom : Rat
  Left : Rat
  Message : Option Sarif.Message
  Properties : Option Sarif.PropertyBag
  Right : Rat
  Top : Rat

/-- The Go zero value of Rectangle: what UnmarshalJSON starts from. -/
def Rectangle.zero : Sarif.Rectangle where
  Bottom := 0
  Left := 0
  Message := none
  Properties := none
  Right := 0
  Top := 0

/-- The property loop of func (strct *Rectangle) UnmarshalJSON in src/sarif.go: dispatch
on each key of the decoded object, tracking which required keys were received.
Go iterates the map in unspecified order; entries arrive here in ascending key
order, one admissible schedule, and distinct keys update disjoint fields. -/
def Rectangle.parseProps : List (String × Json) → (Sarif.Rectangle) → Except String (Sarif.Rectangle)
  | [], acc => Except.ok acc
  | (k, v) :: rest, strct =>
    match k with
    | "bottom" =>
      match decFloat v with
      | Except.error e => Except.error e
      | Except.ok x => Rectangle.parseProps rest ( { strct with Bottom := x } )
    | "left" =>
      match decFloat v with
      | Except.error e => Except.error e
      | Except.ok x => Rectangle.parseProps rest ( { strct with Left := x } )
    | "message" =>
      match decOpt Sarif.Message.unmarshalJSON v with
      | Except.error e => Except.error e
      | Except.ok x => Rectangle.parseProps rest ( { strct with Message := x } )
    | "properties" =>
      match decOpt Sarif.PropertyBag.unmarshalJSON v with
      | Except.error e => Except.error e
      | Except.ok x => Rectangle.parseProps rest ( { strct with Properties := x } )
    | "right" =>
      match decFloat v with
      | Except.error e => Except.error e
      | Except.ok x => Rectangle.parseProps rest ( { strct with Right := x } )
    | "top" =>
      match decFloat v with
      | Except.error e => Except.error e
      | Except.ok x => Rectangle.parseProps rest ( { strct with Top := x } )
    | _ => Except.error ("additional property not allowed: \"" ++ k ++ "\"")

/-- Embeds func (strct *Rectangle) UnmarshalJSON in src/sarif.go. -/
def Rectangle.unmarshalJSON (j : Json) : Except String Sarif.Rectangle :=
  match asObject j with
  | Except.error e => Except.error e
  | Except.ok jsonMap =>
    match Rectangle.parseProps jsonMap Rectangle.zero with
    | Except.error e => Except.error e
    | Except.ok strct =>
      Except.ok strct

/-- Embeds func (strct *Rectangle) MarshalJSON in src/sarif.go: every declared field
is emitted, in declaration order; required fields of object type are checked for nil. -/
def Rectangle.marshalJSON (strct : Sarif.Rectangle) : Except String Json :=
  match encFloat strct.Bottom with
  | Except.error e => Except.error e
  | Except.ok j0 =>
  match encFloat strct.Left with
  | Except.error e => Except.error e
  | Except.ok j1 =>
  match encOpt Sarif.Message.marshalJSON strct.Message with
  | Except.error e => Except.error e
  | Except.ok j2 =>
  match encOpt Sarif.PropertyBag.marshalJSON strct.Properties with
  | Except.error e => Except.error e
  | Except.ok j3 =>
  match encFloat strct.Right with
  | Except.error e => Except.error e
  | Except.ok j4 =>
  match encFloat strct.Top with
  | Except.error e => Except.error e
  | Except.ok j5 =>
  Except.ok (Json.obj [("bottom", j0), ("left", j1), ("message", j2), ("properties", j3), ("right", j4), ("top", j5)])

/-- Field record of the Go struct Attachment in src/sarif.go (field order preserved). -/
structure Attachment where
  ArtifactLocation : Option Sarif.ArtifactLocation
  Description : Option Sarif.Message
  Properties : Option Sarif.PropertyBag
  Rectangles : Option (List (Option Sarif.Rectangle))
  Regions : Option (List (Option Sarif.Region))

/-- The Go zero value of Attachment: what UnmarshalJSON starts from. -/
def Attachment.zero : Sarif.Attachment where
  ArtifactLocation := none
  Description := none
  Properties := none
  Rectangles := none
  Regions := none

/-- The property loop of func (strct *Attachment) UnmarshalJSON in src/sarif.go: dispatch
on each key of the decoded object, tracking which required keys were received.
Go iterates the map in unspecified order; entries arrive here in ascending key
order, one admissible schedule, and distinct keys update disjoint fields. -/
def Attachment.parseProps : List (String × Json) → (Sarif.Attachment × Bool) → Except String (Sarif.Attachment × Bool)
  | [], acc => Except.ok acc
  | (k, v) :: rest, (strct, artifactLocationReceived) =>
    match k with
    | "artifactLocation" =>
      match decOpt Sarif.ArtifactLocation.unmarshalJSON v with
      | Except.error e => Except.error e
      | Except.ok x => Attachment.parseProps rest (( { strct with ArtifactLocation := x } ), true)
    | "description" =>
      match decOpt Sarif.Message.unmarshalJSON v with
      | Except.error e => Except.error e
      | Except.ok x => Attachment.parseProps rest (( { strct with Description := x } ), artifactLocationReceived)
    | "properties" =>
      match decOpt Sarif.PropertyBag.unmarshalJSON v with
      | Except.error e => Except.error e
      | Except.ok x => Attachment.parseProps rest (( { strct with Properties := x } ), artifactLocationReceived)
    | "rectangles" =>
      match decList (decOpt Sarif.Rectangle.unmarshalJSON) v with
      | Except.error e => Except.error e
      | Except.ok x => Attachment.parseProps rest (( { strct with Rectangles := x } ), artifactLocationReceived)
    | "regions" =>
      match decList (decOpt Sarif.Region.unmarshalJSON) v with
      | Except.error e => Except.error e
      | Except.ok x => Attachment.parseProps rest (( { strct with Regions := x } ), artifactLocationReceived)
    | _ => Except.error ("additional property not allowed: \"" ++ k ++ "\"")

/-- Embeds func (strct *Attachment) UnmarshalJSON in src/sarif.go. -/
def Attachment.unmarshalJSON (j : Json) : Except String Sarif.Attachment :=
  match asObject j with
  | Except.error e => Except.error e
  | Except.ok jsonMap =>
    match Attachment.parseProps jsonMap (Attachment.zero, false) with
    | Except.error e => Except.error e
    | Except.ok (strct, artifactLocationReceived) =>
      if !artifactLocationReceived then Except.error "\"artifactLocation\" is required but was not present"
      else Except.ok strct

/-- Embeds func (strct *Attachment) MarshalJSON in src/sarif.go: every declared field
is emitted, in declaration order; required fields of object type are checked for nil. -/
def Attachment.marshalJSON (strct : Sarif.Attachment) : Except String Json :=
  if strct.ArtifactLocation.isNone then Except.error "artifactLocation is a required field"
  else
  match encOpt Sarif.ArtifactLocation.marshalJSON strct.ArtifactLocation with
  | Except.error e => Except.error e
  | Except.ok j0 =>
  match encOpt Sarif.Message.marshalJSON strct.Description with
  | Except.error e => Except.error e
  | Except.ok j1 =>
  match encOpt Sarif.PropertyBag.marshalJSON strct.Properties with
  | Except.error e => Except.error e
  | Except.ok j2 =>
  match encList (encOpt Sarif.Rectangle.marshalJSON) strct.Rectangles with
  | Except.error e => Except.error e
  | Except.ok j3 =>
  match encList (encOpt Sarif.Region.marshalJSON) strct.Regions with
  | Except.error e => Except.error e
  | Except.ok j4 =>
  Except.ok (Json.obj [("artifactLocation", j0), ("description", j1), ("properties", j2), ("rectangles", j3), ("regions", j4)])

/-- Field record of the Go struct LocationRelationship in src/sarif.go (field order preserved). -/
structure LocationRelationship where
  Description : Option Sarif.Message
  Kinds : Option (List String)
  Properties : Option Sarif.PropertyBag
  Target : Int

/-- The Go zero value of LocationRelationship: what UnmarshalJSON starts from. -/
def LocationRelationship.zero : Sarif.LocationRelationship where
  Description := none
  Kinds := none
  Properties := none
  Target := 0

/-- The property loop of func (strct *LocationRelationship) UnmarshalJSON in src/sarif.go: dispatch
on each key of the decoded object, tracking which required keys were received.
Go iterates the map in unspecified order; entries arrive here in ascending key
order, one admissible schedule, and distinct keys update disjoint fields. -/
def LocationRelationship.parseProps : List (String × Json) → (Sarif.LocationRelationship × Bool) → Except String (Sarif.LocationRelationship × Bool)
  | [], acc => Except.ok acc
  | (k, v) :: rest, (strct, targetReceived) =>
    match k with
    | "description" =>
      match decOpt Sarif.Message.unmarshalJSON v with
      | Except.error e => Except.error e
      | Except.ok x => LocationRelationship.parseProps rest (( { strct with Description := x } ), targetReceived)
    | "kinds" =>
      match decList decString v with
      | Except.error e => Except.error e
      | Except.ok x => LocationRelationship.parseProps rest (( { strct with Kinds := x } ), targetReceived)
    | "properties" =>
      match decOpt Sarif.PropertyBag.unmarshalJSON v with
      | Except.error e => Except.error e
      | Except.ok x => LocationRelationship.parseProps rest (( { strct with Properties := x } ), targetReceived)
    | "target" =>
      match decInt v with
      | Except.error e => Except.error e
      | Except.ok x => LocationRelationship.parseProps rest (( { strct with Target := x } ), true)
    | _ => Except.error ("additional property not allowed: \"" ++ k ++ "\"")

/-- Embeds func (strct *LocationRelationship) UnmarshalJSON in src/sarif.go. -/
def LocationRelationship.unmarshalJSON (j : Json) : Except String Sarif.LocationRelationship :=
  match asObject j with
  | Except.error e => Except.error e
  | Except.ok jsonMap =>
    match LocationRelationship.parseProps jsonMap (LocationRelationship.zero, false) with
    | Except.error e => Except.error e
    | Except.ok (strct, targetReceived) =>
      if !targetReceived then Except.error "\"target\" is required but was not present"
      else Except.ok strct

/-- Embeds func (strct *LocationRelationship) MarshalJSON in src/sarif.go: every declared field
is emitted, in declaration order; required fields of object type are checked for nil. -/
def LocationRelationship.marshalJSON (strct : Sarif.LocationRelationship) : Except String Json :=
  match encOpt Sarif.Message.marshalJSON strct.Description with
  | Except.error e => Except.error e
  | Except.ok j0 =>
  match encList encString strct.Kinds with
  | Except.error e => Except.error e
  | Except.ok j1 =>
  match encOpt Sarif.PropertyBag.marshalJSON strct.Properties with
  | Except.error e => Except.error e
  | Except.ok j2 =>
  match encInt strct.Target with
  | Except.error e => Except.error e
  | Except.ok j3 =>
  Except.ok (Json.obj [("description", j0), ("kinds", j1), ("properties", j2), ("target", j3)])

/-- Field record of the Go struct LogicalLocation in src/sarif.go (field order preserved). -/
structure LogicalLocation where
  DecoratedName : String
  FullyQualifiedName : String
  Index : Int
  Kind : String
  Name : String
  ParentIndex : Int
  Properties : Option Sarif.PropertyBag

/-- The Go zero value of LogicalLocation: what UnmarshalJSON starts from. -/
def LogicalLocation.zero : Sarif.LogicalLocation where
  DecoratedName := ""
  FullyQualifiedName := ""
  Index := 0
  Kind := ""
  Name := ""
  ParentIndex := 0
  Properties := none

/-- The property loop of func (strct *LogicalLocation) UnmarshalJSON in src/sarif.go: dispatch
on each key of the decoded object, tracking which required keys were received.
Go iterates the map in unspecified order; entries arrive here in ascending key
order, one admissible schedule, and distinct keys update disjoint fields. -/
def LogicalLocation.parseProps : List (String × Json) → (Sarif.LogicalLocation) → Except String (Sarif.LogicalLocation)
  | [], acc => Except.ok acc
  | (k, v) :: rest, strct =>
    match k with
    | "decoratedName" =>
      match decString v with
      | Except.error e => Except.error e
      | Except.ok x => LogicalLocation.parseProps rest ( { strct with DecoratedName := x } )
    | "fullyQualifiedName" =>
      match decString v with
      | Except.error e => Except.error e
      | Except.ok x => LogicalLocation.parseProps rest ( { strct with FullyQualifiedName := x } )
    | "index" =>
      match decInt v with
      | Except.error e => Except.error e
      | Except.ok x => LogicalLocation.parseProps rest ( { strct with Index := x } )
    | "kind" =>
      match decString v with
      | Except.error e => Except.error e
      | Except.ok x => LogicalLocation.parseProps rest ( { strct with Kind := x } )
    | "name" =>
      match decString v with
      | Except.error e => Except.error e
      | Except.ok x => LogicalLocation.parseProps rest ( { strct with Name := x } )
    | "parentIndex" =>
      match decInt v with
      | Except.error e => Except.error e
      | Except.ok x => LogicalLocation.parseProps rest ( { strct with ParentIndex := x } )
    | "properties" =>
      match decOpt Sarif.PropertyBag.unmarshalJSON v with
      | Except.error e => Except.error e
      | Except.ok x => LogicalLocation.parseProps rest ( { strct with Properties := x } )
    | _ => Except.error ("additional property not allowed: \"" ++ k ++ "\"")

/-- Embeds func (strct *LogicalLocation) UnmarshalJSON in src/sarif.go. -/
def LogicalLocation.unmarshalJSON (j : Json) : Except String Sarif.LogicalLocation :=
  match asObject j with
  | Except.error e => Except.error e
  | Except.ok jsonMap =>
    match LogicalLocation.parseProps jsonMap LogicalLocation.zero with
    | Except.error e => Except.error e
    | Except.ok strct =>
      Except.ok strct

/-- Embeds func (strct *LogicalLocation) MarshalJSON in src/sarif.go: every declared field
is emitted, in declaration order; required fields of object type are checked for nil. -/
def LogicalLocation.marshalJSON (strct : Sarif.LogicalLocation) : Except String Json :=
  match encString strct.DecoratedName with
  | Except.error e => Except.error e
  | Except.ok j0 =>
  match encString strct.FullyQualifiedName with
  | Except.error e => Except.error e
  | Except.ok j1 =>
  match encInt strct.Index with
  | Except.error e => Except.error e
  | Except.ok j2 =>
  match encString strct.Kind with
  | Except.error e => Except.error e
  | Except.ok j3 =>
  match encString strct.Name with
  | Except.error e => Except.error e
  | Except.ok j4 =>
  match encInt strct.ParentIndex with
  | Except.error e => Except.error e
  | Except.ok j5 =>
  match encOpt Sarif.PropertyBag.marshalJSON strct.Properties with
  | Except.error e => Except.error e
  | Except.ok j6 =>
  Except.ok (Json.obj [("decoratedName", j0), ("fullyQualifiedName", j1), ("index", j2), ("kind", j3), ("name", j4), ("parentIndex", j5), ("properties", j6)])

/-- Field record of the Go struct PhysicalLocation in src/sarif.go (field order preserved). -/
structure PhysicalLocation where
  Address : Option Sarif.Address
  ArtifactLocation : Option Sarif.ArtifactLocation
  ContextRegion : Option Sarif.Region
  Properties : Option Sarif.PropertyBag
  Region : Option Sarif.Region

/-- The Go zero value of PhysicalLocation: what UnmarshalJSON starts from. -/
def PhysicalLocation.zero : Sarif.PhysicalLocation where
  Address := none
  ArtifactLocation := none
  ContextRegion := none
  Properties := none
  Region := none

/-- The property loop of func (strct *PhysicalLocation) UnmarshalJSON in src/sarif.go: dispatch
on each key of the decoded object, tracking which required keys were received.
Go iterates the map in unspecified order; entries arrive here in ascending key
order, one admissible schedule, and distinct keys update disjoint fields. -/
def PhysicalLocation.parseProps : List (String × Json) → (Sarif.PhysicalLocation) → Except String (Sarif.PhysicalLocation)
  | [], acc => Except.ok acc
  | (k, v) :: rest, strct =>
    match k with
    | "address" =>
      match decOpt Sarif.Address.unmarshalJSON v with
      | Except.error e => Except.error e
      | Except.ok x => PhysicalLocation.parseProps rest ( { strct with Address := x } )
    | "artifactLocation" =>
      match decOpt Sarif.ArtifactLocation.unmarshalJSON v with
      | Except.error e => Except.error e
      | Except.ok x => PhysicalLocation.parseProps rest ( { strct with ArtifactLocation := x } )
    | "contextRegion" =>
      match decOpt Sarif.Region.unmarshalJSON v with
      | Except.error e => Except.error e
      | Except.ok x => PhysicalLocation.parseProps rest ( { strct with ContextRegion := x } )
    | "properties" =>
      match decOpt Sarif.PropertyBag.unmarshalJSON v with
      | Except.error e => Except.error e
      | Except.ok x => PhysicalLocation.parseProps rest ( { strct with Properties := x } )
    | "region" =>
      match decOpt Sarif.Region.unmarshalJSON v with
      | Except.error e => Except.error e
      | Except.ok x => PhysicalLocation.parseProps rest ( { strct with Region := x } )
    | _ => Except.error ("additional property not allowed: \"" ++ k ++ "\"")

/-- Embeds func (strct *PhysicalLocation) UnmarshalJSON in src/sarif.go. -/
def PhysicalLocation.unmarshalJSON (j : Json) : Except String Sarif.PhysicalLocation :=
  match asObject j with
  | Except.error e => Except.error e
  | Except.ok jsonMap =>
    match PhysicalLocation.parseProps jsonMap PhysicalLocation.zero with
    | Except.error e => Except.error e
    | Except.ok strct =>
      Except.ok strct

/-- Embeds func (strct *PhysicalLocation) MarshalJSON in src/sarif.go: every declared field
is emitted, in declaration order; required fields of object type are checked for nil. -/
def PhysicalLocation.marshalJSON (strct : Sarif.PhysicalLocation) : Except String Json :=
  match encOpt Sarif.Address.marshalJSON strct.Address with
  | Except.error e => Except.error e
  | Except.ok j0 =>
  match encOpt Sarif.ArtifactLocation.marshalJSON strct.ArtifactLocation with
  | Except.error e => Except.error e
  | Except.ok j1 =>
  match encOpt Sarif.Region.marshalJSON strct.ContextRegion with
  | Except.error e => Except.error e
  | Except.ok j2 =>
  match encOpt Sarif.PropertyBag.marshalJSON strct.Properties with
  | Except.error e => Except.error e
  | Except.ok j3 =>
  match encOpt Sarif.Region.marshalJSON strct.Region with
  | Except.error e => Except.error e
  | Except.ok j4 =>
  Except.ok (Json.obj [("address", j0), ("artifactLocation", j1), ("contextRegion", j2), ("properties", j3), ("region", j4)])

/-- Field record of the Go struct Location in src/sarif.go (field order preserved). -/
structure Location where
  Annotations : Option (List (Option Sarif.Region))
  Id : Int
  LogicalLocations : Option (List (Option Sarif.LogicalLocation))
  Message : Option Sarif.Message
  PhysicalLocation : Option Sarif.PhysicalLocation
  Properties : Option Sarif.PropertyBag
  Relationships : Option (List (Option Sarif.LocationRelationship))

/-- The Go zero value of Location: what UnmarshalJSON starts from. -/
def Location.zero : Sarif.Location where
  Annotations := none
  Id := 0
  LogicalLocations := none
  Message := none
  PhysicalLocation := none
  Properties := none
  Relationships := none

/-- The property loop of func (strct *Location) UnmarshalJSON in src/sarif.go: dispatch
on each key of the decoded object, tracking which required keys were received.
Go iterates the map in unspecified order; entries arrive here in ascending key
order, one admissible schedule, and distinct keys update disjoint fields. -/
def Location.parseProps : List (String × Json) → (Sarif.Location) → Except String (Sarif.Location)
  | [], acc => Except.ok acc
  | (k, v) :: rest, strct =>
    match k with
    | "annotations" =>
      match decList (decOpt Sarif.Region.unmarshalJSON) v with
      | Except.error e => Except.error e
      | Except.ok x => Location.parseProps rest ( { strct with Annotations := x } )
    | "id" =>
      match decInt v with
      | Except.error e => Except.error e
      | Except.ok x => Location.parseProps rest ( { strct with Id := x } )
    | "logicalLocations" =>
      match decList (decOpt Sarif.LogicalLocation.unmarshalJSON) v with
      | Except.error e => Except.error e
      | Except.ok x => Location.parseProps rest ( { strct with LogicalLocations := x } )
    | "message" =>
      match decOpt Sarif.Message.unmarshalJSON v with
      | Except.error e => Except.error e
      | Except.ok x => Location.parseProps rest ( { strct with Message := x } )
    | "physicalLocation" =>
      match decOpt Sarif.PhysicalLocation.unmarshalJSON v with
      | Except.error e => Except.error e
      | Except.ok x => Location.parseProps rest ( { strct with PhysicalLocation := x } )
    | "properties" =>
      match decOpt Sarif.PropertyBag.unmarshalJSON v with
      | Except.error e => Except.error e
      | Except.ok x => Location.parseProps rest ( { strct with Properties := x } )
    | "relationships" =>
      match decList (decOpt Sarif.LocationRelationship.unmarshalJSON) v with
      | Except.error e => Except.error e
      | Except.ok x => Location.parseProps rest ( { strct with Relationships := x } )
    | _ => Except.error ("additional property not allowed: \"" ++ k ++ "\"")

/-- Embeds func (strct *Location) UnmarshalJSON in src/sarif.go. -/
def Location.unmarshalJSON (j : Json) : Except String Sarif.Location :=
  match asObject j with
  | Except.error e => Except.error e
  | Except.ok jsonMap =>
    match Location.parseProps jsonMap Location.zero with
    | Except.error e => Except.error e
    | Except.ok strct =>
      Except.ok strct

/-- Embeds func (strct *Location) MarshalJSON in src/sarif.go: every declared field
is emitted, in declaration order; required fields of object type are checked for nil. -/
def Location.marshalJSON (strct : Sarif.Location) : Except String Json :=
  match encList (encOpt Sarif.Region.marshalJSON) strct.Annotations with
  | Except.error e => Except.error e
  | Except.ok j0 =>
  match encInt strct.Id with
  | Except.error e => Except.error e
  | Except.ok j1 =>
  match encList (encOpt Sarif.LogicalLocation.marshalJSON) strct.LogicalLocations with
  | Except.error e => Except.error e
  | Except.ok j2 =>
  match encOpt Sarif.Message.marshalJSON strct.Message with
  | Except.error e => Except.error e
  | Except.ok j3 =>
  match encOpt Sarif.PhysicalLocation.marshalJSON strct.PhysicalLocation with
  | Except.error e => Except.error e
  | Except.ok j4 =>
  match encOpt Sarif.PropertyBag.marshalJSON strct.Properties with
  | Except.error e => Except.error e
  | Except.ok j5 =>
  match encList (encOpt Sarif.LocationRelationship.marshalJSON) strct.Relationships with
  | Except.error e => Except.error e
  | Except.ok j6 =>
  Except.ok (Json.obj [("annotations", j0), ("id", j1), ("logicalLocations", j2), ("message", j3), ("physicalLocation", j4), ("properties", j5), ("relationships", j6)])

/-- Field record of the Go struct ToolComponentReference in src/sarif.go (field order preserved). -/
structure ToolComponentReference where
  Guid : String
  Index : Int
  Name : String
  Properties : Option Sarif.PropertyBag

/-- The Go zero value of ToolComponentReference: what UnmarshalJSON starts from. -/
def ToolComponentReference.zero : Sarif.ToolComponentReference where
  Guid := ""
  Index := 0
  Name := ""
  Properties := none

/-- The property loop of func (strct *ToolComponentReference) UnmarshalJSON in src/sarif.go: dispatch
on each key of the decoded object, tracking which required keys were received.
Go iterates the map in unspecified order; entries arrive here in ascending key
order, one admissible schedule, and distinct keys update disjoint fields. -/
def ToolComponentReference.parseProps : List (String × Json) → (Sarif.ToolComponentReference) → Except String (Sarif.ToolComponentReference)
  | [], acc => Except.ok acc
  | (k, v) :: rest, strct =>
    match k with
    | "guid" =>
      match decString v with
      | Except.error e => Except.error e
      | Except.ok x => ToolComponentReference.parseProps rest ( { strct with Guid := x } )
    | "index" =>
      match decInt v with
      | Except.error e => Except.error e
      | Except.ok x => ToolComponentReference.parseProps rest ( { strct with Index := x } )
    | "name" =>
      match decString v with
      | Except.error e => Except.error e
      | Except.ok x => ToolComponentReference.parseProps rest ( { strct with Name := x } )
    | "properties" =>
      match decOpt Sarif.PropertyBag.unmarshalJSON v with
      | Except.error e => Except.error e
      | Except.ok x => ToolComponentReference.parseProps rest ( { strct with Properties := x } )
    | _ => Except.error ("additional property not allowed: \"" ++ k ++ "\"")

/-- Embeds func (strct *ToolComponentReference) UnmarshalJSON in src/sarif.go. -/
def ToolComponentReference.unmarshalJSON (j : Json) : Except String Sarif.ToolComponentReference :=
  match asObject j with
  | Except.error e => Except.error e
  | Except.ok jsonMap =>
    match ToolComponentReference.parseProps jsonMap ToolComponentReference.zero with
    | Except.error e => Except.error e
    | Except.ok strct =>
      Except.ok strct

/-- Embeds func (strct *ToolComponentReference) MarshalJSON in src/sarif.go: every declared field
is emitted, in declaration order; required fields of object type are checked for nil. -/
def ToolComponentReference.marshalJSON (strct : Sarif.ToolComponentReference) : Except String Json :=
  match encString strct.Guid with
  | Except.error e => Except.error e
  | Except.ok j0 =>
  match encInt strct.Index with
  | Except.error e => Except.error e
  | Except.ok j1 =>
  match encString strct.Name with
  | Except.error e => Except.error e
  | Except.ok j2 =>
  match encOpt Sarif.PropertyBag.marshalJSON strct.Properties with
  | Except.error e => Except.error e
  | Except.ok j3 =>
  Except.ok (Json.obj [("guid", j0), ("index", j1), ("name", j2), ("properties", j3)])

/-- Field record of the Go struct ReportingDescriptorReference in src/sarif.go (field order preserved). -/
structure ReportingDescriptorReference where
  Guid : String
  Id : String
  Index : Int
  Properties : Option Sarif.PropertyBag
  ToolComponent : Option Sarif.ToolComponentReference

/-- The Go zero value of ReportingDescriptorReference: what UnmarshalJSON starts from. -/
def ReportingDescriptorReference.zero : Sarif.ReportingDescriptorReference where
  Guid := ""
  Id := ""
  Index := 0
  Properties := none
  ToolComponent := none

/-- The property loop of func (strct *ReportingDescriptorReference) UnmarshalJSON in src/sarif.go: dispatch
on each key of the decoded object, tracking which required keys were received.
Go iterates the map in unspecified order; entries arrive here in ascending key
order, one admissible schedule, and distinct keys update disjoint fields. -/
def ReportingDescriptorReference.parseProps : List (String × Json) → (Sarif.ReportingDescriptorReference) → Except String (Sarif.ReportingDescriptorReference)
  | [], acc => Except.ok acc
  | (k, v) :: rest, strct =>
    match k with
    | "guid" =>
      match decString v with
      | Except.error e => Except.error e
      | Except.ok x => ReportingDescriptorReference.parseProps rest ( { strct with Guid := x } )
    | "id" =>
      match decString v with
      | Except.error e => Except.error e
      | Except.ok x => ReportingDescriptorReference.parseProps rest ( { strct with Id := x } )
    | "index" =>
      match decInt v with
      | Except.error e => Except.error e
      | Except.ok x => ReportingDescriptorReference.parseProps rest ( { strct with Index := x } )
    | "properties" =>
      match decOpt Sarif.PropertyBag.unmarshalJSON v with
      | Except.error e => Except.error e
      | Except.ok x => ReportingDescriptorReference.parseProps rest ( { strct with Properties := x } )
    | "toolComponent" =>
      match decOpt Sarif.ToolComponentReference.unmarshalJSON v with
      | Except.error e => Except.error e
      | Except.ok x => ReportingDescriptorReference.parseProps rest ( { strct with ToolComponent := x } )
    | _ => Except.error ("additional property not allowed: \"" ++ k ++ "\"")

/-- Embeds func (strct *ReportingDescriptorReference) UnmarshalJSON in src/sarif.go. -/
def ReportingDescriptorReference.unmarshalJSON (j : Json) : Except String Sarif.ReportingDescriptorReference :=
  match asObject j with
  | Except.error e => Except.error e
  | Except.ok jsonMap =>
    match ReportingDescriptorReference.parseProps jsonMap ReportingDescriptorReference.zero with
    | Except.error e => Except.error e
    | Except.ok strct =>
      Except.ok strct

/-- Embeds func (strct *ReportingDescriptorReference) MarshalJSON in src/sarif.go: every declared field
is emitted, in declaration order; required fields of object type are checked for nil. -/
def ReportingDescriptorReference.marshalJSON (strct : Sarif.ReportingDescriptorReference) : Except String Json :=
  match encString strct.Guid with
  | Except.error e => Except.error e
  | Except.ok j0 =>
  match encString strct.Id with
  | Except.error e => Except.error e
  | Except.ok j1 =>
  match encInt strct.Index with
  | Except.error e => Except.error e
  | Except.ok j2 =>
  match encOpt Sarif.PropertyBag.marshalJSON strct.Properties with
  | Except.error e => Except.error e
  | Except.ok j3 =>
  match encOpt Sarif.ToolComponentReference.marshalJSON strct.ToolComponent with
  | Except.error e => Except.error e
  | Except.ok j4 =>
  Except.ok (Json.obj [("guid", j0), ("id", j1), ("index", j2), ("properties", j3), ("toolComponent", j4)])

/-- Field record of the Go struct StackFrame in src/sarif.go (field order preserved). -/
structure StackFrame where
  Location : Option Sarif.Location
  Module : String
  Parameters : Option (List String)
  Properties : Option Sarif.PropertyBag
  ThreadId : Int

/-- The Go zero value of StackFrame: what UnmarshalJSON starts from. -/
def StackFrame.zero : Sarif.StackFrame where
  Location := none
  Module := ""
  Parameters := none
  Properties := none
  ThreadId := 0

/-- The property loop of func (strct *StackFrame) UnmarshalJSON in src/sarif.go: dispatch
on each key of the decoded object, tracking which required keys were received.
Go iterates the map in unspecified order; entries arrive here in ascending key
order, one admissible schedule, and distinct keys update disjoint fields. -/
def StackFrame.parseProps : List (String × Json) → (Sarif.StackFrame) → Except String (Sarif.StackFrame)
  | [], acc => Except.ok acc
  | (k, v) :: rest, strct =>
    match k with
    | "location" =>
      match decOpt Sarif.Location.unmarshalJSON v with
      | Except.error e => Except.error e
      | Except.ok x => StackFrame.parseProps rest ( { strct with Location := x } )
    | "module" =>
      match decString v with
      | Except.error e => Except.error e
      | Except.ok x => StackFrame.parseProps rest ( { strct with Module := x } )
    | "parameters" =>
      match decList decString v with
      | Except.error e => Except.error e
      | Except.ok x => StackFrame.parseProps rest ( { strct with Parameters := x } )
    | "properties" =>
      match decOpt Sarif.PropertyBag.unmarshalJSON v with
      | Except.error e => Except.error e
      | Except.ok x => StackFrame.parseProps rest ( { strct with Properties := x } )
    | "threadId" =>
      match decInt v with
      | Except.error e => Except.error e
      | Except.ok x => StackFrame.parseProps rest ( { strct with ThreadId := x } )
    | _ => Except.error ("additional property not allowed: \"" ++ k ++ "\"")

/-- Embeds func (strct *StackFrame) UnmarshalJSON in src/sarif.go. -/
def StackFrame.unmarshalJSON (j : Json) : Except String Sarif.StackFrame :=
  match asObject j with
  | Except.error e => Except.error e
  | Except.ok jsonMap =>
    match StackFrame.parseProps jsonMap StackFrame.zero with
    | Except.error e => Except.error e
    | Except.ok strct =>
      Except.ok strct

/-- Embeds func (strct *StackFrame) MarshalJSON in src/sarif.go: every declared field
is emitted, in declaration order; required fields of object type are checked for nil. -/
def StackFrame.marshalJSON (strct : Sarif.StackFrame) : Except String Json :=
  match encOpt Sarif.Location.marshalJSON strct.Location with
  | Except.error e => Except.error e
  | Except.ok j0 =>
  match encString strct.Module with
  | Except.error e => Except.error e
  | Except.ok j1 =>
  match encList encString strct.Parameters with
  | Except.error e => Except.error e
  | Except.ok j2 =>
  match encOpt Sarif.PropertyBag.marshalJSON strct.Properties with
  | Except.error e => Except.error e
  | Except.ok j3 =>
  match encInt strct.ThreadId with
  | Except.error e => Except.error e
  | Except.ok j4 =>
  Except.ok (Json.obj [("location", j0), ("module", j1), ("parameters", j2), ("properties", j3), ("threadId", j4)])

/-- Field record of the Go struct Stack in src/sarif.go (field order preserved). -/
structure Stack where
  Frames : Option (List (Option Sarif.StackFrame))
  Message : Option Sarif.Message
  Properties : Option Sarif.PropertyBag

/-- The Go zero value of Stack: what UnmarshalJSON starts from. -/
def Stack.zero : Sarif.Stack where
  Frames := none
  Message := none
  Properties := none

/-- The property loop of func (strct *Stack) UnmarshalJSON in src/sarif.go: dispatch
on each key of the decoded object, tracking which required keys were received.
Go iterates the map in unspecified order; entries arrive here in ascending key
order, one admissible schedule, and distinct keys update disjoint fields. -/
def Stack.parseProps : List (String × Json) → (Sarif.Stack × Bool) → Except String (Sarif.Stack × Bool)
  | [], acc => Except.ok acc
  | (k, v) :: rest, (strct, framesReceived) =>
    match k with
    | "frames" =>
      match decList (decOpt Sarif.StackFrame.unmarshalJSON) v with
      | Except.error e => Except.error e
      | Except.ok x => Stack.parseProps rest (( { strct with Frames := x } ), true)
    | "message" =>
      match decOpt Sarif.Message.unmarshalJSON v with
      | Except.error e => Except.error e
      | Except.ok x => Stack.parseProps rest (( { strct with Message := x } ), framesReceived)
    | "properties" =>
      match decOpt Sarif.PropertyBag.unmarshalJSON v with
      | Except.error e => Except.error e
      | Except.ok x => Stack.parseProps rest (( { strct with Properties := x } ), framesReceived)
    | _ => Except.error ("additional property not allowed: \"" ++ k ++ "\"")

/-- Embeds func (strct *Stack) UnmarshalJSON in src/sarif.go. -/
def Stack.unmarshalJSON (j : Json) : Except String Sarif.Stack :=
  match asObject j with
  | Except.error e => Except.error e
  | Except.ok jsonMap =>
    match Stack.parseProps jsonMap (Stack.zero, false) with
    | Except.error e => Except.error e
    | Except.ok (strct, framesReceived) =>
      if !framesReceived then Except.error "\"frames\" is required but was not present"
      else Except.ok strct

/-- Embeds func (strct *Stack) MarshalJSON in src/sarif.go: every declared field
is emitted, in declaration order; required fields of object type are checked for nil. -/
def Stack.marshalJSON (strct : Sarif.Stack) : Except String Json :=
  match encList (encOpt Sarif.StackFrame.marshalJSON) strct.Frames with
  | Except.error e => Except.error e
  | Except.ok j0 =>
  match encOpt Sarif.Message.marshalJSON strct.Message with
  | Except.error e => Except.error e
  | Except.ok j1 =>
  match encOpt Sarif.PropertyBag.marshalJSON strct.Properties with
  | Except.error e => Except.error e
  | Except.ok j2 =>
  Except.ok (Json.obj [("frames", j0), ("message", j1), ("properties", j2)])

/-- Field record of the Go struct WebRequest in src/sarif.go (field order preserved). -/
structure WebRequest where
  Body : Option Sarif.ArtifactContent
  Headers : Option (List (String × String))
  Index : Int
  Method : String
  Parameters : Option (List (String × String))
  Properties : Option Sarif.PropertyBag
  Protocol : String
  Target : String
  Version : String

/-- The Go zero value of WebRequest: what UnmarshalJSON starts from. -/
def WebRequest.zero : Sarif.WebRequest where
  Body := none
  Headers := none
  Index := 0
  Method := ""
  Parameters := none
  Properties := none
  Protocol := ""
  Target := ""
  Version := ""

/-- The property loop of func (strct *WebRequest) UnmarshalJSON in src/sarif.go: dispatch
on each key of the decoded object, tracking which required keys were received.
Go iterates the map in unspecified order; entries arrive here in ascending key
order, one admissible schedule, and distinct keys update disjoint fields. -/
def WebRequest.parseProps : List (String × Json) → (Sarif.WebRequest) → Except String (Sarif.WebRequest)
  | [], acc => Except.ok acc
  | (k, v) :: rest, strct =>
    match k with
    | "body" =>
      match decOpt Sarif.ArtifactContent.unmarshalJSON v with
      | Except.error e => Except.error e
      | Except.ok x => WebRequest.parseProps rest ( { strct with Body := x } )
    | "headers" =>
      match decMap decString v with
      | Except.error e => Except.error e
      | Except.ok x => WebRequest.parseProps rest ( { strct with Headers := x } )
    | "index" =>
      match decInt v with
      | Except.error e => Except.error e
      | Except.ok x => WebRequest.parseProps rest ( { strct with Index := x } )
    | "method" =>
      match decString v with
      | Except.error e => Except.error e
      | Except.ok x => WebRequest.parseProps rest ( { strct with Method := x } )
    | "parameters" =>
      match decMap decString v with
      | Except.error e => Except.error e
      | Except.ok x => WebRequest.parseProps rest ( { strct with Parameters := x } )
    | "properties" =>
      match decOpt Sarif.PropertyBag.unmarshalJSON v with
      | Except.error e => Except.error e
      | Except.ok x => WebRequest.parseProps rest ( { strct with Properties := x } )
    | "protocol" =>
      match decString v with
      | Except.error e => Except.error e
      | Except.ok x => WebRequest.parseProps rest ( { strct with Protocol := x } )
    | "target" =>
      match decString v with
      | Except.error e => Except.error e
      | Except.ok x => WebRequest.parseProps rest ( { strct with Target := x } )
    | "version" =>
      match decString v with
      | Except.error e => Except.error e
      | Except.ok x => WebRequest.parseProps rest ( { strct with Version := x } )
    | _ => Except.error ("additional property not allowed: \"" ++ k ++ "\"")

/-- Embeds func (strct *WebRequest) UnmarshalJSON in src/sarif.go. -/
def WebRequest.unmarshalJSON (j : Json) : Except String Sarif.WebRequest :=
  match asObject j with
  | Except.error e => Except.error e
  | Except.ok jsonMap =>
    match WebRequest.parseProps jsonMap WebRequest.zero with
    | Except.error e => Except.error e
    | Except.ok strct =>
      Except.ok strct

/-- Embeds func (strct *WebRequest) MarshalJSON in src/sarif.go: every declared field
is emitted, in declaration order; required fields of object type are checked for nil. -/
def WebRequest.marshalJSON (strct : Sarif.WebRequest) : Except String Json :=
  match encOpt Sarif.ArtifactContent.marshalJSON strct.Body with
  | Except.error e => Except.error e
  | Except.ok j0 =>
  match encMap encString strct.Headers with
  | Except.error e => Except.error e
  | Except.ok j1 =>
  match encInt strct.Index with
  | Except.error e => Except.error e
  | Except.ok j2 =>
  match encString strct.Method with
  | Except.error e => Except.error e
  | Except.ok j3 =>
  match encMap encString strct.Parameters with
  | Except.error e => Except.error e
  | Except.ok j4 =>
  match encOpt Sarif.PropertyBag.marshalJSON strct.Properties with
  | Except.error e => Except.error e
  | Except.ok j5 =>
  match encString strct.Protocol with
  | Except.error e => Except.error e
  | Except.ok j6 =>
  match encString strct.Target with
  | Except.error e => Except.error e
  | Except.ok j7 =>
  match encString strct.Version with
  | Except.error e => Except.error e
  | Except.ok j8 =>
  Except.ok (Json.obj [("body", j0), ("headers", j1), ("index", j2), ("method", j3), ("parameters", j4), ("properties", j5), ("protocol", j6), ("target", j7), ("version", j8)])

/-- Field record of the Go struct WebResponse in src/sarif.go (field order preserved). -/
structure WebResponse where
  Body : Option Sarif.ArtifactContent
  Headers : Option (List (String × String))
  Index : Int
  NoResponseReceived : Bool
  Properties : Option Sarif.PropertyBag
  Protocol : String
  ReasonPhrase : String
  StatusCode : Int
  Version : String

/-- The Go zero value of WebResponse: what UnmarshalJSON starts from. -/
def WebResponse.zero : Sarif.WebResponse where
  Body := none
  Headers := none
  Index := 0
  NoResponseReceived := false
  Properties := none
  Protocol := ""
  ReasonPhrase := ""
  StatusCode := 0
  Version := ""

/-- The property loop of func (strct *WebResponse) UnmarshalJSON in src/sarif.go: dispatch
on each key of the decoded object, tracking which required keys were received.
Go iterates the map in unspecified order; entries arrive here in ascending key
order, one admissible schedule, and distinct keys update disjoint fields. -/
def WebResponse.parseProps : List (String × Json) → (Sarif.WebResponse) → Except String (Sarif.WebResponse)
  | [], acc => Except.ok acc
  | (k, v) :: rest, strct =>
    match k with
    | "body" =>
      match decOpt Sarif.ArtifactContent.unmarshalJSON v with
      | Except.error e => Except.error e
      | Except.ok x => WebResponse.parseProps rest ( { strct with Body := x } )
    | "headers" =>
      match decMap decString v with
      | Except.error e => Except.error e
      | Except.ok x => WebResponse.parseProps rest ( { strct with Headers := x } )
    | "index" =>
      match decInt v with
      | Except.error e => Except.error e
      | Except.ok x => WebResponse.parseProps rest ( { strct with Index := x } )
    | "noResponseReceived" =>
      match decBool v with
      | Except.error e => Except.error e
      | Except.ok x => WebResponse.parseProps rest ( { strct with NoResponseReceived := x } )
    | "properties" =>
      match decOpt Sarif.PropertyBag.unmarshalJSON v with
      | Except.error e => Except.error e
      | Except.ok x => WebResponse.parseProps rest ( { strct with Properties := x } )
    | "protocol" =>
      match decString v with
      | Except.error e => Except.error e
      | Except.ok x => WebResponse.parseProps rest ( { strct with Protocol := x } )
    | "reasonPhrase" =>
      match decString v with
      | Except.error e => Except.error e
      | Except.ok x => WebResponse.parseProps rest ( { strct with ReasonPhrase := x } )
    | "statusCode" =>
      match decInt v with
      | Except.error e => Except.error e
      | Except.ok x => WebResponse.parseProps rest ( { strct with StatusCode := x } )
    | "version" =>
      match decString v with
      | Except.error e => Except.error e
      | Except.ok x => WebResponse.parseProps rest ( { strct with Version := x } )
    | _ => Except.error ("additional property not allowed: \"" ++ k ++ "\"")

/-- Embeds func (strct *WebResponse) UnmarshalJSON in src/sarif.go. -/
def WebResponse.unmarshalJSON (j : Json) : Except String Sarif.WebResponse :=
  match asObject j with
  | Except.error e => Except.error e
  | Except.ok jsonMap =>
    match WebResponse.parseProps jsonMap WebResponse.zero with
    | Except.error e => Except.error e
    | Except.ok strct =>
      Except.ok strct

/-- Embeds func (strct *WebResponse) MarshalJSON in src/sarif.go: every declared field
is emitted, in declaration order; required fields of object type are checked for nil. -/
def WebResponse.marshalJSON (strct : Sarif.WebResponse) : Except String Json :=
  match encOpt Sarif.ArtifactContent.marshalJSON strct.Body with
  | Except.error e => Except.error e
  | Except.ok j0 =>
  match encMap encString strct.Headers with
  | Except.error e => Except.error e
  | Except.ok j1 =>
  match encInt strct.Index with
  | Except.error e => Except.error e
  | Except.ok j2 =>
  match encBool strct.NoResponseReceived with
  | Except.error e => Except.error e
  | Except.ok j3 =>
  match encOpt Sarif.PropertyBag.marshalJSON strct.Properties with
  | Except.error e => Except.error e
  | Except.ok j4 =>
  match encString strct.Protocol with
  | Except.error e => Except.error e
  | Except.ok j5 =>
  match encString strct.ReasonPhrase with
  | Except.error e => Except.error e
  | Except.ok j6 =>
  match encInt strct.StatusCode with
  | Except.error e => Except.error e
  | Except.ok j7 =>
  match encString strct.Version with
  | Except.error e => Except.error e
  | Except.ok j8 =>
  Except.ok (Json.obj [("body", j0), ("headers", j1), ("index", j2), ("noResponseReceived", j3), ("properties", j4), ("protocol", j5), ("reasonPhrase", j6), ("statusCode", j7), ("version", j8)])

/-- Field record of the Go struct ThreadFlowLocation in src/sarif.go (field order preserved). -/
structure ThreadFlowLocation where
  ExecutionOrder : Int
  ExecutionTimeUtc : String
  Importance : String
  Index : Int
  Kinds : Option (List String)
  Location : Option Sarif.Location
  Module : String
  NestingLevel : Int
  Properties : Option Sarif.PropertyBag
  Stack : Option Sarif.Stack
  State : Option (List (String × Option Sarif.MultiformatMessageString))
  Taxa : Option (List (Option Sarif.ReportingDescriptorReference))
  WebRequest : Option Sarif.WebRequest
  WebResponse : Option Sarif.WebResponse

/-- The Go zero value of ThreadFlowLocation: what UnmarshalJSON starts from. -/
def ThreadFlowLocation.zero : Sarif.ThreadFlowLocation where
  ExecutionOrder := 0
  ExecutionTimeUtc := ""
  Importance := ""
  Index := 0
  Kinds := none
  Location := none
  Module := ""
  NestingLevel := 0
  Properties := none
  Stack := none
  State := none
  Taxa := none
  WebRequest := none
  WebResponse := none

/-- The property loop of func (strct *ThreadFlowLocation) UnmarshalJSON in src/sarif.go: dispatch
on each key of the decoded object, tracking which required keys were received.
Go iterates the map in unspecified order; entries arrive here in ascending key
order, one admissible schedule, and distinct keys update disjoint fields. -/
def ThreadFlowLocation.parseProps : List (String × Json) → (Sarif.ThreadFlowLocation) → Except String (Sarif.ThreadFlowLocation)
  | [], acc => Except.ok acc
  | (k, v) :: rest, strct =>
    match k with
    | "executionOrder" =>
      match decInt v with
      | Except.error e => Except.error e
      | Except.ok x => ThreadFlowLocation.parseProps rest ( { strct with ExecutionOrder := x } )
    | "executionTimeUtc" =>
      match decString v with
      | Except.error e => Except.error e
      | Except.ok x => ThreadFlowLocation.parseProps rest ( { strct with ExecutionTimeUtc := x } )
    | "importance" =>
      match decString v with
      | Except.error e => Except.error e
      | Except.ok x => ThreadFlowLocation.parseProps rest ( { strct with Importance := x } )
    | "index" =>
      match decInt v with
      | Except.error e => Except.error e
      | Except.ok x => ThreadFlowLocation.parseProps rest ( { strct with Index := x } )
    | "kinds" =>
      match decList decString v with
      | Except.error e => Except.error e
      | Except.ok x => ThreadFlowLocation.parseProps rest ( { strct with Kinds := x } )
    | "location" =>
      match decOpt Sarif.Location.unmarshalJSON v with
      | Except.error e => Except.error e
      | Except.ok x => ThreadFlowLocation.parseProps rest ( { strct with Location := x } )
    | "module" =>
      match decString v with
      | Except.error e => Except.error e
      | Except.ok x => ThreadFlowLocation.parseProps rest ( { strct with Module := x } )
    | "nestingLevel" =>
      match decInt v with
      | Except.error e => Except.error e
      | Except.ok x => ThreadFlowLocation.parseProps rest ( { strct with NestingLevel := x } )
    | "properties" =>
      match decOpt Sarif.PropertyBag.unmarshalJSON v with
      | Except.error e => Except.error e
      | Except.ok x => ThreadFlowLocation.parseProps rest ( { strct with Properties := x } )
    | "stack" =>
      match decOpt Sarif.Stack.unmarshalJSON v with
      | Except.error e => Except.error e
      | Except.ok x => ThreadFlowLocation.parseProps rest ( { strct with Stack := x } )
    | "state" =>
      match decMap (decOpt Sarif.MultiformatMessageString.unmarshalJSON) v with
      | Except.error e => Except.error e
      | Except.ok x => ThreadFlowLocation.parseProps rest ( { strct with State := x } )
    | "taxa" =>
      match decList (decOpt Sarif.ReportingDescriptorReference.unmarshalJSON) v with
      | Except.error e => Except.error e
      | Except.ok x => ThreadFlowLocation.parseProps rest ( { strct with Taxa := x } )
    | "webRequest" =>
      match decOpt Sarif.WebRequest.unmarshalJSON v with
      | Except.error e => Except.error e
      | Except.ok x => ThreadFlowLocation.parseProps rest ( { strct with WebRequest := x } )
    | "webResponse" =>
      match decOpt Sarif.WebResponse.unmarshalJSON v with
      | Except.error e => Except.error e
      | Except.ok x => ThreadFlowLocation.parseProps rest ( { strct with WebResponse := x } )
    | _ => Except.error ("additional property not allowed: \"" ++ k ++ "\"")

/-- Embeds func (strct *ThreadFlowLocation) UnmarshalJSON in src/sarif.go. -/
def ThreadFlowLocation.unmarshalJSON (j : Json) : Except String Sarif.ThreadFlowLocation :=
  match asObject j with
  | Except.error e => Except.error e
  | Except.ok jsonMap =>
    match ThreadFlowLocation.parseProps jsonMap ThreadFlowLocation.zero with
    | Except.error e => Except.error e
    | Except.ok strct =>
      Except.ok strct

/-- Embeds func (strct *ThreadFlowLocation) MarshalJSON in src/sarif.go: every declared field
is emitted, in declaration order; required fields of object type are checked for nil. -/
def ThreadFlowLocation.marshalJSON (strct : Sarif.ThreadFlowLocation) : Except String Json :=
  match encInt strct.ExecutionOrder with
  | Except.error e => Except.error e
  | Except.ok j0 =>
  match encString strct.ExecutionTimeUtc with
  | Except.error e => Except.error e
  | Except.ok j1 =>
  match encString strct.Importance with
  | Except.error e => Except.error e
  | Except.ok j2 =>
  match encInt strct.Index with
  | Except.error e => Except.error e
  | Except.ok j3 =>
  match encList encString strct.Kinds with
  | Except.error e => Except.error e
  | Except.ok j4 =>
  match encOpt Sarif.Location.marshalJSON strct.Location with
  | Except.error e => Except.error e
  | Except.ok j5 =>
  match encString strct.Module with
  | Except.error e => Except.error e
  | Except.ok j6 =>
  match encInt strct.NestingLevel with
  | Except.error e => Except.error e
  | Except.ok j7 =>
  match encOpt Sarif.PropertyBag.marshalJSON strct.Properties with
  | Except.error e => Except.error e
  | Except.ok j8 =>
  match encOpt Sarif.Stack.marshalJSON strct.Stack with
  | Except.error e => Except.error e
  | Except.ok j9 =>
  match encMap (encOpt Sarif.MultiformatMessageString.marshalJSON) strct.State with
  | Except.error e => Except.error e
  | Except.ok j10 =>
  match encList (encOpt Sarif.ReportingDescriptorReference.marshalJSON) strct.Taxa with
  | Except.error e => Except.error e
  | Except.ok j11 =>
  match encOpt Sarif.WebRequest.marshalJSON strct.WebRequest with
  | Except.error e => Except.error e
  | Except.ok j12 =>
  match encOpt Sarif.WebResponse.marshalJSON strct.WebResponse with
  | Except.error e => Except.error e
  | Except.ok j13 =>
  Except.ok (Json.obj [("executionOrder", j0), ("executionTimeUtc", j1), ("importance", j2), ("index", j3), ("kinds", j4), ("location", j5), ("module", j6), ("nestingLevel", j7), ("properties", j8), ("stack", j9), ("state", j10), ("taxa", j11), ("webRequest", j12), ("webResponse", j13)])

/-- Field record of the Go struct ThreadFlow in src/sarif.go (field order preserved). -/
structure ThreadFlow where
  Id : String
  ImmutableState : Option (List (String × Option Sarif.MultiformatMessageString))
  InitialState : Option (List (String × Option Sarif.MultiformatMessageString))
  Locations : Option (List (Option Sarif.ThreadFlowLocation))
  Message : Option Sarif.Message
  Properties : Option Sarif.PropertyBag

/-- The Go zero value of ThreadFlow: what UnmarshalJSON starts from. -/
def ThreadFlow.zero : Sarif.ThreadFlow where
  Id := ""
  ImmutableState := none
  InitialState := none
  Locations := none
  Message := none
  Properties := none

/-- The property loop of func (strct *ThreadFlow) UnmarshalJSON in src/sarif.go: dispatch
on each key of the decoded object, tracking which required keys were received.
Go iterates the map in unspecified order; entries arrive here in ascending key
order, one admissible schedule, and distinct keys update disjoint fields. -/
def ThreadFlow.parseProps : List (String × Json) → (Sarif.ThreadFlow × Bool) → Except String (Sarif.ThreadFlow × Bool)
  | [], acc => Except.ok acc
  | (k, v) :: rest, (strct, locationsReceived) =>
    match k with
    | "id" =>
      match decString v with
      | Except.error e => Except.error e
      | Except.ok x => ThreadFlow.parseProps rest (( { strct with Id := x } ), locationsReceived)
    | "immutableState" =>
      match decMap (decOpt Sarif.MultiformatMessageString.unmarshalJSON) v with
      | Except.error e => Except.error e
      | Except.ok x => ThreadFlow.parseProps rest (( { strct with ImmutableState := x } ), locationsReceived)
    | "initialState" =>
      match decMap (decOpt Sarif.MultiformatMessageString.unmarshalJSON) v with
      | Except.error e => Except.error e
      | Except.ok x => ThreadFlow.parseProps rest (( { strct with InitialState := x } ), locationsReceived)
    | "locations" =>
      match decList (decOpt Sarif.ThreadFlowLocation.unmarshalJSON) v with
      | Except.error e => Except.error e
      | Except.ok x => ThreadFlow.parseProps rest (( { strct with Locations := x } ), true)
    | "message" =>
      match decOpt Sarif.Message.unmarshalJSON v with
      | Except.error e => Except.error e
      | Except.ok x => ThreadFlow.parseProps rest (( { strct with Message := x } ), locationsReceived)
    | "properties" =>
      match decOpt Sarif.PropertyBag.unmarshalJSON v with
      | Except.error e => Except.error e
      | Except.ok x => ThreadFlow.parseProps rest (( { strct with Properties := x } ), locationsReceived)
    | _ => Except.error ("additional property not allowed: \"" ++ k ++ "\"")

/-- Embeds func (strct *ThreadFlow) UnmarshalJSON in src/sarif.go. -/
def ThreadFlow.unmarshalJSON (j : Json) : Except String Sarif.ThreadFlow :=
  match asObject j with
  | Except.error e => Except.error e
  | Except.ok jsonMap =>
    match ThreadFlow.parseProps jsonMap (ThreadFlow.zero, false) with
    | Except.error e => Except.error e
    | Except.ok (strct, locationsReceived) =>
      if !locationsReceived then Except.error "\"locations\" is required but was not present"
      else Except.ok strct

/-- Embeds func (strct *ThreadFlow) MarshalJSON in src/sarif.go: every declared field
is emitted, in declaration order; required fields of object type are checked for nil. -/
def ThreadFlow.marshalJSON (strct : Sarif.ThreadFlow) : Except String Json :=
  match encString strct.Id with
  | Except.error e => Except.error e
  | Except.ok j0 =>
  match encMap (encOpt Sarif.MultiformatMessageString.marshalJSON) strct.ImmutableState with
  | Except.error e => Except.error e
  | Except.ok j1 =>
  match encMap (encOpt Sarif.MultiformatMessageString.marshalJSON) strct.InitialState with
  | Except.error e => Except.error e
  | Except.ok j2 =>
  match encList (encOpt Sarif.ThreadFlowLocation.marshalJSON) strct.Locations with
  | Except.error e => Except.error e
  | Except.ok j3 =>
  match encOpt Sarif.Message.marshalJSON strct.Message with
  | Except.error e => Except.error e
  | Except.ok j4 =>
  match encOpt Sarif.PropertyBag.marshalJSON strct.Properties with
  | Except.error e => Except.error e
  | Except.ok j5 =>
  Except.ok (Json.obj [("id", j0), ("immutableState", j1), ("initialState", j2), ("locations", j3), ("message", j4), ("properties", j5)])

/-- Field record of the Go struct CodeFlow in src/sarif.go (field order preserved). -/
structure CodeFlow where
  Message : Option Sarif.Message
  Properties : Option Sarif.PropertyBag
  ThreadFlows : Option (List (Option Sarif.ThreadFlow))

/-- The Go zero value of CodeFlow: what UnmarshalJSON starts from. -/
def CodeFlow.zero : Sarif.CodeFlow where
  Message := none
  Properties := none
  ThreadFlows := none

/-- The property loop of func (strct *CodeFlow) UnmarshalJSON in src/sarif.go: dispatch
on each key of the decoded object, tracking which required keys were received.
Go iterates the map in unspecified order; entries arrive here in ascending key
order, one admissible schedule, and distinct keys update disjoint fields. -/
def CodeFlow.parseProps : List (String × Json) → (Sarif.CodeFlow × Bool) → Except String (Sarif.CodeFlow × Bool)
  | [], acc => Except.ok acc
  | (k, v) :: rest, (strct, threadFlowsReceived) =>
    match k with
    | "message" =>
      match decOpt Sarif.Message.unmarshalJSON v with
      | Except.error e => Except.error e
      | Except.ok x => CodeFlow.parseProps rest (( { strct with Message := x } ), threadFlowsReceived)
    | "properties" =>
      match decOpt Sarif.PropertyBag.unmarshalJSON v with
      | Except.error e => Except.error e
      | Except.ok x => CodeFlow.parseProps rest (( { strct with Properties := x } ), threadFlowsReceived)
    | "threadFlows" =>
      match decList (decOpt Sarif.ThreadFlow.unmarshalJSON) v with
      | Except.error e => Except.error e
      | Except.ok x => CodeFlow.parseProps rest (( { strct with ThreadFlows := x } ), true)
    | _ => Except.error ("additional property not allowed: \"" ++ k ++ "\"")

/-- Embeds func (strct *CodeFlow) UnmarshalJSON in src/sarif.go. -/
def CodeFlow.unmarshalJSON (j : Json) : Except String Sarif.CodeFlow :=
  match asObject j with
  | Except.error e => Except.error e
  | Except.ok jsonMap =>
    match CodeFlow.parseProps jsonMap (CodeFlow.zero, false) with
    | Except.error e => Except.error e
    | Except.ok (strct, threadFlowsReceived) =>
      if !threadFlowsReceived then Except.error "\"threadFlows\" is required but was not present"
      else Except.ok strct

/-- Embeds func (strct *CodeFlow) MarshalJSON in src/sarif.go: every declared field
is emitted, in declaration order; required fields of object type are checked for nil. -/
def CodeFlow.marshalJSON (strct : Sarif.CodeFlow) : Except String Json :=
  match encOpt Sarif.Message.marshalJSON strct.Message with
  | Except.error e => Except.error e
  | Except.ok j0 =>
  match encOpt Sarif.PropertyBag.marshalJSON strct.Properties with
  | Except.error e => Except.error e
  | Except.ok j1 =>
  match encList (encOpt Sarif.ThreadFlow.marshalJSON) strct.ThreadFlows with
  | Except.error e => Except.error e
  | Except.ok j2 =>
  Except.ok (Json.obj [("message", j0), ("properties", j1), ("threadFlows", j2)])

/-- Field record of the Go struct ReportingConfiguration in src/sarif.go (field order preserved). -/
structure ReportingConfiguration where
  Enabled : Bool
  Level : String
  Parameters : Option Sarif.PropertyBag
  Properties : Option Sarif.PropertyBag
  Rank : Rat

/-- The Go zero value of ReportingConfiguration: what UnmarshalJSON starts from. -/
def ReportingConfiguration.zero : Sarif.ReportingConfiguration where
  Enabled := false
  Level := ""
  Parameters := none
  Properties := none
  Rank := 0

/-- The property loop of func (strct *ReportingConfiguration) UnmarshalJSON in src/sarif.go: dispatch
on each key of the decoded object, tracking which required keys were received.
Go iterates the map in unspecified order; entries arrive here in ascending key
order, one admissible schedule, and distinct keys update disjoint fields. -/
def ReportingConfiguration.parseProps : List (String × Json) → (Sarif.ReportingConfiguration) → Except String (Sarif.ReportingConfiguration)
  | [], acc => Except.ok acc
  | (k, v) :: rest, strct =>
    match k with
    | "enabled" =>
      match decBool v with
      | Except.error e => Except.error e
      | Except.ok x => ReportingConfiguration.parseProps rest ( { strct with Enabled := x } )
    | "level" =>
      match decString v with
      | Except.error e => Except.error e
      | Except.ok x => ReportingConfiguration.parseProps rest ( { strct with Level := x } )
    | "parameters" =>
      match decOpt Sarif.PropertyBag.unmarshalJSON v with
      | Except.error e => Except.error e
      | Except.ok x => ReportingConfiguration.parseProps rest ( { strct with Parameters := x } )
    | "properties" =>
      match decOpt Sarif.PropertyBag.unmarshalJSON v with
      | Except.error e => Except.error e
      | Except.ok x => ReportingConfiguration.parseProps rest ( { strct with Properties := x } )
    | "rank" =>
      match decFloat v with
      | Except.error e => Except.error e
      | Except.ok x => ReportingConfiguration.parseProps rest ( { strct with Rank := x } )
    | _ => Except.error ("additional property not allowed: \"" ++ k ++ "\"")

/-- Embeds func (strct *ReportingConfiguration) UnmarshalJSON in src/sarif.go. -/
def ReportingConfiguration.unmarshalJSON (j : Json) : Except String Sarif.ReportingConfiguration :=
  match asObject j with
  | Except.error e => Except.error e
  | Except.ok jsonMap =>
    match ReportingConfiguration.parseProps jsonMap ReportingConfiguration.zero with
    | Except.error e => Except.error e
    | Except.ok strct =>
      Except.ok strct

/-- Embeds func (strct *ReportingConfiguration) MarshalJSON in src/sarif.go: every declared field
is emitted, in declaration order; required fields of object type are checked for nil. -/
def ReportingConfiguration.marshalJSON (strct : Sarif.ReportingConfiguration) : Except String Json :=
  match encBool strct.Enabled with
  | Except.error e => Except.error e
  | Except.ok j0 =>
  match encString strct.Level with
  | Except.error e => Except.error e
  | Except.ok j1 =>
  match encOpt Sarif.PropertyBag.marshalJSON strct.Parameters with
  | Except.error e => Except.error e
  | Except.ok j2 =>
  match encOpt Sarif.PropertyBag.marshalJSON strct.Properties with
  | Except.error e => Except.error e
  | Except.ok j3 =>
  match encFloat strct.Rank with
  | Except.error e => Except.error e
  | Except.ok j4 =>
  Except.ok (Json.obj [("enabled", j0), ("level", j1), ("parameters", j2), ("properties", j3), ("rank", j4)])

/-- Field record of the Go struct ConfigurationOverride in src/sarif.go (field order preserved). -/
structure ConfigurationOverride where
  Configuration : Option Sarif.ReportingConfiguration
  Descriptor : Option Sarif.ReportingDescriptorReference
  Properties : Option Sarif.PropertyBag

/-- The Go zero value of ConfigurationOverride: what UnmarshalJSON starts from. -/
def ConfigurationOverride.zero : Sarif.ConfigurationOverride where
  Configuration := none
  Descriptor := none
  Properties := none

/-- The property loop of func (strct *ConfigurationOverride) UnmarshalJSON in src/sarif.go: dispatch
on each key of the decoded object, tracking which required keys were received.
Go iterates the map in unspecified order; entries arrive here in ascending key
order, one admissible schedule, and distinct keys update disjoint fields. -/
def ConfigurationOverride.parseProps : List (String × Json) → (Sarif.ConfigurationOverride × Bool × Bool) → Except String (Sarif.ConfigurationOverride × Bool × Bool)
  | [], acc => Except.ok acc
  | (k, v) :: rest, (strct, configurationReceived, descriptorReceived) =>
    match k with
    | "configuration" =>
      match decOpt Sarif.ReportingConfiguration.unmarshalJSON v with
      | Except.error e => Except.error e
      | Except.ok x => ConfigurationOverride.parseProps rest (( { strct with Configuration := x } ), true, descriptorReceived)
    | "descriptor" =>
      match decOpt Sarif.ReportingDescriptorReference.unmarshalJSON v with
      | Except.error e => Except.error e
      | Except.ok x => ConfigurationOverride.parseProps rest (( { strct with Descriptor := x } ), configurationReceived, true)
    | "properties" =>
      match decOpt Sarif.PropertyBag.unmarshalJSON v with
      | Except.error e => Except.error e
      | Except.ok x => ConfigurationOverride.parseProps rest (( { strct with Properties := x } ), configurationReceived, descriptorReceived)
    | _ => Except.error ("additional property not allowed: \"" ++ k ++ "\"")

/-- Embeds func (strct *ConfigurationOverride) UnmarshalJSON in src/sarif.go. -/
def ConfigurationOverride.unmarshalJSON (j : Json) : Except String Sarif.ConfigurationOverride :=
  match asObject j with
  | Except.error e => Except.error e
  | Except.ok jsonMap =>
    match ConfigurationOverride.parseProps jsonMap (ConfigurationOverride.zero, false, false) with
    | Except.error e => Except.error e
    | Except.ok (strct, configurationReceived, descriptorReceived) =>
      if !configurationReceived then Except.error "\"configuration\" is required but was not present"
      else if !descriptorReceived then Except.error "\"descriptor\" is required but was not present"
      else Except.ok strct

/-- Embeds func (strct *ConfigurationOverride) MarshalJSON in src/sarif.go: every declared field
is emitted, in declaration order; required fields of object type are checked for nil. -/
def ConfigurationOverride.marshalJSON (strct : Sarif.ConfigurationOverride) : Except String Json :=
  if strct.Configuration.isNone then Except.error "configuration is a required field"
  else
  match encOpt Sarif.ReportingConfiguration.marshalJSON strct.Configuration with
  | Except.error e => Except.error e
  | Except.ok j0 =>
  if strct.Descriptor.isNone then Except.error "descriptor is a required field"
  else
  match encOpt Sarif.ReportingDescriptorReference.marshalJSON strct.Descriptor with
  | Except.error e => Except.error e
  | Except.ok j1 =>
  match encOpt Sarif.PropertyBag.marshalJSON strct.Properties with
  | Except.error e => Except.error e
  | Except.ok j2 =>
  Except.ok (Json.obj [("configuration", j0), ("descriptor", j1), ("properties", j2)])

/-- The Go struct Exception in src/sarif.go nests itself through a slice, so the
Lean model is a nested inductive; constructor arguments follow the field order. -/
inductive Exception where
  | mk (InnerExceptions : Option (List (Option Sarif.Exception))) (Kind : String) (Message : String) (Properties : Option Sarif.PropertyBag) (Stack : Option Sarif.Stack) : Exception

/-- Field record of the Go struct Exception, the running state of its decode loop. -/
structure ExceptionF (X : Type) where
  InnerExceptions : Option (List (Option X))
  Kind : String
  Message : String
  Properties : Option Sarif.PropertyBag
  Stack : Option Sarif.Stack

/-- The Go zero value of Exception: what UnmarshalJSON starts from. -/
def Exception.zeroF : Sarif.ExceptionF Sarif.Exception where
  InnerExceptions := none
  Kind := ""
  Message := ""
  Properties := none
  Stack := none

/-- The property loop of func (strct *Exception) UnmarshalJSON in src/sarif.go; the
self-typed child decoder is passed in to tie the recursive knot. -/
def Exception.parseProps (decChild : Json → Except String Sarif.Exception) : List (String × Json) → (Sarif.ExceptionF Sarif.Exception) → Except String (Sarif.ExceptionF Sarif.Exception)
  | [], acc => Except.ok acc
  | (k, v) :: rest, d =>
    match k with
    | "innerExceptions" =>
      match decList (decOpt decChild) v with
      | Except.error e => Except.error e
      | Except.ok x => Exception.parseProps decChild rest ( { d with InnerExceptions := x } )
    | "kind" =>
      match decString v with
      | Except.error e => Except.error e
      | Except.ok x => Exception.parseProps decChild rest ( { d with Kind := x } )
    | "message" =>
      match decString v with
      | Except.error e => Except.error e
      | Except.ok x => Exception.parseProps decChild rest ( { d with Message := x } )
    | "properties" =>
      match decOpt Sarif.PropertyBag.unmarshalJSON v with
      | Except.error e => Except.error e
      | Except.ok x => Exception.parseProps decChild rest ( { d with Properties := x } )
    | "stack" =>
      match decOpt Sarif.Stack.unmarshalJSON v with
      | Except.error e => Except.error e
      | Except.ok x => Exception.parseProps decChild rest ( { d with Stack := x } )
    | _ => Except.error ("additional property not allowed: \"" ++ k ++ "\"")

/-- Fuel-indexed form of func (strct *Exception) UnmarshalJSON in src/sarif.go; the
fuel only bounds self-nesting depth and is otherwise inert. -/
def Exception.unmarshalFuel : Nat → Json → Except String Sarif.Exception
  | 0, _ => Except.error "nesting too deep"
  | fuel + 1, j =>
    match asObject j with
    | Except.error e => Except.error e
    | Except.ok jsonMap =>
      match Exception.parseProps (Sarif.Exception.unmarshalFuel fuel) jsonMap Exception.zeroF with
      | Except.error e => Except.error e
      | Except.ok d =>
        Except.ok (Sarif.Exception.mk d.InnerExceptions d.Kind d.Message d.Properties d.Stack)

/-- Embeds func (strct *Exception) UnmarshalJSON in src/sarif.go; the size of the
input bounds every nesting depth, so the fuel cutoff is never reached. -/
def Exception.unmarshalJSON (j : Json) : Except String Sarif.Exception :=
  Exception.unmarshalFuel (Json.size j) j

mutual
/-- Embeds func (strct *Exception) MarshalJSON in src/sarif.go: every declared field
is emitted, in declaration order. -/
def Exception.marshalJSON : Sarif.Exception → Except String Json
  | Sarif.Exception.mk none kindV messageV propertiesV stackV =>
    match encString kindV with
    | Except.error e => Except.error e
    | Except.ok j1 =>
    match encString messageV with
    | Except.error e => Except.error e
    | Except.ok j2 =>
    match encOpt Sarif.PropertyBag.marshalJSON propertiesV with
    | Except.error e => Except.error e
    | Except.ok j3 =>
    match encOpt Sarif.Stack.marshalJSON stackV with
    | Except.error e => Except.error e
    | Except.ok j4 =>
    Except.ok (Json.obj [("innerExceptions", Json.null), ("kind", j1), ("message", j2), ("properties", j3), ("stack", j4)])
  | Sarif.Exception.mk (some xs0) kindV messageV propertiesV stackV =>
    match Exception.marshalEach xs0 with
    | Except.error e => Except.error e
    | Except.ok js =>
    match encString kindV with
    | Except.error e => Except.error e
    | Except.ok j1 =>
    match encString messageV with
    | Except.error e => Except.error e
    | Except.ok j2 =>
    match encOpt Sarif.PropertyBag.marshalJSON propertiesV with
    | Except.error e => Except.error e
    | Except.ok j3 =>
    match encOpt Sarif.Stack.marshalJSON stackV with
    | Except.error e => Except.error e
    | Except.ok j4 =>
    Except.ok (Json.obj [("innerExceptions", Json.arr js), ("kind", j1), ("message", j2), ("properties", j3), ("stack", j4)])

/-- json.Marshal of the self-typed slice of Exception, elementwise. -/
def Exception.marshalEach : List (Option Sarif.Exception) → Except String (List Json)
  | [] => Except.ok []
  | none :: rest =>
    match Exception.marshalEach rest with
    | Except.error e => Except.error e
    | Except.ok js => Except.ok (Json.null :: js)
  | some n :: rest =>
    match Exception.marshalJSON n with
    | Except.error e => Except.error e
    | Except.ok j =>
      match Exception.marshalEach rest with
      | Except.error e => Except.error e
      | Except.ok js => Except.ok (j :: js)
end

/-- Field record of the Go struct Notification in src/sarif.go (field order preserved). -/
structure Notification where
  AssociatedRule : Option Sarif.ReportingDescriptorReference
  Descriptor : Option Sarif.ReportingDescriptorReference
  Exception : Option Sarif.Exception
  Level : String
  Locations : Option (List (Option Sarif.Location))
  Message : Option Sarif.Message
  Properties : Option Sarif.PropertyBag
  ThreadId : Int
  TimeUtc : String

/-- The Go zero value of Notification: what UnmarshalJSON starts from. -/
def Notification.zero : Sarif.Notification where
  AssociatedRule := none
  Descriptor := none
  Exception := none
  Level := ""
  Locations := none
  Message := none
  Properties := none
  ThreadId := 0
  TimeUtc := ""

/-- The property loop of func (strct *Notification) UnmarshalJSON in src/sarif.go: dispatch
on each key of the decoded object, tracking which required keys were received.
Go iterates the map in unspecified order; entries arrive here in ascending key
order, one admissible schedule, and distinct keys update disjoint fields. -/
def Notification.parseProps : List (String × Json) → (Sarif.Notification × Bool) → Except String (Sarif.Notification × Bool)
  | [], acc => Except.ok acc
  | (k, v) :: rest, (strct, messageReceived) =>
    match k with
    | "associatedRule" =>
      match decOpt Sarif.ReportingDescriptorReference.unmarshalJSON v with
      | Except.error e => Except.error e
      | Except.ok x => Notification.parseProps rest (( { strct with AssociatedRule := x } ), messageReceived)
    | "descriptor" =>
      match decOpt Sarif.ReportingDescriptorReference.unmarshalJSON v with
      | Except.error e => Except.error e
      | Except.ok x => Notification.parseProps rest (( { strct with Descriptor := x } ), messageReceived)
    | "exception" =>
      match decOpt Sarif.Exception.unmarshalJSON v with
      | Except.error e => Except.error e
      | Except.ok x => Notification.parseProps rest (( { strct with Exception := x } ), messageReceived)
    | "level" =>
      match decString v with
      | Except.error e => Except.error e
      | Except.ok x => Notification.parseProps rest (( { strct with Level := x } ), messageReceived)
    | "locations" =>
      match decList (decOpt Sarif.Location.unmarshalJSON) v with
      | Except.error e => Except.error e
      | Except.ok x => Notification.parseProps rest (( { strct with Locations := x } ), messageReceived)
    | "message" =>
      match decOpt Sarif.Message.unmarshalJSON v with
      | Except.error e => Except.error e
      | Except.ok x => Notification.parseProps rest (( { strct with Message := x } ), true)
    | "properties" =>
      match decOpt Sarif.PropertyBag.unmarshalJSON v with
      | Except.error e => Except.error e
      | Except.ok x => Notification.parseProps rest (( { strct with Properties := x } ), messageReceived)
    | "threadId" =>
      match decInt v with
      | Except.error e => Except.error e
      | Except.ok x => Notification.parseProps rest (( { strct with ThreadId := x } ), messageReceived)
    | "timeUtc" =>
      match decString v with
      | Except.error e => Except.error e
      | Except.ok x => Notification.parseProps rest (( { strct with TimeUtc := x } ), messageReceived)
    | _ => Except.error ("additional property not allowed: \"" ++ k ++ "\"")

/-- Embeds func (strct *Notification) UnmarshalJSON in src/sarif.go. -/
def Notification.unmarshalJSON (j : Json) : Except String Sarif.Notification :=
  match asObject j with
  | Except.error e => Except.error e
  | Except.ok jsonMap =>
    match Notification.parseProps jsonMap (Notification.zero, false) with
    | Except.error e => Except.error e
    | Except.ok (strct, messageReceived) =>
      if !messageReceived then Except.error "\"message\" is required but was not present"
      else Except.ok strct

/-- Embeds func (strct *Notification) MarshalJSON in src/sarif.go: every declared field
is emitted, in declaration order; required fields of object type are checked for nil. -/
def Notification.marshalJSON (strct : Sarif.Notification) : Except String Json :=
  match encOpt Sarif.ReportingDescriptorReference.marshalJSON strct.AssociatedRule with
  | Except.error e => Except.error e
  | Except.ok j0 =>
  match encOpt Sarif.ReportingDescriptorReference.marshalJSON strct.Descriptor with
  | Except.error e => Except.error e
  | Except.ok j1 =>
  match encOpt Sarif.Exception.marshalJSON strct.Exception with
  | Except.error e => Except.error e
  | Except.ok j2 =>
  match encString strct.Level with
  | Except.error e => Except.error e
  | Except.ok j3 =>
  match encList (encOpt Sarif.Location.marshalJSON) strct.Locations with
  | Except.error e => Except.error e
  | Except.ok j4 =>
  if strct.Message.isNone then Except.error "message is a required field"
  else
  match encOpt Sarif.Message.marshalJSON strct.Message with
  | Except.error e => Except.error e
  | Except.ok j5 =>
  match encOpt Sarif.PropertyBag.marshalJSON strct.Properties with
  | Except.error e => Except.error e
  | Except.ok j6 =>
  match encInt strct.ThreadId with
  | Except.error e => Except.error e
  | Except.ok j7 =>
  match encString strct.TimeUtc with
  | Except.error e => Except.error e
  | Except.ok j8 =>
  Except.ok (Json.obj [("associatedRule", j0), ("descriptor", j1), ("exception", j2), ("level", j3), ("locations", j4), ("message", j5), ("properties", j6), ("threadId", j7), ("timeUtc", j8)])

/-- Field record of the Go struct Invocation in src/sarif.go (field order preserved). -/
structure Invocation where
  Account : String
  Arguments : Option (List String)
  CommandLine : String
  EndTimeUtc : String
  EnvironmentVariables : Option (List (String × String))
  ExecutableLocation : Option Sarif.ArtifactLocation
  ExecutionSuccessful : Bool
  ExitCode : Int
  ExitCodeDescription : String
  ExitSignalName : String
  ExitSignalNumber : Int
  Machine : String
  NotificationConfigurationOverrides : Option (List (Option Sarif.ConfigurationOverride))
  ProcessId : Int
  ProcessStartFailureMessage : String
  Properties : Option Sarif.PropertyBag
  ResponseFiles : Option (List (Option Sarif.ArtifactLocation))
  RuleConfigurationOverrides : Option (List (Option Sarif.ConfigurationOverride))
  StartTimeUtc : String
  Stderr : Option Sarif.ArtifactLocation
  Stdin : Option Sarif.ArtifactLocation
  Stdout : Option Sarif.ArtifactLocation
  StdoutStderr : Option Sarif.ArtifactLocation
  ToolConfigurationNotifications : Option (List (Option Sarif.Notification))
  ToolExecutionNotifications : Option (List (Option Sarif.Notification))
  WorkingDirectory : Option Sarif.ArtifactLocation

/-- The Go zero value of Invocation: what UnmarshalJSON starts from. -/
def Invocation.zero : Sarif.Invocation where
  Account := ""
  Arguments := none
  CommandLine := ""
  EndTimeUtc := ""
  EnvironmentVariables := none
  ExecutableLocation := none
  ExecutionSuccessful := false
  ExitCode := 0
  ExitCodeDescription := ""
  ExitSignalName := ""
  ExitSignalNumber := 0
  Machine := ""
  NotificationConfigurationOverrides := none
  ProcessId := 0
  ProcessStartFailureMessage := ""
  Properties := none
  ResponseFiles := none
  RuleConfigurationOverrides := none
  StartTimeUtc := ""
  Stderr := none
  Stdin := none
  Stdout := none
  StdoutStderr := none
  ToolConfigurationNotifications := none
  ToolExecutionNotifications := none
  WorkingDirectory := none

/-- The property loop of func (strct *Invocation) UnmarshalJSON in src/sarif.go: dispatch
on each key of the decoded object, tracking which required keys were received.
Go iterates the map in unspecified order; entries arrive here in ascending key
order, one admissible schedule, and distinct keys update disjoint fields. -/
def Invocation.parseProps : List (String × Json) → (Sarif.Invocation × Bool) → Except String (Sarif.Invocation × Bool)
  | [], acc => Except.ok acc
  | (k, v) :: rest, (strct, executionSuccessfulReceived) =>
    match k with
    | "account" =>
      match decString v with
      | Except.error e => Except.error e
      | Except.ok x => Invocation.parseProps rest (( { strct with Account := x } ), executionSuccessfulReceived)
    | "arguments" =>
      match decList decString v with
      | Except.error e => Except.error e
      | Except.ok x => Invocation.parseProps rest (( { strct with Arguments := x } ), executionSuccessfulReceived)
    | "commandLine" =>
      match decString v with
      | Except.error e => Except.error e
      | Except.ok x => Invocation.parseProps rest (( { strct with CommandLine := x } ), executionSuccessfulReceived)
    | "endTimeUtc" =>
      match decString v with
      | Except.error e => Except.error e
      | Except.ok x => Invocation.parseProps rest (( { strct with EndTimeUtc := x } ), executionSuccessfulReceived)
    | "environmentVariables" =>
      match decMap decString v with
      | Except.error e => Except.error e
      | Except.ok x => Invocation.parseProps rest (( { strct with EnvironmentVariables := x } ), executionSuccessfulReceived)
    | "executableLocation" =>
      match decOpt Sarif.ArtifactLocation.unmarshalJSON v with
      | Except.error e => Except.error e
      | Except.ok x => Invocation.parseProps rest (( { strct with ExecutableLocation := x } ), executionSuccessfulReceived)
    | "executionSuccessful" =>
      match decBool v with
      | Except.error e => Except.error e
      | Except.ok x => Invocation.parseProps rest (( { strct with ExecutionSuccessful := x } ), true)
    | "exitCode" =>
      match decInt v with
      | Except.error e => Except.error e
      | Except.ok x => Invocation.parseProps rest (( { strct with ExitCode := x } ), executionSuccessfulReceived)
    | "exitCodeDescription" =>
      match decString v with
      | Except.error e => Except.error e
      | Except.ok x => Invocation.parseProps rest (( { strct with ExitCodeDescription := x } ), executionSuccessfulReceived)
    | "exitSignalName" =>
      match decString v with
      | Except.error e => Except.error e
      | Except.ok x => Invocation.parseProps rest (( { strct with ExitSignalName := x } ), executionSuccessfulReceived)
    | "exitSignalNumber" =>
      match decInt v with
      | Except.error e => Except.error e
      | Except.ok x => Invocation.parseProps rest (( { strct with ExitSignalNumber := x } ), executionSuccessfulReceived)
    | "machine" =>
      match decString v with
      | Except.error e => Except.error e
      | Except.ok x => Invocation.parseProps rest (( { strct with Machine := x } ), executionSuccessfulReceived)
    | "notificationConfigurationOverrides" =>
      match decList (decOpt Sarif.ConfigurationOverride.unmarshalJSON) v with
      | Except.error e => Except.error e
      | Except.ok x => Invocation.parseProps rest (( { strct with NotificationConfigurationOverrides := x } ), executionSuccessfulReceived)
    | "processId" =>
      match decInt v with
      | Except.error e => Except.error e
      | Except.ok x => Invocation.parseProps rest (( { strct with ProcessId := x } ), executionSuccessfulReceived)
    | "processStartFailureMessage" =>
      match decString v with
      | Except.error e => Except.error e
      | Except.ok x => Invocation.parseProps rest (( { strct with ProcessStartFailureMessage := x } ), executionSuccessfulReceived)
    | "properties" =>
      match decOpt Sarif.PropertyBag.unmarshalJSON v with
      | Except.error e => Except.error e
      | Except.ok x => Invocation.parseProps rest (( { strct with Properties := x } ), executionSuccessfulReceived)
    | "responseFiles" =>
      match decList (decOpt Sarif.ArtifactLocation.unmarshalJSON) v with
      | Except.error e => Except.error e
      | Except.ok x => Invocation.parseProps rest (( { strct with ResponseFiles := x } ), executionSuccessfulReceived)
    | "ruleConfigurationOverrides" =>
      match decList (decOpt Sarif.ConfigurationOverride.unmarshalJSON) v with
      | Except.error e => Except.error e
      | Except.ok x => Invocation.parseProps rest (( { strct with RuleConfigurationOverrides := x } ), executionSuccessfulReceived)
    | "startTimeUtc" =>
      match decString v with
      | Except.error e => Except.error e
      | Except.ok x => Invocation.parseProps rest (( { strct with StartTimeUtc := x } ), executionSuccessfulReceived)
    | "stderr" =>
      match decOpt Sarif.ArtifactLocation.unmarshalJSON v with
      | Except.error e => Except.error e
      | Except.ok x => Invocation.parseProps rest (( { strct with Stderr := x } ), executionSuccessfulReceived)
    | "stdin" =>
      match decOpt Sarif.ArtifactLocation.unmarshalJSON v with
      | Except.error e => Except.error e
      | Except.ok x => Invocation.parseProps rest (( { strct with Stdin := x } ), executionSuccessfulReceived)
    | "stdout" =>
      match decOpt Sarif.ArtifactLocation.unmarshalJSON v with
      | Except.error e => Except.error e
      | Except.ok x => Invocation.parseProps rest (( { strct with Stdout := x } ), executionSuccessfulReceived)
    | "stdoutStderr" =>
      match decOpt Sarif.ArtifactLocation.unmarshalJSON v with
      | Except.error e => Except.error e
      | Except.ok x => Invocation.parseProps rest (( { strct with StdoutStderr := x } ), executionSuccessfulReceived)
    | "toolConfigurationNotifications" =>
      match decList (decOpt Sarif.Notification.unmarshalJSON) v with
      | Except.error e => Except.error e
      | Except.ok x => Invocation.parseProps rest (( { strct with ToolConfigurationNotifications := x } ), executionSuccessfulReceived)
    | "toolExecutionNotifications" =>
      match decList (decOpt Sarif.Notification.unmarshalJSON) v with
      | Except.error e => Except.error e
      | Except.ok x => Invocation.parseProps rest (( { strct with ToolExecutionNotifications := x } ), executionSuccessfulReceived)
    | "workingDirectory" =>
      match decOpt Sarif.ArtifactLocation.unmarshalJSON v with
      | Except.error e => Except.error e
      | Except.ok x => Invocation.parseProps rest (( { strct with WorkingDirectory := x } ), executionSuccessfulReceived)
    | _ => Except.error ("additional property not allowed: \"" ++ k ++ "\"")

/-- Embeds func (strct *Invocation) UnmarshalJSON in src/sarif.go. -/
def Invocation.unmarshalJSON (j : Json) : Except String Sarif.Invocation :=
  match asObject j with
  | Except.error e => Except.error e
  | Except.ok jsonMap =>
    match Invocation.parseProps jsonMap (Invocation.zero, false) with
    | Except.error e => Except.error e
    | Except.ok (strct, executionSuccessfulReceived) =>
      if !executionSuccessfulReceived then Except.error "\"executionSuccessful\" is required but was not present"
      else Except.ok strct

/-- Embeds func (strct *Invocation) MarshalJSON in src/sarif.go: every declared field
is emitted, in declaration order; required fields of object type are checked for nil. -/
def Invocation.marshalJSON (strct : Sarif.Invocation) : Except String Json :=
  match encString strct.Account with
  | Except.error e => Except.error e
  | Except.ok j0 =>
  match encList encString strct.Arguments with
  | Except.error e => Except.error e
  | Except.ok j1 =>
  match encString strct.CommandLine with
  | Except.error e => Except.error e
  | Except.ok j2 =>
  match encString strct.EndTimeUtc with
  | Except.error e => Except.error e
  | Except.ok j3 =>
  match encMap encString strct.EnvironmentVariables with
  | Except.error e => Except.error e
  | Except.ok j4 =>
  match encOpt Sarif.ArtifactLocation.marshalJSON strct.ExecutableLocation with
  | Except.error e => Except.error e
  | Except.ok j5 =>
  match encBool strct.ExecutionSuccessful with
  | Except.error e => Except.error e
  | Except.ok j6 =>
  match encInt strct.ExitCode with
  | Except.error e => Except.error e
  | Except.ok j7 =>
  match encString strct.ExitCodeDescription with
  | Except.error e => Except.error e
  | Except.ok j8 =>
  match encString strct.ExitSignalName with
  | Except.error e => Except.error e
  | Except.ok j9 =>
  match encInt strct.ExitSignalNumber with
  | Except.error e => Except.error e
  | Except.ok j10 =>
  match encString strct.Machine with
  | Except.error e => Except.error e
  | Except.ok j11 =>
  match encList (encOpt Sarif.ConfigurationOverride.marshalJSON) strct.NotificationConfigurationOverrides with
  | Except.error e => Except.error e
  | Except.ok j12 =>
  match encInt strct.ProcessId with
  | Except.error e => Except.error e
  | Except.ok j13 =>
  match encString strct.ProcessStartFailureMessage with
  | Except.error e => Except.error e
  | Except.ok j14 =>
  match encOpt Sarif.PropertyBag.marshalJSON strct.Properties with
  | Except.error e => Except.error e
  | Except.ok j15 =>
  match encList (encOpt Sarif.ArtifactLocation.marshalJSON) strct.ResponseFiles with
  | Except.error e => Except.error e
  | Except.ok j16 =>
  match encList (encOpt Sarif.ConfigurationOverride.marshalJSON) strct.RuleConfigurationOverrides with
  | Except.error e => Except.error e
  | Except.ok j17 =>
  match encString strct.StartTimeUtc with
  | Except.error e => Except.error e
  | Except.ok j18 =>
  match encOpt Sarif.ArtifactLocation.marshalJSON strct.Stderr with
  | Except.error e => Except.error e
  | Except.ok j19 =>
  match encOpt Sarif.ArtifactLocation.marshalJSON strct.Stdin with
  | Except.error e => Except.error e
  | Except.ok j20 =>
  match encOpt Sarif.ArtifactLocation.marshalJSON strct.Stdout with
  | Except.error e => Except.error e
  | Except.ok j21 =>
  match encOpt Sarif.ArtifactLocation.marshalJSON strct.StdoutStderr with
  | Except.error e => Except.error e
  | Except.ok j22 =>
  match encList (encOpt Sarif.Notification.marshalJSON) strct.ToolConfigurationNotifications with
  | Except.error e => Except.error e
  | Except.ok j23 =>
  match encList (encOpt Sarif.Notification.marshalJSON) strct.ToolExecutionNotifications with
  | Except.error e => Except.error e
  | Except.ok j24 =>
  match encOpt Sarif.ArtifactLocation.marshalJSON strct.WorkingDirectory with
  | Except.error e => Except.error e
  | Except.ok j25 =>
  Except.ok (Json.obj [("account", j0), ("arguments", j1), ("commandLine", j2), ("endTimeUtc", j3), ("environmentVariables", j4), ("executableLocation", j5), ("executionSuccessful", j6), ("exitCode", j7), ("exitCodeDescription", j8), ("exitSignalName", j9), ("exitSignalNumber", j10), ("machine", j11), ("notificationConfigurationOverrides", j12), ("processId", j13), ("processStartFailureMessage", j14), ("properties", j15), ("responseFiles", j16), ("ruleConfigurationOverrides", j17), ("startTimeUtc", j18), ("stderr", j19), ("stdin", j20), ("stdout", j21), ("stdoutStderr", j22), ("toolConfigurationNotifications", j23), ("toolExecutionNotifications", j24), ("workingDirectory", j25)])

/-- Field record of the Go struct ReportingDescriptorRelationship in src/sarif.go (field order preserved). -/
structure ReportingDescriptorRelationship where
  Description : Option Sarif.Message
  Kinds : Option (List String)
  Properties : Option Sarif.PropertyBag
  Target : Option Sarif.ReportingDescriptorReference

/-- The Go zero value of ReportingDescriptorRelationship: what UnmarshalJSON starts from. -/
def ReportingDescriptorRelationship.zero : Sarif.ReportingDescriptorRelationship where
  Description := none
  Kinds := none
  Properties := none
  Target := none

/-- The property loop of func (strct *ReportingDescriptorRelationship) UnmarshalJSON in src/sarif.go: dispatch
on each key of the decoded object, tracking which required keys were received.
Go iterates the map in unspecified order; entries arrive here in ascending key
order, one admissible schedule, and distinct keys update disjoint fields. -/
def ReportingDescriptorRelationship.parseProps : List (String × Json) → (Sarif.ReportingDescriptorRelationship × Bool) → Except String (Sarif.ReportingDescriptorRelationship × Bool)
  | [], acc => Except.ok acc
  | (k, v) :: rest, (strct, targetReceived) =>
    match k with
    | "description" =>
      match decOpt Sarif.Message.unmarshalJSON v with
      | Except.error e => Except.error e
      | Except.ok x => ReportingDescriptorRelationship.parseProps rest (( { strct with Description := x } ), targetReceived)
    | "kinds" =>
      match decList decString v with
      | Except.error e => Except.error e
      | Except.ok x => ReportingDescriptorRelationship.parseProps rest (( { strct with Kinds := x } ), targetReceived)
    | "properties" =>
      match decOpt Sarif.PropertyBag.unmarshalJSON v with
      | Except.error e => Except.error e
      | Except.ok x => ReportingDescriptorRelationship.parseProps rest (( { strct with Properties := x } ), targetReceived)
    | "target" =>
      match decOpt Sarif.ReportingDescriptorReference.unmarshalJSON v with
      | Except.error e => Except.error e
      | Except.ok x => ReportingDescriptorRelationship.parseProps rest (( { strct with Target := x } ), true)
    | _ => Except.error ("additional property not allowed: \"" ++ k ++ "\"")

/-- Embeds func (strct *ReportingDescriptorRelationship) UnmarshalJSON in src/sarif.go. -/
def ReportingDescriptorRelationship.unmarshalJSON (j : Json) : Except String Sarif.ReportingDescriptorRelationship :=
  match asObject j with
  | Except.error e => Except.error e
  | Except.ok jsonMap =>
    match ReportingDescriptorRelationship.parseProps jsonMap (ReportingDescriptorRelationship.zero, false) with
    | Except.error e => Except.error e
    | Except.ok (strct, targetReceived) =>
      if !targetReceived then Except.error "\"target\" is required but was not present"
      else Except.ok strct

/-- Embeds func (strct *ReportingDescriptorRelationship) MarshalJSON in src/sarif.go: every declared field
is emitted, in declaration order; required fields of object type are checked for nil. -/
def ReportingDescriptorRelationship.marshalJSON (strct : Sarif.ReportingDescriptorRelationship) : Except String Json :=
  match encOpt Sarif.Message.marshalJSON strct.Description with
  | Except.error e => Except.error e
  | Except.ok j0 =>
  match encList encString strct.Kinds with
  | Except.error e => Except.error e
  | Except.ok j1 =>
  match encOpt Sarif.PropertyBag.marshalJSON strct.Properties with
  | Except.error e => Except.error e
  | Except.ok j2 =>
  if strct.Target.isNone then Except.error "target is a required field"
  else
  match encOpt Sarif.ReportingDescriptorReference.marshalJSON strct.Target with
  | Except.error e => Except.error e
  | Except.ok j3 =>
  Except.ok (Json.obj [("description", j0), ("kinds", j1), ("properties", j2), ("target", j3)])

/-- Field record of the Go struct ReportingDescriptor in src/sarif.go (field order preserved). -/
structure ReportingDescriptor where
  DefaultConfiguration : Option Sarif.ReportingConfiguration
  DeprecatedGuids : Option (List String)
  DeprecatedIds : Option (List String)
  DeprecatedNames : Option (List String)
  FullDescription : Option Sarif.MultiformatMessageString
  Guid : String
  Help : Option Sarif.MultiformatMessageString
  HelpUri : String
  Id : String
  MessageStrings : Option (List (String × Option Sarif.MultiformatMessageString))
  Name : String
  Properties : Option Sarif.PropertyBag
  Relationships : Option (List (Option Sarif.ReportingDescriptorRelationship))
  ShortDescription : Option Sarif.MultiformatMessageString

/-- The Go zero value of ReportingDescriptor: what UnmarshalJSON starts from. -/
def ReportingDescriptor.zero : Sarif.ReportingDescriptor where
  DefaultConfiguration := none
  DeprecatedGuids := none
  DeprecatedIds := none
  DeprecatedNames := none
  FullDescription := none
  Guid := ""
  Help := none
  HelpUri := ""
  Id := ""
  MessageStrings := none
  Name := ""
  Properties := none
  Relationships := none
  ShortDescription := none

/-- The property loop of func (strct *ReportingDescriptor) UnmarshalJSON in src/sarif.go: dispatch
on each key of the decoded object, tracking which required keys were received.
Go iterates the map in unspecified order; entries arrive here in ascending key
order, one admissible schedule, and distinct keys update disjoint fields. -/
def ReportingDescriptor.parseProps : List (String × Json) → (Sarif.ReportingDescriptor × Bool) → Except String (Sarif.ReportingDescriptor × Bool)
  | [], acc => Except.ok acc
  | (k, v) :: rest, (strct, idReceived) =>
    match k with
    | "defaultConfiguration" =>
      match decOpt Sarif.ReportingConfiguration.unmarshalJSON v with
      | Except.error e => Except.error e
      | Except.ok x => ReportingDescriptor.parseProps rest (( { strct with DefaultConfiguration := x } ), idReceived)
    | "deprecatedGuids" =>
      match decList decString v with
      | Except.error e => Except.error e
      | Except.ok x => ReportingDescriptor.parseProps rest (( { strct with DeprecatedGuids := x } ), idReceived)
    | "deprecatedIds" =>
      match decList decString v with
      | Except.error e => Except.error e
      | Except.ok x => ReportingDescriptor.parseProps rest (( { strct with DeprecatedIds := x } ), idReceived)
    | "deprecatedNames" =>
      match decList decString v with
      | Except.error e => Except.error e
      | Except.ok x => ReportingDescriptor.parseProps rest (( { strct with DeprecatedNames := x } ), idReceived)
    | "fullDescription" =>
      match decOpt Sarif.MultiformatMessageString.unmarshalJSON v with
      | Except.error e => Except.error e
      | Except.ok x => ReportingDescriptor.parseProps rest (( { strct with FullDescription := x } ), idReceived)
    | "guid" =>
      match decString v with
      | Except.error e => Except.error e
      | Except.ok x => ReportingDescriptor.parseProps rest (( { strct with Guid := x } ), idReceived)
    | "help" =>
      match decOpt Sarif.MultiformatMessageString.unmarshalJSON v with
      | Except.error e => Except.error e
      | Except.ok x => ReportingDescriptor.parseProps rest (( { strct with Help := x } ), idReceived)
    | "helpUri" =>
      match decString v with
      | Except.error e => Except.error e
      | Except.ok x => ReportingDescriptor.parseProps rest (( { strct with HelpUri := x } ), idReceived)
    | "id" =>
      match decString v with
      | Except.error e => Except.error e
      | Except.ok x => ReportingDescriptor.parseProps rest (( { strct with Id := x } ), true)
    | "messageStrings" =>
      match decMap (decOpt Sarif.MultiformatMessageString.unmarshalJSON) v with
      | Except.error e => Except.error e
      | Except.ok x => ReportingDescriptor.parseProps rest (( { strct with MessageStrings := x } ), idReceived)
    | "name" =>
      match decString v with
      | Except.error e => Except.error e
      | Except.ok x => ReportingDescriptor.parseProps rest (( { strct with Name := x } ), idReceived)
    | "properties" =>
      match decOpt Sarif.PropertyBag.unmarshalJSON v with
      | Except.error e => Except.error e
      | Except.ok x => ReportingDescriptor.parseProps rest (( { strct with Properties := x } ), idReceived)
    | "relationships" =>
      match decList (decOpt Sarif.ReportingDescriptorRelationship.unmarshalJSON) v with
      | Except.error e => Except.error e
      | Except.ok x => ReportingDescriptor.parseProps rest (( { strct with Relationships := x } ), idReceived)
    | "shortDescription" =>
      match decOpt Sarif.MultiformatMessageString.unmarshalJSON v with
      | Except.error e => Except.error e
      | Except.ok x => ReportingDescriptor.parseProps rest (( { strct with ShortDescription := x } ), idReceived)
    | _ => Except.error ("additional property not allowed: \"" ++ k ++ "\"")

/-- Embeds func (strct *ReportingDescriptor) UnmarshalJSON in src/sarif.go. -/
def ReportingDescriptor.unmarshalJSON (j : Json) : Except String Sarif.ReportingDescriptor :=
  match asObject j with
  | Except.error e => Except.error e
  | Except.ok jsonMap =>
    match ReportingDescriptor.parseProps jsonMap (ReportingDescriptor.zero, false) with
    | Except.error e => Except.error e
    | Except.ok (strct, idReceived) =>
      if !idReceived then Except.error "\"id\" is required but was not present"
      else Except.ok strct

/-- Embeds func (strct *ReportingDescriptor) MarshalJSON in src/sarif.go: every declared field
is emitted, in declaration order; required fields of object type are checked for nil. -/
def ReportingDescriptor.marshalJSON (strct : Sarif.ReportingDescriptor) : Except String Json :=
  match encOpt Sarif.ReportingConfiguration.marshalJSON strct.DefaultConfiguration with
  | Except.error e => Except.error e
  | Except.ok j0 =>
  match encList encString strct.DeprecatedGuids with
  | Except.error e => Except.error e
  | Except.ok j1 =>
  match encList encString strct.DeprecatedIds with
  | Except.error e => Except.error e
  | Except.ok j2 =>
  match encList encString strct.DeprecatedNames with
  | Except.error e => Except.error e
  | Except.ok j3 =>
  match encOpt Sarif.MultiformatMessageString.marshalJSON strct.FullDescription with
  | Except.error e => Except.error e
  | Except.ok j4 =>
  match encString strct.Guid with
  | Except.error e => Except.error e
  | Except.ok j5 =>
  match encOpt Sarif.MultiformatMessageString.marshalJSON strct.Help with
  | Except.error e => Except.error e
  | Except.ok j6 =>
  match encString strct.HelpUri with
  | Except.error e => Except.error e
  | Except.ok j7 =>
  match encString strct.Id with
  | Except.error e => Except.error e
  | Except.ok j8 =>
  match encMap (encOpt Sarif.MultiformatMessageString.marshalJSON) strct.MessageStrings with
  | Except.error e => Except.error e
  | Except.ok j9 =>
  match encString strct.Name with
  | Except.error e => Except.error e
  | Except.ok j10 =>
  match encOpt Sarif.PropertyBag.marshalJSON strct.Properties with
  | Except.error e => Except.error e
  | Except.ok j11 =>
  match encList (encOpt Sarif.ReportingDescriptorRelationship.marshalJSON) strct.Relationships with
  | Except.error e => Except.error e
  | Except.ok j12 =>
  match encOpt Sarif.MultiformatMessageString.marshalJSON strct.ShortDescription with
  | Except.error e => Except.error e
  | Except.ok j13 =>
  Except.ok (Json.obj [("defaultConfiguration", j0), ("deprecatedGuids", j1), ("deprecatedIds", j2), ("deprecatedNames", j3), ("fullDescription", j4), ("guid", j5), ("help", j6), ("helpUri", j7), ("id", j8), ("messageStrings", j9), ("name", j10), ("properties", j11), ("relationships", j12), ("shortDescription", j13)])

/-- Field record of the Go struct TranslationMetadata in src/sarif.go (field order preserved). -/
structure TranslationMetadata where
  DownloadUri : String
  FullDescription : Option Sarif.MultiformatMessageString
  FullName : String
  InformationUri : String
  Name : String
  Properties : Option Sarif.PropertyBag
  ShortDescription : Option Sarif.MultiformatMessageString

/-- The Go zero value of TranslationMetadata: what UnmarshalJSON starts from. -/
def TranslationMetadata.zero : Sarif.TranslationMetadata where
  DownloadUri := ""
  FullDescription := none
  FullName := ""
  InformationUri := ""
  Name := ""
  Properties := none
  ShortDescription := none

/-- The property loop of func (strct *TranslationMetadata) UnmarshalJSON in src/sarif.go: dispatch
on each key of the decoded object, tracking which required keys were received.
Go iterates the map in unspecified order; entries arrive here in ascending key
order, one admissible schedule, and distinct keys update disjoint fields. -/
def TranslationMetadata.parseProps : List (String × Json) → (Sarif.TranslationMetadata × Bool) → Except String (Sarif.TranslationMetadata × Bool)
  | [], acc => Except.ok acc
  | (k, v) :: rest, (strct, nameReceived) =>
    match k with
    | "downloadUri" =>
      match decString v with
      | Except.error e => Except.error e
      | Except.ok x => TranslationMetadata.parseProps rest (( { strct with DownloadUri := x } ), nameReceived)
    | "fullDescription" =>
      match decOpt Sarif.MultiformatMessageString.unmarshalJSON v with
      | Except.error e => Except.error e
      | Except.ok x => TranslationMetadata.parseProps rest (( { strct with FullDescription := x } ), nameReceived)
    | "fullName" =>
      match decString v with
      | Except.error e => Except.error e
      | Except.ok x => TranslationMetadata.parseProps rest (( { strct with FullName := x } ), nameReceived)
    | "informationUri" =>
      match decString v with
      | Except.error e => Except.error e
      | Except.ok x => TranslationMetadata.parseProps rest (( { strct with InformationUri := x } ), nameReceived)
    | "name" =>
      match decString v with
      | Except.error e => Except.error e
      | Except.ok x => TranslationMetadata.parseProps rest (( { strct with Name := x } ), true)
    | "properties" =>
      match decOpt Sarif.PropertyBag.unmarshalJSON v with
      | Except.error e => Except.error e
      | Except.ok x => TranslationMetadata.parseProps rest (( { strct with Properties := x } ), nameReceived)
    | "shortDescription" =>
      match decOpt Sarif.MultiformatMessageString.unmarshalJSON v with
      | Except.error e => Except.error e
      | Except.ok x => TranslationMetadata.parseProps rest (( { strct with ShortDescription := x } ), nameReceived)
    | _ => Except.error ("additional property not allowed: \"" ++ k ++ "\"")

/-- Embeds func (strct *TranslationMetadata) UnmarshalJSON in src/sarif.go. -/
def TranslationMetadata.unmarshalJSON (j : Json) : Except String Sarif.TranslationMetadata :=
  match asObject j with
  | Except.error e => Except.error e
  | Except.ok jsonMap =>
    match TranslationMetadata.parseProps jsonMap (TranslationMetadata.zero, false) with
    | Except.error e => Except.error e
    | Except.ok (strct, nameReceived) =>
      if !nameReceived then Except.error "\"name\" is required but was not present"
      else Except.ok strct

/-- Embeds func (strct *TranslationMetadata) MarshalJSON in src/sarif.go: every declared field
is emitted, in declaration order; required fields of object type are checked for nil. -/
def TranslationMetadata.marshalJSON (strct : Sarif.TranslationMetadata) : Except String Json :=
  match encString strct.DownloadUri with
  | Except.error e => Except.error e
  | Except.ok j0 =>
  match encOpt Sarif.MultiformatMessageString.marshalJSON strct.FullDescription with
  | Except.error e => Except.error e
  | Except.ok j1 =>
  match encString strct.FullName with
  | Except.error e => Except.error e
  | Except.ok j2 =>
  match encString strct.InformationUri with
  | Except.error e => Except.error e
  | Except.ok j3 =>
  match encString strct.Name with
  | Except.error e => Except.error e
  | Except.ok j4 =>
  match encOpt Sarif.PropertyBag.marshalJSON strct.Properties with
  | Except.error e => Except.error e
  | Except.ok j5 =>
  match encOpt Sarif.MultiformatMessageString.marshalJSON strct.ShortDescription with
  | Except.error e => Except.error e
  | Except.ok j6 =>
  Except.ok (Json.obj [("downloadUri", j0), ("fullDescription", j1), ("fullName", j2), ("informationUri", j3), ("name", j4), ("properties", j5), ("shortDescription", j6)])

/-- Field record of the Go struct ToolComponent in src/sarif.go (field order preserved). -/
structure ToolComponent where
  AssociatedComponent : Option Sarif.ToolComponentReference
  Contents : String
  DottedQuadFileVersion : String
  DownloadUri : String
  FullDescription : Option Sarif.MultiformatMessageString
  FullName : String
  GlobalMessageStrings : Option (List (String × Option Sarif.MultiformatMessageString))
  Guid : String
  InformationUri : String
  IsComprehensive : Bool
  Language : String
  LocalizedDataSemanticVersion : String
  Locations : Option (List (Option Sarif.ArtifactLocation))
  MinimumRequiredLocalizedDataSemanticVersion : String
  Name : String
  Notifications : Option (List (Option Sarif.ReportingDescriptor))
  Organization : String
  Product : String
  ProductSuite : String
  Properties : Option Sarif.PropertyBag
  ReleaseDateUtc : String
  Rules : Option (List (Option Sarif.ReportingDescriptor))
  SemanticVersion : String
  ShortDescription : Option Sarif.MultiformatMessageString
  SupportedTaxonomies : Option (List (Option Sarif.ToolComponentReference))
  Taxa : Option (List (Option Sarif.ReportingDescriptor))
  TranslationMetadata : Option Sarif.TranslationMetadata
  Version : String

/-- The Go zero value of ToolComponent: what UnmarshalJSON starts from. -/
def ToolComponent.zero : Sarif.ToolComponent where
  AssociatedComponent := none
  Contents := ""
  DottedQuadFileVersion := ""
  DownloadUri := ""
  FullDescription := none
  FullName := ""
  GlobalMessageStrings := none
  Guid := ""
  InformationUri := ""
  IsComprehensive := false
  Language := ""
  LocalizedDataSemanticVersion := ""
  Locations := none
  MinimumRequiredLocalizedDataSemanticVersion := ""
  Name := ""
  Notifications := none
  Organization := ""
  Product := ""
  ProductSuite := ""
  Properties := none
  ReleaseDateUtc := ""
  Rules := none
  SemanticVersion := ""
  ShortDescription := none
  SupportedTaxonomies := none
  Taxa := none
  TranslationMetadata := none
  Version := ""

/-- The property loop of func (strct *ToolComponent) UnmarshalJSON in src/sarif.go: dispatch
on each key of the decoded object, tracking which required keys were received.
Go iterates the map in unspecified order; entries arrive here in ascending key
order, one admissible schedule, and distinct keys update disjoint fields. -/
def ToolComponent.parseProps : List (String × Json) → (Sarif.ToolComponent × Bool) → Except String (Sarif.ToolComponent × Bool)
  | [], acc => Except.ok acc
  | (k, v) :: rest, (strct, nameReceived) =>
    match k with
    | "associatedComponent" =>
      match decOpt Sarif.ToolComponentReference.unmarshalJSON v with
      | Except.error e => Except.error e
      | Except.ok x => ToolComponent.parseProps rest (( { strct with AssociatedComponent := x } ), nameReceived)
    | "contents" =>
      match decString v with
      | Except.error e => Except.error e
      | Except.ok x => ToolComponent.parseProps rest (( { strct with Contents := x } ), nameReceived)
    | "dottedQuadFileVersion" =>
      match decString v with
      | Except.error e => Except.error e
      | Except.ok x => ToolComponent.parseProps rest (( { strct with DottedQuadFileVersion := x } ), nameReceived)
    | "downloadUri" =>
      match decString v with
      | Except.error e => Except.error e
      | Except.ok x => ToolComponent.parseProps rest (( { strct with DownloadUri := x } ), nameReceived)
    | "fullDescription" =>
      match decOpt Sarif.MultiformatMessageString.unmarshalJSON v with
      | Except.error e => Except.error e
      | Except.ok x => ToolComponent.parseProps rest (( { strct with FullDescription := x } ), nameReceived)
    | "fullName" =>
      match decString v with
      | Except.error e => Except.error e
      | Except.ok x => ToolComponent.parseProps rest (( { strct with FullName := x } ), nameReceived)
    | "globalMessageStrings" =>
      match decMap (decOpt Sarif.MultiformatMessageString.unmarshalJSON) v with
      | Except.error e => Except.error e
      | Except.ok x => ToolComponent.parseProps rest (( { strct with GlobalMessageStrings := x } ), nameReceived)
    | "guid" =>
      match decString v with
      | Except.error e => Except.error e
      | Except.ok x => ToolComponent.parseProps rest (( { strct with Guid := x } ), nameReceived)
    | "informationUri" =>
      match decString v with
      | Except.error e => Except.error e
      | Except.ok x => ToolComponent.parseProps rest (( { strct with InformationUri := x } ), nameReceived)
    | "isComprehensive" =>
      match decBool v with
      | Except.error e => Except.error e
      | Except.ok x => ToolComponent.parseProps rest (( { strct with IsComprehensive := x } ), nameReceived)
    | "language" =>
      match decString v with
      | Except.error e => Except.error e
      | Except.ok x => ToolComponent.parseProps rest (( { strct with Language := x } ), nameReceived)
    | "localizedDataSemanticVersion" =>
      match decString v with
      | Except.error e => Except.error e
      | Except.ok x => ToolComponent.parseProps rest (( { strct with LocalizedDataSemanticVersion := x } ), nameReceived)
    | "locations" =>
      match decList (decOpt Sarif.ArtifactLocation.unmarshalJSON) v with
      | Except.error e => Except.error e
      | Except.ok x => ToolComponent.parseProps rest (( { strct with Locations := x } ), nameReceived)
    | "minimumRequiredLocalizedDataSemanticVersion" =>
      match decString v with
      | Except.error e => Except.error e
      | Except.ok x => ToolComponent.parseProps rest (( { strct with MinimumRequiredLocalizedDataSemanticVersion := x } ), nameReceived)
    | "name" =>
      match decString v with
      | Except.error e => Except.error e
      | Except.ok x => ToolComponent.parseProps rest (( { strct with Name := x } ), true)
    | "notifications" =>
      match decList (decOpt Sarif.ReportingDescriptor.unmarshalJSON) v with
      | Except.error e => Except.error e
      | Except.ok x => ToolComponent.parseProps rest (( { strct with Notifications := x } ), nameReceived)
    | "organization" =>
      match decString v with
      | Except.error e => Except.error e
      | Except.ok x => ToolComponent.parseProps rest (( { strct with Organization := x } ), nameReceived)
    | "product" =>
      match decString v with
      | Except.error e => Except.error e
      | Except.ok x => ToolComponent.parseProps rest (( { strct with Product := x } ), nameReceived)
    | "productSuite" =>
      match decString v with
      | Except.error e => Except.error e
      | Except.ok x => ToolComponent.parseProps rest (( { strct with ProductSuite := x } ), nameReceived)
    | "properties" =>
      match decOpt Sarif.PropertyBag.unmarshalJSON v with
      | Except.error e => Except.error e
      | Except.ok x => ToolComponent.parseProps rest (( { strct with Properties := x } ), nameReceived)
    | "releaseDateUtc" =>
      match decString v with
      | Except.error e => Except.error e
      | Except.ok x => ToolComponent.parseProps rest (( { strct with ReleaseDateUtc := x } ), nameReceived)
    | "rules" =>
      match decList (decOpt Sarif.ReportingDescriptor.unmarshalJSON) v with
      | Except.error e => Except.error e
      | Except.ok x => ToolComponent.parseProps rest (( { strct with Rules := x } ), nameReceived)
    | "semanticVersion" =>
      match decString v with
      | Except.error e => Except.error e
      | Except.ok x => ToolComponent.parseProps rest (( { strct with SemanticVersion := x } ), nameReceived)
    | "shortDescription" =>
      match decOpt Sarif.MultiformatMessageString.unmarshalJSON v with
      | Except.error e => Except.error e
      | Except.ok x => ToolComponent.parseProps rest (( { strct with ShortDescription := x } ), nameReceived)
    | "supportedTaxonomies" =>
      match decList (decOpt Sarif.ToolComponentReference.unmarshalJSON) v with
      | Except.error e => Except.error e
      | Except.ok x => ToolComponent.parseProps rest (( { strct with SupportedTaxonomies := x } ), nameReceived)
    | "taxa" =>
      match decList (decOpt Sarif.ReportingDescriptor.unmarshalJSON) v with
      | Except.error e => Except.error e
      | Except.ok x => ToolComponent.parseProps rest (( { strct with Taxa := x } ), nameReceived)
    | "translationMetadata" =>
      match decOpt Sarif.TranslationMetadata.unmarshalJSON v with
      | Except.error e => Except.error e
      | Except.ok x => ToolComponent.parseProps rest (( { strct with TranslationMetadata := x } ), nameReceived)
    | "version" =>
      match decString v with
      | Except.error e => Except.error e
      | Except.ok x => ToolComponent.parseProps rest (( { strct with Version := x } ), nameReceived)
    | _ => Except.error ("additional property not allowed: \"" ++ k ++ "\"")

/-- Embeds func (strct *ToolComponent) UnmarshalJSON in src/sarif.go. -/
def ToolComponent.unmarshalJSON (j : Json) : Except String Sarif.ToolComponent :=
  match asObject j with
  | Except.error e => Except.error e
  | Except.ok jsonMap =>
    match ToolComponent.parseProps jsonMap (ToolComponent.zero, false) with
    | Except.error e => Except.error e
    | Except.ok (strct, nameReceived) =>
      if !nameReceived then Except.error "\"name\" is required but was not present"
      else Except.ok strct

/-- Embeds func (strct *ToolComponent) MarshalJSON in src/sarif.go: every declared field
is emitted, in declaration order; required fields of object type are checked for nil. -/
def ToolComponent.marshalJSON (strct : Sarif.ToolComponent) : Except String Json :=
  match encOpt Sarif.ToolComponentReference.marshalJSON strct.AssociatedComponent with
  | Except.error e => Except.error e
  | Except.ok j0 =>
  match encString strct.Contents with
  | Except.error e => Except.error e
  | Except.ok j1 =>
  match encString strct.DottedQuadFileVersion with
  | Except.error e => Except.error e
  | Except.ok j2 =>
  match encString strct.DownloadUri with
  | Except.error e => Except.error e
  | Except.ok j3 =>
  match encOpt Sarif.MultiformatMessageString.marshalJSON strct.FullDescription with
  | Except.error e => Except.error e
  | Except.ok j4 =>
  match encString strct.FullName with
  | Except.error e => Except.error e
  | Except.ok j5 =>
  match encMap (encOpt Sarif.MultiformatMessageString.marshalJSON) strct.GlobalMessageStrings with
  | Except.error e => Except.error e
  | Except.ok j6 =>
  match encString strct.Guid with
  | Except.error e => Except.error e
  | Except.ok j7 =>
  match encString strct.InformationUri with
  | Except.error e => Except.error e
  | Except.ok j8 =>
  match encBool strct.IsComprehensive with
  | Except.error e => Except.error e
  | Except.ok j9 =>
  match encString strct.Language with
  | Except.error e => Except.error e
  | Except.ok j10 =>
  match encString strct.LocalizedDataSemanticVersion with
  | Except.error e => Except.error e
  | Except.ok j11 =>
  match encList (encOpt Sarif.ArtifactLocation.marshalJSON) strct.Locations with
  | Except.error e => Except.error e
  | Except.ok j12 =>
  match encString strct.MinimumRequiredLocalizedDataSemanticVersion with
  | Except.error e => Except.error e
  | Except.ok j13 =>
  match encString strct.Name with
  | Except.error e => Except.error e
  | Except.ok j14 =>
  match encList (encOpt Sarif.ReportingDescriptor.marshalJSON) strct.Notifications with
  | Except.error e => Except.error e
  | Except.ok j15 =>
  match encString strct.Organization with
  | Except.error e => Except.error e
  | Except.ok j16 =>
  match encString strct.Product with
  | Except.error e => Except.error e
  | Except.ok j17 =>
  match encString strct.ProductSuite with
  | Except.error e => Except.error e
  | Except.ok j18 =>
  match encOpt Sarif.PropertyBag.marshalJSON strct.Properties with
  | Except.error e => Except.error e
  | Except.ok j19 =>
  match encString strct.ReleaseDateUtc with
  | Except.error e => Except.error e
  | Except.ok j20 =>
  match encList (encOpt Sarif.ReportingDescriptor.marshalJSON) strct.Rules with
  | Except.error e => Except.error e
  | Except.ok j21 =>
  match encString strct.SemanticVersion with
  | Except.error e => Except.error e
  | Except.ok j22 =>
  match encOpt Sarif.MultiformatMessageString.marshalJSON strct.ShortDescription with
  | Except.error e => Except.error e
  | Except.ok j23 =>
  match encList (encOpt Sarif.ToolComponentReference.marshalJSON) strct.SupportedTaxonomies with
  | Except.error e => Except.error e
  | Except.ok j24 =>
  match encList (encOpt Sarif.ReportingDescriptor.marshalJSON) strct.Taxa with
  | Except.error e => Except.error e
  | Except.ok j25 =>
  match encOpt Sarif.TranslationMetadata.marshalJSON strct.TranslationMetadata with
  | Except.error e => Except.error e
  | Except.ok j26 =>
  match encString strct.Version with
  | Except.error e => Except.error e
  | Except.ok j27 =>
  Except.ok (Json.obj [("associatedComponent", j0), ("contents", j1), ("dottedQuadFileVersion", j2), ("downloadUri", j3), ("fullDescription", j4), ("fullName", j5), ("globalMessageStrings", j6), ("guid", j7), ("informationUri", j8), ("isComprehensive", j9), ("language", j10), ("localizedDataSemanticVersion", j11), ("locations", j12), ("minimumRequiredLocalizedDataSemanticVersion", j13), ("name", j14), ("notifications", j15), ("organization", j16), ("product", j17), ("productSuite", j18), ("properties", j19), ("releaseDateUtc", j20), ("rules", j21), ("semanticVersion", j22), ("shortDescription", j23), ("supportedTaxonomies", j24), ("taxa", j25), ("translationMetadata", j26), ("version", j27)])

/-- Field record of the Go struct Tool in src/sarif.go (field order preserved). -/
structure Tool where
  Driver : Option Sarif.ToolComponent
  Extensions : Option (List (Option Sarif.ToolComponent))
  Properties : Option Sarif.PropertyBag

/-- The Go zero value of Tool: what UnmarshalJSON starts from. -/
def Tool.zero : Sarif.Tool where
  Driver := none
  Extensions := none
  Properties := none

/-- The property loop of func (strct *Tool) UnmarshalJSON in src/sarif.go: dispatch
on each key of the decoded object, tracking which required keys were received.
Go iterates the map in unspecified order; entries arrive here in ascending key
order, one admissible schedule, and distinct keys update disjoint fields. -/
def Tool.parseProps : List (String × Json) → (Sarif.Tool × Bool) → Except String (Sarif.Tool × Bool)
  | [], acc => Except.ok acc
  | (k, v) :: rest, (strct, driverReceived) =>
    match k with
    | "driver" =>
      match decOpt Sarif.ToolComponent.unmarshalJSON v with
      | Except.error e => Except.error e
      | Except.ok x => Tool.parseProps rest (( { strct with Driver := x } ), true)
    | "extensions" =>
      match decList (decOpt Sarif.ToolComponent.unmarshalJSON) v with
      | Except.error e => Except.error e
      | Except.ok x => Tool.parseProps rest (( { strct with Extensions := x } ), driverReceived)
    | "properties" =>
      match decOpt Sarif.PropertyBag.unmarshalJSON v with
      | Except.error e => Except.error e
      | Except.ok x => Tool.parseProps rest (( { strct with Properties := x } ), driverReceived)
    | _ => Except.error ("additional property not allowed: \"" ++ k ++ "\"")

/-- Embeds func (strct *Tool) UnmarshalJSON in src/sarif.go. -/
def Tool.unmarshalJSON (j : Json) : Except String Sarif.Tool :=
  match asObject j with
  | Except.error e => Except.error e
  | Except.ok jsonMap =>
    match Tool.parseProps jsonMap (Tool.zero, false) with
    | Except.error e => Except.error e
    | Except.ok (strct, driverReceived) =>
      if !driverReceived then Except.error "\"driver\" is required but was not present"
      else Except.ok strct

/-- Embeds func (strct *Tool) MarshalJSON in src/sarif.go: every declared field
is emitted, in declaration order; required fields of object type are checked for nil. -/
def Tool.marshalJSON (strct : Sarif.Tool) : Except String Json :=
  if strct.Driver.isNone then Except.error "driver is a required field"
  else
  match encOpt Sarif.ToolComponent.marshalJSON strct.Driver with
  | Except.error e => Except.error e
  | Except.ok j0 =>
  match encList (encOpt Sarif.ToolComponent.marshalJSON) strct.Extensions with
  | Except.error e => Except.error e
  | Except.ok j1 =>
  match encOpt Sarif.PropertyBag.marshalJSON strct.Properties with
  | Except.error e => Except.error e
  | Except.ok j2 =>
  Except.ok (Json.obj [("driver", j0), ("extensions", j1), ("properties", j2)])

/-- Field record of the Go struct Conversion in src/sarif.go (field order preserved). -/
structure Conversion where
  AnalysisToolLogFiles : Option (List (Option Sarif.ArtifactLocation))
  Invocation : Option Sarif.Invocation
  Properties : Option Sarif.PropertyBag
  Tool : Option Sarif.Tool

/-- The Go zero value of Conversion: what UnmarshalJSON starts from. -/
def Conversion.zero : Sarif.Conversion where
  AnalysisToolLogFiles := none
  Invocation := none
  Properties := none
  Tool := none

/-- The property loop of func (strct *Conversion) UnmarshalJSON in src/sarif.go: dispatch
on each key of the decoded object, tracking which required keys were received.
Go iterates the map in unspecified order; entries arrive here in ascending key
order, one admissible schedule, and distinct keys update disjoint fields. -/
def Conversion.parseProps : List (String × Json) → (Sarif.Conversion × Bool) → Except String (Sarif.Conversion × Bool)
  | [], acc => Except.ok acc
  | (k, v) :: rest, (strct, toolReceived) =>
    match k with
    | "analysisToolLogFiles" =>
      match decList (decOpt Sarif.ArtifactLocation.unmarshalJSON) v with
      | Except.error e => Except.error e
      | Except.ok x => Conversion.parseProps rest (( { strct with AnalysisToolLogFiles := x } ), toolReceived)
    | "invocation" =>
      match decOpt Sarif.Invocation.unmarshalJSON v with
      | Except.error e => Except.error e
      | Except.ok x => Conversion.parseProps rest (( { strct with Invocation := x } ), toolReceived)
    | "properties" =>
      match decOpt Sarif.PropertyBag.unmarshalJSON v with
      | Except.error e => Except.error e
      | Except.ok x => Conversion.parseProps rest (( { strct with Properties := x } ), toolReceived)
    | "tool" =>
      match decOpt Sarif.Tool.unmarshalJSON v with
      | Except.error e => Except.error e
      | Except.ok x => Conversion.parseProps rest (( { strct with Tool := x } ), true)
    | _ => Except.error ("additional property not allowed: \"" ++ k ++ "\"")

/-- Embeds func (strct *Conversion) UnmarshalJSON in src/sarif.go. -/
def Conversion.unmarshalJSON (j : Json) : Except String Sarif.Conversion :=
  match asObject j with
  | Except.error e => Except.error e
  | Except.ok jsonMap =>
    match Conversion.parseProps jsonMap (Conversion.zero, false) with
    | Except.error e => Except.error e
    | Except.ok (strct, toolReceived) =>
      if !toolReceived then Except.error "\"tool\" is required but was not present"
      else Except.ok strct

/-- Embeds func (strct *Conversion) MarshalJSON in src/sarif.go: every declared field
is emitted, in declaration order; required fields of object type are checked for nil. -/
def Conversion.marshalJSON (strct : Sarif.Conversion) : Except String Json :=
  match encList (encOpt Sarif.ArtifactLocation.marshalJSON) strct.AnalysisToolLogFiles with
  | Except.error e => Except.error e
  | Except.ok j0 =>
  match encOpt Sarif.Invocation.marshalJSON strct.Invocation with
  | Except.error e => Except.error e
  | Except.ok j1 =>
  match encOpt Sarif.PropertyBag.marshalJSON strct.Properties with
  | Except.error e => Except.error e
  | Except.ok j2 =>
  if strct.Tool.isNone then Except.error "tool is a required field"
  else
  match encOpt Sarif.Tool.marshalJSON strct.Tool with
  | Except.error e => Except.error e
  | Except.ok j3 =>
  Except.ok (Json.obj [("analysisToolLogFiles", j0), ("invocation", j1), ("properties", j2), ("tool", j3)])

/-- Field record of the Go struct Edge in src/sarif.go (field order preserved). -/
structure Edge where
  Id : String
  Label : Option Sarif.Message
  Properties : Option Sarif.PropertyBag
  SourceNodeId : String
  TargetNodeId : String

/-- The Go zero value of Edge: what UnmarshalJSON starts from. -/
def Edge.zero : Sarif.Edge where
  Id := ""
  Label := none
  Properties := none
  SourceNodeId := ""
  TargetNodeId := ""

/-- The property loop of func (strct *Edge) UnmarshalJSON in src/sarif.go: dispatch
on each key of the decoded object, tracking which required keys were received.
Go iterates the map in unspecified order; entries arrive here in ascending key
order, one admissible schedule, and distinct keys update disjoint fields. -/
def Edge.parseProps : List (String × Json) → (Sarif.Edge × Bool × Bool × Bool) → Except String (Sarif.Edge × Bool × Bool × Bool)
  | [], acc => Except.ok acc
  | (k, v) :: rest, (strct, idReceived, sourceNodeIdReceived, targetNodeIdReceived) =>
    match k with
    | "id" =>
      match decString v with
      | Except.error e => Except.error e
      | Except.ok x => Edge.parseProps rest (( { strct with Id := x } ), true, sourceNodeIdReceived, targetNodeIdReceived)
    | "label" =>
      match decOpt Sarif.Message.unmarshalJSON v with
      | Except.error e => Except.error e
      | Except.ok x => Edge.parseProps rest (( { strct with Label := x } ), idReceived, sourceNodeIdReceived, targetNodeIdReceived)
    | "properties" =>
      match decOpt Sarif.PropertyBag.unmarshalJSON v with
      | Except.error e => Except.error e
      | Except.ok x => Edge.parseProps rest (( { strct with Properties := x } ), idReceived, sourceNodeIdReceived, targetNodeIdReceived)
    | "sourceNodeId" =>
      match decString v with
      | Except.error e => Except.error e
      | Except.ok x => Edge.parseProps rest (( { strct with SourceNodeId := x } ), idReceived, true, targetNodeIdReceived)
    | "targetNodeId" =>
      match decString v with
      | Except.error e => Except.error e
      | Except.ok x => Edge.parseProps rest (( { strct with TargetNodeId := x } ), idReceived, sourceNodeIdReceived, true)
    | _ => Except.error ("additional property not allowed: \"" ++ k ++ "\"")

/-- Embeds func (strct *Edge) UnmarshalJSON in src/sarif.go. -/
def Edge.unmarshalJSON (j : Json) : Except String Sarif.Edge :=
  match asObject j with
  | Except.error e => Except.error e
  | Except.ok jsonMap =>
    match Edge.parseProps jsonMap (Edge.zero, false, false, false) with
    | Except.error e => Except.error e
    | Except.ok (strct, idReceived, sourceNodeIdReceived, targetNodeIdReceived) =>
      if !idReceived then Except.error "\"id\" is required but was not present"
      else if !sourceNodeIdReceived then Except.error "\"sourceNodeId\" is required but was not present"
      else if !targetNodeIdReceived then Except.error "\"targetNodeId\" is required but was not present"
      else Except.ok strct

/-- Embeds func (strct *Edge) MarshalJSON in src/sarif.go: every declared field
is emitted, in declaration order; required fields of object type are checked for nil. -/
def Edge.marshalJSON (strct : Sarif.Edge) : Except String Json :=
  match encString strct.Id with
  | Except.error e => Except.error e
  | Except.ok j0 =>
  match encOpt Sarif.Message.marshalJSON strct.Label with
  | Except.error e => Except.error e
  | Except.ok j1 =>
  match encOpt Sarif.PropertyBag.marshalJSON strct.Properties with
  | Except.error e => Except.error e
  | Except.ok j2 =>
  match encString strct.SourceNodeId with
  | Except.error e => Except.error e
  | Except.ok j3 =>
  match encString strct.TargetNodeId with
  | Except.error e => Except.error e
  | Except.ok j4 =>
  Except.ok (Json.obj [("id", j0), ("label", j1), ("properties", j2), ("sourceNodeId", j3), ("targetNodeId", j4)])

/-- Field record of the Go struct EdgeTraversal in src/sarif.go (field order preserved). -/
structure EdgeTraversal where
  EdgeId : String
  FinalState : Option (List (String × Option Sarif.MultiformatMessageString))
  Message : Option Sarif.Message
  Properties : Option Sarif.PropertyBag
  StepOverEdgeCount : Int

/-- The Go zero value of EdgeTraversal: what UnmarshalJSON starts from. -/
def EdgeTraversal.zero : Sarif.EdgeTraversal where
  EdgeId := ""
  FinalState := none
  Message := none
  Properties := none
  StepOverEdgeCount := 0

/-- The property loop of func (strct *EdgeTraversal) UnmarshalJSON in src/sarif.go: dispatch
on each key of the decoded object, tracking which required keys were received.
Go iterates the map in unspecified order; entries arrive here in ascending key
order, one admissible schedule, and distinct keys update disjoint fields. -/
def EdgeTraversal.parseProps : List (String × Json) → (Sarif.EdgeTraversal × Bool) → Except String (Sarif.EdgeTraversal × Bool)
  | [], acc => Except.ok acc
  | (k, v) :: rest, (strct, edgeIdReceived) =>
    match k with
    | "edgeId" =>
      match decString v with
      | Except.error e => Except.error e
      | Except.ok x => EdgeTraversal.parseProps rest (( { strct with EdgeId := x } ), true)
    | "finalState" =>
      match decMap (decOpt Sarif.MultiformatMessageString.unmarshalJSON) v with
      | Except.error e => Except.error e
      | Except.ok x => EdgeTraversal.parseProps rest (( { strct with FinalState := x } ), edgeIdReceived)
    | "message" =>
      match decOpt Sarif.Message.unmarshalJSON v with
      | Except.error e => Except.error e
      | Except.ok x => EdgeTraversal.parseProps rest (( { strct with Message := x } ), edgeIdReceived)
    | "properties" =>
      match decOpt Sarif.PropertyBag.unmarshalJSON v with
      | Except.error e => Except.error e
      | Except.ok x => EdgeTraversal.parseProps rest (( { strct with Properties := x } ), edgeIdReceived)
    | "stepOverEdgeCount" =>
      match decInt v with
      | Except.error e => Except.error e
      | Except.ok x => EdgeTraversal.parseProps rest (( { strct with StepOverEdgeCount := x } ), edgeIdReceived)
    | _ => Except.error ("additional property not allowed: \"" ++ k ++ "\"")

/-- Embeds func (strct *EdgeTraversal) UnmarshalJSON in src/sarif.go. -/
def EdgeTraversal.unmarshalJSON (j : Json) : Except String Sarif.EdgeTraversal :=
  match asObject j with
  | Except.error e => Except.error e
  | Except.ok jsonMap =>
    match EdgeTraversal.parseProps jsonMap (EdgeTraversal.zero, false) with
    | Except.error e => Except.error e
    | Except.ok (strct, edgeIdReceived) =>
      if !edgeIdReceived then Except.error "\"edgeId\" is required but was not present"
      else Except.ok strct

/-- Embeds func (strct *EdgeTraversal) MarshalJSON in src/sarif.go: every declared field
is emitted, in declaration order; required fields of object type are checked for nil. -/
def EdgeTraversal.marshalJSON (strct : Sarif.EdgeTraversal) : Except String Json :=
  match encString strct.EdgeId with
  | Except.error e => Except.error e
  | Except.ok j0 =>
  match encMap (encOpt Sarif.MultiformatMessageString.marshalJSON) strct.FinalState with
  | Except.error e => Except.error e
  | Except.ok j1 =>
  match encOpt Sarif.Message.marshalJSON strct.Message with
  | Except.error e => Except.error e
  | Except.ok j2 =>
  match encOpt Sarif.PropertyBag.marshalJSON strct.Properties with
  | Except.error e => Except.error e
  | Except.ok j3 =>
  match encInt strct.StepOverEdgeCount with
  | Except.error e => Except.error e
  | Except.ok j4 =>
  Except.ok (Json.obj [("edgeId", j0), ("finalState", j1), ("message", j2), ("properties", j3), ("stepOverEdgeCount", j4)])

/-- The Go struct Node in src/sarif.go nests itself through a slice, so the
Lean model is a nested inductive; constructor arguments follow the field order. -/
inductive Node where
  | mk (Children : Option (List (Option Sarif.Node))) (Id : String) (Label : Option Sarif.Message) (Location : Option Sarif.Location) (Properties : Option Sarif.PropertyBag) : Node

/-- Field record of the Go struct Node, the running state of its decode loop. -/
structure NodeF (X : Type) where
  Children : Option (List (Option X))
  Id : String
  Label : Option Sarif.Message
  Location : Option Sarif.Location
  Properties : Option Sarif.PropertyBag

/-- The Go zero value of Node: what UnmarshalJSON starts from. -/
def Node.zeroF : Sarif.NodeF Sarif.Node where
  Children := none
  Id := ""
  Label := none
  Location := none
  Properties := none

/-- The property loop of func (strct *Node) UnmarshalJSON in src/sarif.go; the
self-typed child decoder is passed in to tie the recursive knot. -/
def Node.parseProps (decChild : Json → Except String Sarif.Node) : List (String × Json) → (Sarif.NodeF Sarif.Node × Bool) → Except String (Sarif.NodeF Sarif.Node × Bool)
  | [], acc => Except.ok acc
  | (k, v) :: rest, (d, idReceived) =>
    match k with
    | "children" =>
      match decList (decOpt decChild) v with
      | Except.error e => Except.error e
      | Except.ok x => Node.parseProps decChild rest (( { d with Children := x } ), idReceived)
    | "id" =>
      match decString v with
      | Except.error e => Except.error e
      | Except.ok x => Node.parseProps decChild rest (( { d with Id := x } ), true)
    | "label" =>
      match decOpt Sarif.Message.unmarshalJSON v with
      | Except.error e => Except.error e
      | Except.ok x => Node.parseProps decChild rest (( { d with Label := x } ), idReceived)
    | "location" =>
      match decOpt Sarif.Location.unmarshalJSON v with
      | Except.error e => Except.error e
      | Except.ok x => Node.parseProps decChild rest (( { d with Location := x } ), idReceived)
    | "properties" =>
      match decOpt Sarif.PropertyBag.unmarshalJSON v with
      | Except.error e => Except.error e
      | Except.ok x => Node.parseProps decChild rest (( { d with Properties := x } ), idReceived)
    | _ => Except.error ("additional property not allowed: \"" ++ k ++ "\"")

/-- Fuel-indexed form of func (strct *Node) UnmarshalJSON in src/sarif.go; the
fuel only bounds self-nesting depth and is otherwise inert. -/
def Node.unmarshalFuel : Nat → Json → Except String Sarif.Node
  | 0, _ => Except.error "nesting too deep"
  | fuel + 1, j =>
    match asObject j with
    | Except.error e => Except.error e
    | Except.ok jsonMap =>
      match Node.parseProps (Sarif.Node.unmarshalFuel fuel) jsonMap (Node.zeroF, false) with
      | Except.error e => Except.error e
      | Except.ok (d, idReceived) =>
        if !idReceived then Except.error "\"id\" is required but was not present"
        else Except.ok (Sarif.Node.mk d.Children d.Id d.Label d.Location d.Properties)

/-- Embeds func (strct *Node) UnmarshalJSON in src/sarif.go; the size of the
input bounds every nesting depth, so the fuel cutoff is never reached. -/
def Node.unmarshalJSON (j : Json) : Except String Sarif.Node :=
  Node.unmarshalFuel (Json.size j) j

mutual
/-- Embeds func (strct *Node) MarshalJSON in src/sarif.go: every declared field
is emitted, in declaration order. -/
def Node.marshalJSON : Sarif.Node → Except String Json
  | Sarif.Node.mk none idV labelV locationV propertiesV =>
    match encString idV with
    | Except.error e => Except.error e
    | Except.ok j1 =>
    match encOpt Sarif.Message.marshalJSON labelV with
    | Except.error e => Except.error e
    | Except.ok j2 =>
    match encOpt Sarif.Location.marshalJSON locationV with
    | Except.error e => Except.error e
    | Except.ok j3 =>
    match encOpt Sarif.PropertyBag.marshalJSON propertiesV with
    | Except.error e => Except.error e
    | Except.ok j4 =>
    Except.ok (Json.obj [("children", Json.null), ("id", j1), ("label", j2), ("location", j3), ("properties", j4)])
  | Sarif.Node.mk (some xs0) idV labelV locationV propertiesV =>
    match Node.marshalEach xs0 with
    | Except.error e => Except.error e
    | Except.ok js =>
    match encString idV with
    | Except.error e => Except.error e
    | Except.ok j1 =>
    match encOpt Sarif.Message.marshalJSON labelV with
    | Except.error e => Except.error e
    | Except.ok j2 =>
    match encOpt Sarif.Location.marshalJSON locationV with
    | Except.error e => Except.error e
    | Except.ok j3 =>
    match encOpt Sarif.PropertyBag.marshalJSON propertiesV with
    | Except.error e => Except.error e
    | Except.ok j4 =>
    Except.ok (Json.obj [("children", Json.arr js), ("id", j1), ("label", j2), ("location", j3), ("properties", j4)])

/-- json.Marshal of the self-typed slice of Node, elementwise. -/
def Node.marshalEach : List (Option Sarif.Node) → Except String (List Json)
  | [] => Except.ok []
  | none :: rest =>
    match Node.marshalEach rest with
    | Except.error e => Except.error e
    | Except.ok js => Except.ok (Json.null :: js)
  | some n :: rest =>
    match Node.marshalJSON n with
    | Except.error e => Except.error e
    | Except.ok j =>
      match Node.marshalEach rest with
      | Except.error e => Except.error e
      | Except.ok js => Except.ok (j :: js)
end

/-- Field record of the Go struct Graph in src/sarif.go (field order preserved). -/
structure Graph where
  Description : Option Sarif.Message
  Edges : Option (List (Option Sarif.Edge))
  Nodes : Option (List (Option Sarif.Node))
  Properties : Option Sarif.PropertyBag

/-- The Go zero value of Graph: what UnmarshalJSON starts from. -/
def Graph.zero : Sarif.Graph where
  Description := none
  Edges := none
  Nodes := none
  Properties := none

/-- The property loop of func (strct *Graph) UnmarshalJSON in src/sarif.go: dispatch
on each key of the decoded object, tracking which required keys were received.
Go iterates the map in unspecified order; entries arrive here in ascending key
order, one admissible schedule, and distinct keys update disjoint fields. -/
def Graph.parseProps : List (String × Json) → (Sarif.Graph) → Except String (Sarif.Graph)
  | [], acc => Except.ok acc
  | (k, v) :: rest, strct =>
    match k with
    | "description" =>
      match decOpt Sarif.Message.unmarshalJSON v with
      | Except.error e => Except.error e
      | Except.ok x => Graph.parseProps rest ( { strct with Description := x } )
    | "edges" =>
      match decList (decOpt Sarif.Edge.unmarshalJSON) v with
      | Except.error e => Except.error e
      | Except.ok x => Graph.parseProps rest ( { strct with Edges := x } )
    | "nodes" =>
      match decList (decOpt Sarif.Node.unmarshalJSON) v with
      | Except.error e => Except.error e
      | Except.ok x => Graph.parseProps rest ( { strct with Nodes := x } )
    | "properties" =>
      match decOpt Sarif.PropertyBag.unmarshalJSON v with
      | Except.error e => Except.error e
      | Except.ok x => Graph.parseProps rest ( { strct with Properties := x } )
    | _ => Except.error ("additional property not allowed: \"" ++ k ++ "\"")

/-- Embeds func (strct *Graph) UnmarshalJSON in src/sarif.go. -/
def Graph.unmarshalJSON (j : Json) : Except String Sarif.Graph :=
  match asObject j with
  | Except.error e => Except.error e
  | Except.ok jsonMap =>
    match Graph.parseProps jsonMap Graph.zero with
    | Except.error e => Except.error e
    | Except.ok strct =>
      Except.ok strct

/-- Embeds func (strct *Graph) MarshalJSON in src/sarif.go: every declared field
is emitted, in declaration order; required fields of object type are checked for nil. -/
def Graph.marshalJSON (strct : Sarif.Graph) : Except String Json :=
  match encOpt Sarif.Message.marshalJSON strct.Description with
  | Except.error e => Except.error e
  | Except.ok j0 =>
  match encList (encOpt Sarif.Edge.marshalJSON) strct.Edges with
  | Except.error e => Except.error e
  | Except.ok j1 =>
  match encList (encOpt Sarif.Node.marshalJSON) strct.Nodes with
  | Except.error e => Except.error e
  | Except.ok j2 =>
  match encOpt Sarif.PropertyBag.marshalJSON strct.Properties with
  | Except.error e => Except.error e
  | Except.ok j3 =>
  Except.ok (Json.obj [("description", j0), ("edges", j1), ("nodes", j2), ("properties", j3)])

/-- Field record of the Go struct Fix in src/sarif.go (field order preserved). -/
structure Fix where
  ArtifactChanges : Option (List (Option Sarif.ArtifactChange))
  Description : Option Sarif.Message
  Properties : Option Sarif.PropertyBag

/-- The Go zero value of Fix: what UnmarshalJSON starts from. -/
def Fix.zero : Sarif.Fix where
  ArtifactChanges := none
  Description := none
  Properties := none

/-- The property loop of func (strct *Fix) UnmarshalJSON in src/sarif.go: dispatch
on each key of the decoded object, tracking which required keys were received.
Go iterates the map in unspecified order; entries arrive here in ascending key
order, one admissible schedule, and distinct keys update disjoint fields. -/
def Fix.parseProps : List (String × Json) → (Sarif.Fix × Bool) → Except String (Sarif.Fix × Bool)
  | [], acc => Except.ok acc
  | (k, v) :: rest, (strct, artifactChangesReceived) =>
    match k with
    | "artifactChanges" =>
      match decList (decOpt Sarif.ArtifactChange.unmarshalJSON) v with
      | Except.error e => Except.error e
      | Except.ok x => Fix.parseProps rest (( { strct with ArtifactChanges := x } ), true)
    | "description" =>
      match decOpt Sarif.Message.unmarshalJSON v with
      | Except.error e => Except.error e
      | Except.ok x => Fix.parseProps rest (( { strct with Description := x } ), artifactChangesReceived)
    | "properties" =>
      match decOpt Sarif.PropertyBag.unmarshalJSON v with
      | Except.error e => Except.error e
      | Except.ok x => Fix.parseProps rest (( { strct with Properties := x } ), artifactChangesReceived)
    | _ => Except.error ("additional property not allowed: \"" ++ k ++ "\"")

/-- Embeds func (strct *Fix) UnmarshalJSON in src/sarif.go. -/
def Fix.unmarshalJSON (j : Json) : Except String Sarif.Fix :=
  match asObject j with
  | Except.error e => Except.error e
  | Except.ok jsonMap =>
    match Fix.parseProps jsonMap (Fix.zero, false) with
    | Except.error e => Except.error e
    | Except.ok (strct, artifactChangesReceived) =>
      if !artifactChangesReceived then Except.error "\"artifactChanges\" is required but was not present"
      else Except.ok strct

/-- Embeds func (strct *Fix) MarshalJSON in src/sarif.go: every declared field
is emitted, in declaration order; required fields of object type are checked for nil. -/
def Fix.marshalJSON (strct : Sarif.Fix) : Except String Json :=
  match encList (encOpt Sarif.ArtifactChange.marshalJSON) strct.ArtifactChanges with
  | Except.error e => Except.error e
  | Except.ok j0 =>
  match encOpt Sarif.Message.marshalJSON strct.Description with
  | Except.error e => Except.error e
  | Except.ok j1 =>
  match encOpt Sarif.PropertyBag.marshalJSON strct.Properties with
  | Except.error e => Except.error e
  | Except.ok j2 =>
  Except.ok (Json.obj [("artifactChanges", j0), ("description", j1), ("properties", j2)])

/-- Field record of the Go struct GraphTraversal in src/sarif.go (field order preserved). -/
structure GraphTraversal where
  Description : Option Sarif.Message
  EdgeTraversals : Option (List (Option Sarif.EdgeTraversal))
  ImmutableState : Option (List (String × Option Sarif.MultiformatMessageString))
  InitialState : Option (List (String × Option Sarif.MultiformatMessageString))
  Properties : Option Sarif.PropertyBag
  ResultGraphIndex : Int
  RunGraphIndex : Int

/-- The Go zero value of GraphTraversal: what UnmarshalJSON starts from. -/
def GraphTraversal.zero : Sarif.GraphTraversal where
  Description := none
  EdgeTraversals := none
  ImmutableState := none
  InitialState := none
  Properties := none
  ResultGraphIndex := 0
  RunGraphIndex := 0

/-- The property loop of func (strct *GraphTraversal) UnmarshalJSON in src/sarif.go: dispatch
on each key of the decoded object, tracking which required keys were received.
Go iterates the map in unspecified order; entries arrive here in ascending key
order, one admissible schedule, and distinct keys update disjoint fields. -/
def GraphTraversal.parseProps : List (String × Json) → (Sarif.GraphTraversal) → Except String (Sarif.GraphTraversal)
  | [], acc => Except.ok acc
  | (k, v) :: rest, strct =>
    match k with
    | "description" =>
      match decOpt Sarif.Message.unmarshalJSON v with
      | Except.error e => Except.error e
      | Except.ok x => GraphTraversal.parseProps rest ( { strct with Description := x } )
    | "edgeTraversals" =>
      match decList (decOpt Sarif.EdgeTraversal.unmarshalJSON) v with
      | Except.error e => Except.error e
      | Except.ok x => GraphTraversal.parseProps rest ( { strct with EdgeTraversals := x } )
    | "immutableState" =>
      match decMap (decOpt Sarif.MultiformatMessageString.unmarshalJSON) v with
      | Except.error e => Except.error e
      | Except.ok x => GraphTraversal.parseProps rest ( { strct with ImmutableState := x } )
    | "initialState" =>
      match decMap (decOpt Sarif.MultiformatMessageString.unmarshalJSON) v with
      | Except.error e => Except.error e
      | Except.ok x => GraphTraversal.parseProps rest ( { strct with InitialState := x } )
    | "properties" =>
      match decOpt Sarif.PropertyBag.unmarshalJSON v with
      | Except.error e => Except.error e
      | Except.ok x => GraphTraversal.parseProps rest ( { strct with Properties := x } )
    | "resultGraphIndex" =>
      match decInt v with
      | Except.error e => Except.error e
      | Except.ok x => GraphTraversal.parseProps rest ( { strct with ResultGraphIndex := x } )
    | "runGraphIndex" =>
      match decInt v with
      | Except.error e => Except.error e
      | Except.ok x => GraphTraversal.parseProps rest ( { strct with RunGraphIndex := x } )
    | _ => Except.error ("additional property not allowed: \"" ++ k ++ "\"")

/-- Embeds func (strct *GraphTraversal) UnmarshalJSON in src/sarif.go. -/
def GraphTraversal.unmarshalJSON (j : Json) : Except String Sarif.GraphTraversal :=
  match asObject j with
  | Except.error e => Except.error e
  | Except.ok jsonMap =>
    match GraphTraversal.parseProps jsonMap GraphTraversal.zero with
    | Except.error e => Except.error e
    | Except.ok strct =>
      Except.ok strct

/-- Embeds func (strct *GraphTraversal) MarshalJSON in src/sarif.go: every declared field
is emitted, in declaration order; required fields of object type are checked for nil. -/
def GraphTraversal.marshalJSON (strct : Sarif.GraphTraversal) : Except String Json :=
  match encOpt Sarif.Message.marshalJSON strct.Description with
  | Except.error e => Except.error e
  | Except.ok j0 =>
  match encList (encOpt Sarif.EdgeTraversal.marshalJSON) strct.EdgeTraversals with
  | Except.error e => Except.error e
  | Except.ok j1 =>
  match encMap (encOpt Sarif.MultiformatMessageString.marshalJSON) strct.ImmutableState with
  | Except.error e => Except.error e
  | Except.ok j2 =>
  match encMap (encOpt Sarif.MultiformatMessageString.marshalJSON) strct.InitialState with
  | Except.error e => Except.error e
  | Except.ok j3 =>
  match encOpt Sarif.PropertyBag.marshalJSON strct.Properties with
  | Except.error e => Except.error e
  | Except.ok j4 =>
  match encInt strct.ResultGraphIndex with
  | Except.error e => Except.error e
  | Except.ok j5 =>
  match encInt strct.RunGraphIndex with
  | Except.error e => Except.error e
  | Except.ok j6 =>
  Except.ok (Json.obj [("description", j0), ("edgeTraversals", j1), ("immutableState", j2), ("initialState", j3), ("properties", j4), ("resultGraphIndex", j5), ("runGraphIndex", j6)])

/-- Field record of the Go struct ResultProvenance in src/sarif.go (field order preserved). -/
structure ResultProvenance where
  ConversionSources : Option (List (Option Sarif.PhysicalLocation))
  FirstDetectionRunGuid : String
  FirstDetectionTimeUtc : String
  InvocationIndex : Int
  LastDetectionRunGuid : String
  LastDetectionTimeUtc : String
  Properties : Option Sarif.PropertyBag

/-- The Go zero value of ResultProvenance: what UnmarshalJSON starts from. -/
def ResultProvenance.zero : Sarif.ResultProvenance where
  ConversionSources := none
  FirstDetectionRunGuid := ""
  FirstDetectionTimeUtc := ""
  InvocationIndex := 0
  LastDetectionRunGuid := ""
  LastDetectionTimeUtc := ""
  Properties := none

/-- The property loop of func (strct *ResultProvenance) UnmarshalJSON in src/sarif.go: dispatch
on each key of the decoded object, tracking which required keys were received.
Go iterates the map in unspecified order; entries arrive here in ascending key
order, one admissible schedule, and distinct keys update disjoint fields. -/
def ResultProvenance.parseProps : List (String × Json) → (Sarif.ResultProvenance) → Except String (Sarif.ResultProvenance)
  | [], acc => Except.ok acc
  | (k, v) :: rest, strct =>
    match k with
    | "conversionSources" =>
      match decList (decOpt Sarif.PhysicalLocation.unmarshalJSON) v with
      | Except.error e => Except.error e
      | Except.ok x => ResultProvenance.parseProps rest ( { strct with ConversionSources := x } )
    | "firstDetectionRunGuid" =>
      match decString v with
      | Except.error e => Except.error e
      | Except.ok x => ResultProvenance.parseProps rest ( { strct with FirstDetectionRunGuid := x } )
    | "firstDetectionTimeUtc" =>
      match decString v with
      | Except.error e => Except.error e
      | Except.ok x => ResultProvenance.parseProps rest ( { strct with FirstDetectionTimeUtc := x } )
    | "invocationIndex" =>
      match decInt v with
      | Except.error e => Except.error e
      | Except.ok x => ResultProvenance.parseProps rest ( { strct with InvocationIndex := x } )
    | "lastDetectionRunGuid" =>
      match decString v with
      | Except.error e => Except.error e
      | Except.ok x => ResultProvenance.parseProps rest ( { strct with LastDetectionRunGuid := x } )
    | "lastDetectionTimeUtc" =>
      match decString v with
      | Except.error e => Except.error e
      | Except.ok x => ResultProvenance.parseProps rest ( { strct with LastDetectionTimeUtc := x } )
    | "properties" =>
      match decOpt Sarif.PropertyBag.unmarshalJSON v with
      | Except.error e => Except.error e
      | Except.ok x => ResultProvenance.parseProps rest ( { strct with Properties := x } )
    | _ => Except.error ("additional property not allowed: \"" ++ k ++ "\"")

/-- Embeds func (strct *ResultProvenance) UnmarshalJSON in src/sarif.go. -/
def ResultProvenance.unmarshalJSON (j : Json) : Except String Sarif.ResultProvenance :=
  match asObject j with
  | Except.error e => Except.error e
  | Except.ok jsonMap =>
    match ResultProvenance.parseProps jsonMap ResultProvenance.zero with
    | Except.error e => Except.error e
    | Except.ok strct =>
      Except.ok strct

/-- Embeds func (strct *ResultProvenance) MarshalJSON in src/sarif.go: every declared field
is emitted, in declaration order; required fields of object type are checked for nil. -/
def ResultProvenance.marshalJSON (strct : Sarif.ResultProvenance) : Except String Json :=
  match encList (encOpt Sarif.PhysicalLocation.marshalJSON) strct.ConversionSources with
  | Except.error e => Except.error e
  | Except.ok j0 =>
  match encString strct.FirstDetectionRunGuid with
  | Except.error e => Except.error e
  | Except.ok j1 =>
  match encString strct.FirstDetectionTimeUtc with
  | Except.error e => Except.error e
  | Except.ok j2 =>
  match encInt strct.InvocationIndex with
  | Except.error e => Except.error e
  | Except.ok j3 =>
  match encString strct.LastDetectionRunGuid with
  | Except.error e => Except.error e
  | Except.ok j4 =>
  match encString strct.LastDetectionTimeUtc with
  | Except.error e => Except.error e
  | Except.ok j5 =>
  match encOpt Sarif.PropertyBag.marshalJSON strct.Properties with
  | Except.error e => Except.error e
  | Except.ok j6 =>
  Except.ok (Json.obj [("conversionSources", j0), ("firstDetectionRunGuid", j1), ("firstDetectionTimeUtc", j2), ("invocationIndex", j3), ("lastDetectionRunGuid", j4), ("lastDetectionTimeUtc", j5), ("properties", j6)])

/-- Field record of the Go struct Suppression in src/sarif.go (field order preserved). -/
structure Suppression where
  Guid : String
  Justification : String
  Kind : String
  Location : Option Sarif.Location
  Properties : Option Sarif.PropertyBag
  State : String

/-- The Go zero value of Suppression: what UnmarshalJSON starts from. -/
def Suppression.zero : Sarif.Suppression where
  Guid := ""
  Justification := ""
  Kind := ""
  Location := none
  Properties := none
  State := ""

/-- The property loop of func (strct *Suppression) UnmarshalJSON in src/sarif.go: dispatch
on each key of the decoded object, tracking which required keys were received.
Go iterates the map in unspecified order; entries arrive here in ascending key
order, one admissible schedule, and distinct keys update disjoint fields. -/
def Suppression.parseProps : List (String × Json) → (Sarif.Suppression × Bool) → Except String (Sarif.Suppression × Bool)
  | [], acc => Except.ok acc
  | (k, v) :: rest, (strct, kindReceived) =>
    match k with
    | "guid" =>
      match decString v with
      | Except.error e => Except.error e
      | Except.ok x => Suppression.parseProps rest (( { strct with Guid := x } ), kindReceived)
    | "justification" =>
      match decString v with
      | Except.error e => Except.error e
      | Except.ok x => Suppression.parseProps rest (( { strct with Justification := x } ), kindReceived)
    | "kind" =>
      match decString v with
      | Except.error e => Except.error e
      | Except.ok x => Suppression.parseProps rest (( { strct with Kind := x } ), true)
    | "location" =>
      match decOpt Sarif.Location.unmarshalJSON v with
      | Except.error e => Except.error e
      | Except.ok x => Suppression.parseProps rest (( { strct with Location := x } ), kindReceived)
    | "properties" =>
      match decOpt Sarif.PropertyBag.unmarshalJSON v with
      | Except.error e => Except.error e
      | Except.ok x => Suppression.parseProps rest (( { strct with Properties := x } ), kindReceived)
    | "state" =>
      match decString v with
      | Except.error e => Except.error e
      | Except.ok x => Suppression.parseProps rest (( { strct with State := x } ), kindReceived)
    | _ => Except.error ("additional property not allowed: \"" ++ k ++ "\"")

/-- Embeds func (strct *Suppression) UnmarshalJSON in src/sarif.go. -/
def Suppression.unmarshalJSON (j : Json) : Except String Sarif.Suppression :=
  match asObject j with
  | Except.error e => Except.error e
  | Except.ok jsonMap =>
    match Suppression.parseProps jsonMap (Suppression.zero, false) with
    | Except.error e => Except.error e
    | Except.ok (strct, kindReceived) =>
      if !kindReceived then Except.error "\"kind\" is required but was not present"
      else Except.ok strct

/-- Embeds func (strct *Suppression) MarshalJSON in src/sarif.go: every declared field
is emitted, in declaration order; required fields of object type are checked for nil. -/
def Suppression.marshalJSON (strct : Sarif.Suppression) : Except String Json :=
  match encString strct.Guid with
  | Except.error e => Except.error e
  | Except.ok j0 =>
  match encString strct.Justification with
  | Except.error e => Except.error e
  | Except.ok j1 =>
  match encString strct.Kind with
  | Except.error e => Except.error e
  | Except.ok j2 =>
  match encOpt Sarif.Location.marshalJSON strct.Location with
  | Except.error e => Except.error e
  | Except.ok j3 =>
  match encOpt Sarif.PropertyBag.marshalJSON strct.Properties with
  | Except.error e => Except.error e
  | Except.ok j4 =>
  match encString strct.State with
  | Except.error e => Except.error e
  | Except.ok j5 =>
  Except.ok (Json.obj [("guid", j0), ("justification", j1), ("kind", j2), ("location", j3), ("properties", j4), ("state", j5)])

/-- Field record of the Go struct Result in src/sarif.go (field order preserved). -/
structure Result where
  AnalysisTarget : Option Sarif.ArtifactLocation
  Attachments : Option (List (Option Sarif.Attachment))
  BaselineState : String
  CodeFlows : Option (List (Option Sarif.CodeFlow))
  CorrelationGuid : String
  Fingerprints : Option (List (String × String))
  Fixes : Option (List (Option Sarif.Fix))
  GraphTraversals : Option (List (Option Sarif.GraphTraversal))
  Graphs : Option (List (Option Sarif.Graph))
  Guid : String
  HostedViewerUri : String
  Kind : String
  Level : String
  Locations : Option (List (Option Sarif.Location))
  Message : Option Sarif.Message
  OccurrenceCount : Int
  PartialFingerprints : Option (List (String × String))
  Properties : Option Sarif.PropertyBag
  Provenance : Option Sarif.ResultProvenance
  Rank : Rat
  RelatedLocations : Option (List (Option Sarif.Location))
  Rule : Option Sarif.ReportingDescriptorReference
  RuleId : String
  RuleIndex : Int
  Stacks : Option (List (Option Sarif.Stack))
  Suppressions : Option (List (Option Sarif.Suppression))
  Taxa : Option (List (Option Sarif.ReportingDescriptorReference))
  WebRequest : Option Sarif.WebRequest
  WebResponse : Option Sarif.WebResponse
  WorkItemUris : Option (List String)

/-- The Go zero value of Result: what UnmarshalJSON starts from. -/
def Result.zero : Sarif.Result where
  AnalysisTarget := none
  Attachments := none
  BaselineState := ""
  CodeFlows := none
  CorrelationGuid := ""
  Fingerprints := none
  Fixes := none
  GraphTraversals := none
  Graphs := none
  Guid := ""
  HostedViewerUri := ""
  Kind := ""
  Level := ""
  Locations := none
  Message := none
  OccurrenceCount := 0
  PartialFingerprints := none
  Properties := none
  Provenance := none
  Rank := 0
  RelatedLocations := none
  Rule := none
  RuleId := ""
  RuleIndex := 0
  Stacks := none
  Suppressions := none
  Taxa := none
  WebRequest := none
  WebResponse := none
  WorkItemUris := none

/-- The property loop of func (strct *Result) UnmarshalJSON in src/sarif.go: dispatch
on each key of the decoded object, tracking which required keys were received.
Go iterates the map in unspecified order; entries arrive here in ascending key
order, one admissible schedule, and distinct keys update disjoint fields. -/
def Result.parseProps : List (String × Json) → (Sarif.Result × Bool) → Except String (Sarif.Result × Bool)
  | [], acc => Except.ok acc
  | (k, v) :: rest, (strct, messageReceived) =>
    match k with
    | "analysisTarget" =>
      match decOpt Sarif.ArtifactLocation.unmarshalJSON v with
      | Except.error e => Except.error e
      | Except.ok x => Result.parseProps rest (( { strct with AnalysisTarget := x } ), messageReceived)
    | "attachments" =>
      match decList (decOpt Sarif.Attachment.unmarshalJSON) v with
      | Except.error e => Except.error e
      | Except.ok x => Result.parseProps rest (( { strct with Attachments := x } ), messageReceived)
    | "baselineState" =>
      match decString v with
      | Except.error e => Except.error e
      | Except.ok x => Result.parseProps rest (( { strct with BaselineState := x } ), messageReceived)
    | "codeFlows" =>
      match decList (decOpt Sarif.CodeFlow.unmarshalJSON) v with
      | Except.error e => Except.error e
      | Except.ok x => Result.parseProps rest (( { strct with CodeFlows := x } ), messageReceived)
    | "correlationGuid" =>
      match decString v with
      | Except.error e => Except.error e
      | Except.ok x => Result.parseProps rest (( { strct with CorrelationGuid := x } ), messageReceived)
    | "fingerprints" =>
      match decMap decString v with
      | Except.error e => Except.error e
      | Except.ok x => Result.parseProps rest (( { strct with Fingerprints := x } ), messageReceived)
    | "fixes" =>
      match decList (decOpt Sarif.Fix.unmarshalJSON) v with
      | Except.error e => Except.error e
      | Except.ok x => Result.parseProps rest (( { strct with Fixes := x } ), messageReceived)
    | "graphTraversals" =>
      match decList (decOpt Sarif.GraphTraversal.unmarshalJSON) v with
      | Except.error e => Except.error e
      | Except.ok x => Result.parseProps rest (( { strct with GraphTraversals := x } ), messageReceived)
    | "graphs" =>
      match decList (decOpt Sarif.Graph.unmarshalJSON) v with
      | Except.error e => Except.error e
      | Except.ok x => Result.parseProps rest (( { strct with Graphs := x } ), messageReceived)
    | "guid" =>
      match decString v with
      | Except.error e => Except.error e
      | Except.ok x => Result.parseProps rest (( { strct with Guid := x } ), messageReceived)
    | "hostedViewerUri" =>
      match decString v with
      | Except.error e => Except.error e
      | Except.ok x => Result.parseProps rest (( { strct with HostedViewerUri := x } ), messageReceived)
    | "kind" =>
      match decString v with
      | Except.error e => Except.error e
      | Except.ok x => Result.parseProps rest (( { strct with Kind := x } ), messageReceived)
    | "level" =>
      match decString v with
      | Except.error e => Except.error e
      | Except.ok x => Result.parseProps rest (( { strct with Level := x } ), messageReceived)
    | "locations" =>
      match decList (decOpt Sarif.Location.unmarshalJSON) v with
      | Except.error e => Except.error e
      | Except.ok x => Result.parseProps rest (( { strct with Locations := x } ), messageReceived)
    | "message" =>
      match decOpt Sarif.Message.unmarshalJSON v with
      | Except.error e => Except.error e
      | Except.ok x => Result.parseProps rest (( { strct with Message := x } ), true)
    | "occurrenceCount" =>
      match decInt v with
      | Except.error e => Except.error e
      | Except.ok x => Result.parseProps rest (( { strct with OccurrenceCount := x } ), messageReceived)
    | "partialFingerprints" =>
      match decMap decString v with
      | Except.error e => Except.error e
      | Except.ok x => Result.parseProps rest (( { strct with PartialFingerprints := x } ), messageReceived)
    | "properties" =>
      match decOpt Sarif.PropertyBag.unmarshalJSON v with
      | Except.error e => Except.error e
      | Except.ok x => Result.parseProps rest (( { strct with Properties := x } ), messageReceived)
    | "provenance" =>
      match decOpt Sarif.ResultProvenance.unmarshalJSON v with
      | Except.error e => Except.error e
      | Except.ok x => Result.parseProps rest (( { strct with Provenance := x } ), messageReceived)
    | "rank" =>
      match decFloat v with
      | Except.error e => Except.error e
      | Except.ok x => Result.parseProps rest (( { strct with Rank := x } ), messageReceived)
    | "relatedLocations" =>
      match decList (decOpt Sarif.Location.unmarshalJSON) v with
      | Except.error e => Except.error e
      | Except.ok x => Result.parseProps rest (( { strct with RelatedLocations := x } ), messageReceived)
    | "rule" =>
      match decOpt Sarif.ReportingDescriptorReference.unmarshalJSON v with
      | Except.error e => Except.error e
      | Except.ok x => Result.parseProps rest (( { strct with Rule := x } ), messageReceived)
    | "ruleId" =>
      match decString v with
      | Except.error e => Except.error e
      | Except.ok x => Result.parseProps rest (( { strct with RuleId := x } ), messageReceived)
    | "ruleIndex" =>
      match decInt v with
      | Except.error e => Except.error e
      | Except.ok x => Result.parseProps rest (( { strct with RuleIndex := x } ), messageReceived)
    | "stacks" =>
      match decList (decOpt Sarif.Stack.unmarshalJSON) v with
      | Except.error e => Except.error e
      | Except.ok x => Result.parseProps rest (( { strct with Stacks := x } ), messageReceived)
    | "suppressions" =>
      match decList (decOpt Sarif.Suppression.unmarshalJSON) v with
      | Except.error e => Except.error e
      | Except.ok x => Result.parseProps rest (( { strct with Suppressions := x } ), messageReceived)
    | "taxa" =>
      match decList (decOpt Sarif.ReportingDescriptorReference.unmarshalJSON) v with
      | Except.error e => Except.error e
      | Except.ok x => Result.parseProps rest (( { strct with Taxa := x } ), messageReceived)
    | "webRequest" =>
      match decOpt Sarif.WebRequest.unmarshalJSON v with
      | Except.error e => Except.error e
      | Except.ok x => Result.parseProps rest (( { strct with WebRequest := x } ), messageReceived)
    | "webResponse" =>
      match decOpt Sarif.WebResponse.unmarshalJSON v with
      | Except.error e => Except.error e
      | Except.ok x => Result.parseProps rest (( { strct with WebResponse := x } ), messageReceived)
    | "workItemUris" =>
      match decList decString v with
      | Except.error e => Except.error e
      | Except.ok x => Result.parseProps rest (( { strct with WorkItemUris := x } ), messageReceived)
    | _ => Except.error ("additional property not allowed: \"" ++ k ++ "\"")

/-- Embeds func (strct *Result) UnmarshalJSON in src/sarif.go. -/
def Result.unmarshalJSON (j : Json) : Except String Sarif.Result :=
  match asObject j with
  | Except.error e => Except.error e
  | Except.ok jsonMap =>
    match Result.parseProps jsonMap (Result.zero, false) with
    | Except.error e => Except.error e
    | Except.ok (strct, messageReceived) =>
      if !messageReceived then Except.error "\"message\" is required but was not present"
      else Except.ok strct

/-- Embeds func (strct *Result) MarshalJSON in src/sarif.go: every declared field
is emitted, in declaration order; required fields of object type are checked for nil. -/
def Result.marshalJSON (strct : Sarif.Result) : Except String Json :=
  match encOpt Sarif.ArtifactLocation.marshalJSON strct.AnalysisTarget with
  | Except.error e => Except.error e
  | Except.ok j0 =>
  match encList (encOpt Sarif.Attachment.marshalJSON) strct.Attachments with
  | Except.error e => Except.error e
  | Except.ok j1 =>
  match encString strct.BaselineState with
  | Except.error e => Except.error e
  | Except.ok j2 =>
  match encList (encOpt Sarif.CodeFlow.marshalJSON) strct.CodeFlows with
  | Except.error e => Except.error e
  | Except.ok j3 =>
  match encString strct.CorrelationGuid with
  | Except.error e => Except.error e
  | Except.ok j4 =>
  match encMap encString strct.Fingerprints with
  | Except.error e => Except.error e
  | Except.ok j5 =>
  match encList (encOpt Sarif.Fix.marshalJSON) strct.Fixes with
  | Except.error e => Except.error e
  | Except.ok j6 =>
  match encList (encOpt Sarif.GraphTraversal.marshalJSON) strct.GraphTraversals with
  | Except.error e => Except.error e
  | Except.ok j7 =>
  match encList (encOpt Sarif.Graph.marshalJSON) strct.Graphs with
  | Except.error e => Except.error e
  | Except.ok j8 =>
  match encString strct.Guid with
  | Except.error e => Except.error e
  | Except.ok j9 =>
  match encString strct.HostedViewerUri with
  | Except.error e => Except.error e
  | Except.ok j10 =>
  match encString strct.Kind with
  | Except.error e => Except.error e
  | Except.ok j11 =>
  match encString strct.Level with
  | Except.error e => Except.error e
  | Except.ok j12 =>
  match encList (encOpt Sarif.Location.marshalJSON) strct.Locations with
  | Except.error e => Except.error e
  | Except.ok j13 =>
  if strct.Message.isNone then Except.error "message is a required field"
  else
  match encOpt Sarif.Message.marshalJSON strct.Message with
  | Except.error e => Except.error e
  | Except.ok j14 =>
  match encInt strct.OccurrenceCount with
  | Except.error e => Except.error e
  | Except.ok j15 =>
  match encMap encString strct.PartialFingerprints with
  | Except.error e => Except.error e
  | Except.ok j16 =>
  match encOpt Sarif.PropertyBag.marshalJSON strct.Properties with
  | Except.error e => Except.error e
  | Except.ok j17 =>
  match encOpt Sarif.ResultProvenance.marshalJSON strct.Provenance with
  | Except.error e => Except.error e
  | Except.ok j18 =>
  match encFloat strct.Rank with
  | Except.error e => Except.error e
  | Except.ok j19 =>
  match encList (encOpt Sarif.Location.marshalJSON) strct.RelatedLocations with
  | Except.error e => Except.error e
  | Except.ok j20 =>
  match encOpt Sarif.ReportingDescriptorReference.marshalJSON strct.Rule with
  | Except.error e => Except.error e
  | Except.ok j21 =>
  match encString strct.RuleId with
  | Except.error e => Except.error e
  | Except.ok j22 =>
  match encInt strct.RuleIndex with
  | Except.error e => Except.error e
  | Except.ok j23 =>
  match encList (encOpt Sarif.Stack.marshalJSON) strct.Stacks with
  | Except.error e => Except.error e
  | Except.ok j24 =>
  match encList (encOpt Sarif.Suppression.marshalJSON) strct.Suppressions with
  | Except.error e => Except.error e
  | Except.ok j25 =>
  match encList (encOpt Sarif.ReportingDescriptorReference.marshalJSON) strct.Taxa with
  | Except.error e => Except.error e
  | Except.ok j26 =>
  match encOpt Sarif.WebRequest.marshalJSON strct.WebRequest with
  | Except.error e => Except.error e
  | Except.ok j27 =>
  match encOpt Sarif.WebResponse.marshalJSON strct.WebResponse with
  | Except.error e => Except.error e
  | Except.ok j28 =>
  match encList encString strct.WorkItemUris with
  | Except.error e => Except.error e
  | Except.ok j29 =>
  Except.ok (Json.obj [("analysisTarget", j0), ("attachments", j1), ("baselineState", j2), ("codeFlows", j3), ("correlationGuid", j4), ("fingerprints", j5), ("fixes", j6), ("graphTraversals", j7), ("graphs", j8), ("guid", j9), ("hostedViewerUri", j10), ("kind", j11), ("level", j12), ("locations", j13), ("message", j14), ("occurrenceCount", j15), ("partialFingerprints", j16), ("properties", j17), ("provenance", j18), ("rank", j19), ("relatedLocations", j20), ("rule", j21), ("ruleId", j22), ("ruleIndex", j23), ("stacks", j24), ("suppressions", j25), ("taxa", j26), ("webRequest", j27), ("webResponse", j28), ("workItemUris", j29)])

/-- Field record of the Go struct ExternalProperties in src/sarif.go (field order preserved). -/
structure ExternalProperties where
  Addresses : Option (List (Option Sarif.Address))
  Artifacts : Option (List (Option Sarif.Artifact))
  Conversion : Option Sarif.Conversion
  Driver : Option Sarif.ToolComponent
  Extensions : Option (List (Option Sarif.ToolComponent))
  ExternalizedProperties : Option Sarif.PropertyBag
  Graphs : Option (List (Option Sarif.Graph))
  Guid : String
  Invocations : Option (List (Option Sarif.Invocation))
  LogicalLocations : Option (List (Option Sarif.LogicalLocation))
  Policies : Option (List (Option Sarif.ToolComponent))
  Properties : Option Sarif.PropertyBag
  Results : Option (List (Option Sarif.Result))
  RunGuid : String
  Schema : String
  Taxonomies : Option (List (Option Sarif.ToolComponent))
  ThreadFlowLocations : Option (List (Option Sarif.ThreadFlowLocation))
  Translations : Option (List (Option Sarif.ToolComponent))
  Version : String
  WebRequests : Option (List (Option Sarif.WebRequest))
  WebResponses : Option (List (Option Sarif.WebResponse))

/-- The Go zero value of ExternalProperties: what UnmarshalJSON starts from. -/
def ExternalProperties.zero : Sarif.ExternalProperties where
  Addresses := none
  Artifacts := none
  Conversion := none
  Driver := none
  Extensions := none
  ExternalizedProperties := none
  Graphs := none
  Guid := ""
  Invocations := none
  LogicalLocations := none
  Policies := none
  Properties := none
  Results := none
  RunGuid := ""
  Schema := ""
  Taxonomies := none
  ThreadFlowLocations := none
  Translations := none
  Version := ""
  WebRequests := none
  WebResponses := none

/-- The property loop of func (strct *ExternalProperties) UnmarshalJSON in src/sarif.go: dispatch
on each key of the decoded object, tracking which required keys were received.
Go iterates the map in unspecified order; entries arrive here in ascending key
order, one admissible schedule, and distinct keys update disjoint fields. -/
def ExternalProperties.parseProps : List (String × Json) → (Sarif.ExternalProperties) → Except String (Sarif.ExternalProperties)
  | [], acc => Except.ok acc
  | (k, v) :: rest, strct =>
    match k with
    | "addresses" =>
      match decList (decOpt Sarif.Address.unmarshalJSON) v with
      | Except.error e => Except.error e
      | Except.ok x => ExternalProperties.parseProps rest ( { strct with Addresses := x } )
    | "artifacts" =>
      match decList (decOpt Sarif.Artifact.unmarshalJSON) v with
      | Except.error e => Except.error e
      | Except.ok x => ExternalProperties.parseProps rest ( { strct with Artifacts := x } )
    | "conversion" =>
      match decOpt Sarif.Conversion.unmarshalJSON v with
      | Except.error e => Except.error e
      | Except.ok x => ExternalProperties.parseProps rest ( { strct with Conversion := x } )
    | "driver" =>
      match decOpt Sarif.ToolComponent.unmarshalJSON v with
      | Except.error e => Except.error e
      | Except.ok x => ExternalProperties.parseProps rest ( { strct with Driver := x } )
    | "extensions" =>
      match decList (decOpt Sarif.ToolComponent.unmarshalJSON) v with
      | Except.error e => Except.error e
      | Except.ok x => ExternalProperties.parseProps rest ( { strct with Extensions := x } )
    | "externalizedProperties" =>
      match decOpt Sarif.PropertyBag.unmarshalJSON v with
      | Except.error e => Except.error e
      | Except.ok x => ExternalProperties.parseProps rest ( { strct with ExternalizedProperties := x } )
    | "graphs" =>
      match decList (decOpt Sarif.Graph.unmarshalJSON) v with
      | Except.error e => Except.error e
      | Except.ok x => ExternalProperties.parseProps rest ( { strct with Graphs := x } )
    | "guid" =>
      match decString v with
      | Except.error e => Except.error e
      | Except.ok x => ExternalProperties.parseProps rest ( { strct with Guid := x } )
    | "invocations" =>
      match decList (decOpt Sarif.Invocation.unmarshalJSON) v with
      | Except.error e => Except.error e
      | Except.ok x => ExternalProperties.parseProps rest ( { strct with Invocations := x } )
    | "logicalLocations" =>
      match decList (decOpt Sarif.LogicalLocation.unmarshalJSON) v with
      | Except.error e => Except.error e
      | Except.ok x => ExternalProperties.parseProps rest ( { strct with LogicalLocations := x } )
    | "policies" =>
      match decList (decOpt Sarif.ToolComponent.unmarshalJSON) v with
      | Except.error e => Except.error e
      | Except.ok x => ExternalProperties.parseProps rest ( { strct with Policies := x } )
    | "properties" =>
      match decOpt Sarif.PropertyBag.unmarshalJSON v with
      | Except.error e => Except.error e
      | Except.ok x => ExternalProperties.parseProps rest ( { strct with Properties := x } )
    | "results" =>
      match decList (decOpt Sarif.Result.unmarshalJSON) v with
      | Except.error e => Except.error e
      | Except.ok x => ExternalProperties.parseProps rest ( { strct with Results := x } )
    | "runGuid" =>
      match decString v with
      | Except.error e => Except.error e
      | Except.ok x => ExternalProperties.parseProps rest ( { strct with RunGuid := x } )
    | "schema" =>
      match decString v with
      | Except.error e => Except.error e
      | Except.ok x => ExternalProperties.parseProps rest ( { strct with Schema := x } )
    | "taxonomies" =>
      match decList (decOpt Sarif.ToolComponent.unmarshalJSON) v with
      | Except.error e => Except.error e
      | Except.ok x => ExternalProperties.parseProps rest ( { strct with Taxonomies := x } )
    | "threadFlowLocations" =>
      match decList (decOpt Sarif.ThreadFlowLocation.unmarshalJSON) v with
      | Except.error e => Except.error e
      | Except.ok x => ExternalProperties.parseProps rest ( { strct with ThreadFlowLocations := x } )
    | "translations" =>
      match decList (decOpt Sarif.ToolComponent.unmarshalJSON) v with
      | Except.error e => Except.error e
      | Except.ok x => ExternalProperties.parseProps rest ( { strct with Translations := x } )
    | "version" =>
      match decString v with
      | Except.error e => Except.error e
      | Except.ok x => ExternalProperties.parseProps rest ( { strct with Version := x } )
    | "webRequests" =>
      match decList (decOpt Sarif.WebRequest.unmarshalJSON) v with
      | Except.error e => Except.error e
      | Except.ok x => ExternalProperties.parseProps rest ( { strct with WebRequests := x } )
    | "webResponses" =>
      match decList (decOpt Sarif.WebResponse.unmarshalJSON) v with
      | Except.error e => Except.error e
      | Except.ok x => ExternalProperties.parseProps rest ( { strct with WebResponses := x } )
    | _ => Except.error ("additional property not allowed: \"" ++ k ++ "\"")

/-- Embeds func (strct *ExternalProperties) UnmarshalJSON in src/sarif.go. -/
def ExternalProperties.unmarshalJSON (j : Json) : Except String Sarif.ExternalProperties :=
  match asObject j with
  | Except.error e => Except.error e
  | Except.ok jsonMap =>
    match ExternalProperties.parseProps jsonMap ExternalProperties.zero with
    | Except.error e => Except.error e
    | Except.ok strct =>
      Except.ok strct

/-- Embeds func (strct *ExternalProperties) MarshalJSON in src/sarif.go: every declared field
is emitted, in declaration order; required fields of object type are checked for nil. -/
def ExternalProperties.marshalJSON (strct : Sarif.ExternalProperties) : Except String Json :=
  match encList (encOpt Sarif.Address.marshalJSON) strct.Addresses with
  | Except.error e => Except.error e
  | Except.ok j0 =>
  match encList (encOpt Sarif.Artifact.marshalJSON) strct.Artifacts with
  | Except.error e => Except.error e
  | Except.ok j1 =>
  match encOpt Sarif.Conversion.marshalJSON strct.Conversion with
  | Except.error e => Except.error e
  | Except.ok j2 =>
  match encOpt Sarif.ToolComponent.marshalJSON strct.Driver with
  | Except.error e => Except.error e
  | Except.ok j3 =>
  match encList (encOpt Sarif.ToolComponent.marshalJSON) strct.Extensions with
  | Except.error e => Except.error e
  | Except.ok j4 =>
  match encOpt Sarif.PropertyBag.marshalJSON strct.ExternalizedProperties with
  | Except.error e => Except.error e
  | Except.ok j5 =>
  match encList (encOpt Sarif.Graph.marshalJSON) strct.Graphs with
  | Except.error e => Except.error e
  | Except.ok j6 =>
  match encString strct.Guid with
  | Except.error e => Except.error e
  | Except.ok j7 =>
  match encList (encOpt Sarif.Invocation.marshalJSON) strct.Invocations with
  | Except.error e => Except.error e
  | Except.ok j8 =>
  match encList (encOpt Sarif.LogicalLocation.marshalJSON) strct.LogicalLocations with
  | Except.error e => Except.error e
  | Except.ok j9 =>
  match encList (encOpt Sarif.ToolComponent.marshalJSON) strct.Policies with
  | Except.error e => Except.error e
  | Except.ok j10 =>
  match encOpt Sarif.PropertyBag.marshalJSON strct.Properties with
  | Except.error e => Except.error e
  | Except.ok j11 =>
  match encList (encOpt Sarif.Result.marshalJSON) strct.Results with
  | Except.error e => Except.error e
  | Except.ok j12 =>
  match encString strct.RunGuid with
  | Except.error e => Except.error e
  | Except.ok j13 =>
  match encString strct.Schema with
  | Except.error e => Except.error e
  | Except.ok j14 =>
  match encList (encOpt Sarif.ToolComponent.marshalJSON) strct.Taxonomies with
  | Except.error e => Except.error e
  | Except.ok j15 =>
  match encList (encOpt Sarif.ThreadFlowLocation.marshalJSON) strct.ThreadFlowLocations with
  | Except.error e => Except.error e
  | Except.ok j16 =>
  match encList (encOpt Sarif.ToolComponent.marshalJSON) strct.Translations with
  | Except.error e => Except.error e
  | Except.ok j17 =>
  match encString strct.Version with
  | Except.error e => Except.error e
  | Except.ok j18 =>
  match encList (encOpt Sarif.WebRequest.marshalJSON) strct.WebRequests with
  | Except.error e => Except.error e
  | Except.ok j19 =>
  match encList (encOpt Sarif.WebResponse.marshalJSON) strct.WebResponses with
  | Except.error e => Except.error e
  | Except.ok j20 =>
  Except.ok (Json.obj [("addresses", j0), ("artifacts", j1), ("conversion", j2), ("driver", j3), ("extensions", j4), ("externalizedProperties", j5), ("graphs", j6), ("guid", j7), ("invocations", j8), ("logicalLocations", j9), ("policies", j10), ("properties", j11), ("results", j12), ("runGuid", j13), ("schema", j14), ("taxonomies", j15), ("threadFlowLocations", j16), ("translations", j17), ("version", j18), ("webRequests", j19), ("webResponses", j20)])

/-- Field record of the Go struct ExternalPropertyFileReference in src/sarif.go (field order preserved). -/
structure ExternalPropertyFileReference where
  Guid : String
  ItemCount : Int
  Location : Option Sarif.ArtifactLocation
  Properties : Option Sarif.PropertyBag

/-- The Go zero value of ExternalPropertyFileReference: what UnmarshalJSON starts from. -/
def ExternalPropertyFileReference.zero : Sarif.ExternalPropertyFileReference where
  Guid := ""
  ItemCount := 0
  Location := none
  Properties := none

/-- The property loop of func (strct *ExternalPropertyFileReference) UnmarshalJSON in src/sarif.go: dispatch
on each key of the decoded object, tracking which required keys were received.
Go iterates the map in unspecified order; entries arrive here in ascending key
order, one admissible schedule, and distinct keys update disjoint fields. -/
def ExternalPropertyFileReference.parseProps : List (String × Json) → (Sarif.ExternalPropertyFileReference) → Except String (Sarif.ExternalPropertyFileReference)
  | [], acc => Except.ok acc
  | (k, v) :: rest, strct =>
    match k with
    | "guid" =>
      match decString v with
      | Except.error e => Except.error e
      | Except.ok x => ExternalPropertyFileReference.parseProps rest ( { strct with Guid := x } )
    | "itemCount" =>
      match decInt v with
      | Except.error e => Except.error e
      | Except.ok x => ExternalPropertyFileReference.parseProps rest ( { strct with ItemCount := x } )
    | "location" =>
      match decOpt Sarif.ArtifactLocation.unmarshalJSON v with
      | Except.error e => Except.error e
      | Except.ok x => ExternalPropertyFileReference.parseProps rest ( { strct with Location := x } )
    | "properties" =>
      match decOpt Sarif.PropertyBag.unmarshalJSON v with
      | Except.error e => Except.error e
      | Except.ok x => ExternalPropertyFileReference.parseProps rest ( { strct with Properties := x } )
    | _ => Except.error ("additional property not allowed: \"" ++ k ++ "\"")

/-- Embeds func (strct *ExternalPropertyFileReference) UnmarshalJSON in src/sarif.go. -/
def ExternalPropertyFileReference.unmarshalJSON (j : Json) : Except String Sarif.ExternalPropertyFileReference :=
  match asObject j with
  | Except.error e => Except.error e
  | Except.ok jsonMap =>
    match ExternalPropertyFileReference.parseProps jsonMap ExternalPropertyFileReference.zero with
    | Except.error e => Except.error e
    | Except.ok strct =>
      Except.ok strct

/-- Embeds func (strct *ExternalPropertyFileReference) MarshalJSON in src/sarif.go: every declared field
is emitted, in declaration order; required fields of object type are checked for nil. -/
def ExternalPropertyFileReference.marshalJSON (strct : Sarif.ExternalPropertyFileReference) : Except String Json :=
  match encString strct.Guid with
  | Except.error e => Except.error e
  | Except.ok j0 =>
  match encInt strct.ItemCount with
  | Except.error e => Except.error e
  | Except.ok j1 =>
  match encOpt Sarif.ArtifactLocation.marshalJSON strct.Location with
  | Except.error e => Except.error e
  | Except.ok j2 =>
  match encOpt Sarif.PropertyBag.marshalJSON strct.Properties with
  | Except.error e => Except.error e
  | Except.ok j3 =>
  Except.ok (Json.obj [("guid", j0), ("itemCount", j1), ("location", j2), ("properties", j3)])

/-- Field record of the Go struct ExternalPropertyFileReferences in src/sarif.go (field order preserved). -/
structure ExternalPropertyFileReferences where
  Addresses : Option (List (Option Sarif.ExternalPropertyFileReference))
  Artifacts : Option (List (Option Sarif.ExternalPropertyFileReference))
  Conversion : Option Sarif.ExternalPropertyFileReference
  Driver : Option Sarif.ExternalPropertyFileReference
  Extensions : Option (List (Option Sarif.ExternalPropertyFileReference))
  ExternalizedProperties : Option Sarif.ExternalPropertyFileReference
  Graphs : Option (List (Option Sarif.ExternalPropertyFileReference))
  Invocations : Option (List (Option Sarif.ExternalPropertyFileReference))
  LogicalLocations : Option (List (Option Sarif.ExternalPropertyFileReference))
  Policies : Option (List (Option Sarif.ExternalPropertyFileReference))
  Properties : Option Sarif.PropertyBag
  Results : Option (List (Option Sarif.ExternalPropertyFileReference))
  Taxonomies : Option (List (Option Sarif.ExternalPropertyFileReference))
  ThreadFlowLocations : Option (List (Option Sarif.ExternalPropertyFileReference))
  Translations : Option (List (Option Sarif.ExternalPropertyFileReference))
  WebRequests : Option (List (Option Sarif.ExternalPropertyFileReference))
  WebResponses : Option (List (Option Sarif.ExternalPropertyFileReference))

/-- The Go zero value of ExternalPropertyFileReferences: what UnmarshalJSON starts from. -/
def ExternalPropertyFileReferences.zero : Sarif.ExternalPropertyFileReferences where
  Addresses := none
  Artifacts := none
  Conversion := none
  Driver := none
  Extensions := none
  ExternalizedProperties := none
  Graphs := none
  Invocations := none
  LogicalLocations := none
  Policies := none
  Properties := none
  Results := none
  Taxonomies := none
  ThreadFlowLocations := none
  Translations := none
  WebRequests := none
  WebResponses := none

/-- The property loop of func (strct *ExternalPropertyFileReferences) UnmarshalJSON in src/sarif.go: dispatch
on each key of the decoded object, tracking which required keys were received.
Go iterates the map in unspecified order; entries arrive here in ascending key
order, one admissible schedule, and distinct keys update disjoint fields. -/
def ExternalPropertyFileReferences.parseProps : List (String × Json) → (Sarif.ExternalPropertyFileReferences) → Except String (Sarif.ExternalPropertyFileReferences)
  | [], acc => Except.ok acc
  | (k, v) :: rest, strct =>
    match k with
    | "addresses" =>
      match decList (decOpt Sarif.ExternalPropertyFileReference.unmarshalJSON) v with
      | Except.error e => Except.error e
      | Except.ok x => ExternalPropertyFileReferences.parseProps rest ( { strct with Addresses := x } )
    | "artifacts" =>
      match decList (decOpt Sarif.ExternalPropertyFileReference.unmarshalJSON) v with
      | Except.error e => Except.error e
      | Except.ok x => ExternalPropertyFileReferences.parseProps rest ( { strct with Artifacts := x } )
    | "conversion" =>
      match decOpt Sarif.ExternalPropertyFileReference.unmarshalJSON v with
      | Except.error e => Except.error e
      | Except.ok x => ExternalPropertyFileReferences.parseProps rest ( { strct with Conversion := x } )
    | "driver" =>
      match decOpt Sarif.ExternalPropertyFileReference.unmarshalJSON v with
      | Except.error e => Except.error e
      | Except.ok x => ExternalPropertyFileReferences.parseProps rest ( { strct with Driver := x } )
    | "extensions" =>
      match decList (decOpt Sarif.ExternalPropertyFileReference.unmarshalJSON) v with
      | Except.error e => Except.error e
      | Except.ok x => ExternalPropertyFileReferences.parseProps rest ( { strct with Extensions := x } )
    | "externalizedProperties" =>
      match decOpt Sarif.ExternalPropertyFileReference.unmarshalJSON v with
      | Except.error e => Except.error e
      | Except.ok x => ExternalPropertyFileReferences.parseProps rest ( { strct with ExternalizedProperties := x } )
    | "graphs" =>
      match decList (decOpt Sarif.ExternalPropertyFileReference.unmarshalJSON) v with
      | Except.error e => Except.error e
      | Except.ok x => ExternalPropertyFileReferences.parseProps rest ( { strct with Graphs := x } )
    | "invocations" =>
      match decList (decOpt Sarif.ExternalPropertyFileReference.unmarshalJSON) v with
      | Except.error e => Except.error e
      | Except.ok x => ExternalPropertyFileReferences.parseProps rest ( { strct with Invocations := x } )
    | "logicalLocations" =>
      match decList (decOpt Sarif.ExternalPropertyFileReference.unmarshalJSON) v with
      | Except.error e => Except.error e
      | Except.ok x => ExternalPropertyFileReferences.parseProps rest ( { strct with LogicalLocations := x } )
    | "policies" =>
      match decList (decOpt Sarif.ExternalPropertyFileReference.unmarshalJSON) v with
      | Except.error e => Except.error e
      | Except.ok x => ExternalPropertyFileReferences.parseProps rest ( { strct with Policies := x } )
    | "properties" =>
      match decOpt Sarif.PropertyBag.unmarshalJSON v with
      | Except.error e => Except.error e
      | Except.ok x => ExternalPropertyFileReferences.parseProps rest ( { strct with Properties := x } )
    | "results" =>
      match decList (decOpt Sarif.ExternalPropertyFileReference.unmarshalJSON) v with
      | Except.error e => Except.error e
      | Except.ok x => ExternalPropertyFileReferences.parseProps rest ( { strct with Results := x } )
    | "taxonomies" =>
      match decList (decOpt Sarif.ExternalPropertyFileReference.unmarshalJSON) v with
      | Except.error e => Except.error e
      | Except.ok x => ExternalPropertyFileReferences.parseProps rest ( { strct with Taxonomies := x } )
    | "threadFlowLocations" =>
      match decList (decOpt Sarif.ExternalPropertyFileReference.unmarshalJSON) v with
      | Except.error e => Except.error e
      | Except.ok x => ExternalPropertyFileReferences.parseProps rest ( { strct with ThreadFlowLocations := x } )
    | "translations" =>
      match decList (decOpt Sarif.ExternalPropertyFileReference.unmarshalJSON) v with
      | Except.error e => Except.error e
      | Except.ok x => ExternalPropertyFileReferences.parseProps rest ( { strct with Translations := x } )
    | "webRequests" =>
      match decList (decOpt Sarif.ExternalPropertyFileReference.unmarshalJSON) v with
      | Except.error e => Except.error e
      | Except.ok x => ExternalPropertyFileReferences.parseProps rest ( { strct with WebRequests := x } )
    | "webResponses" =>
      match decList (decOpt Sarif.ExternalPropertyFileReference.unmarshalJSON) v with
      | Except.error e => Except.error e
      | Except.ok x => ExternalPropertyFileReferences.parseProps rest ( { strct with WebResponses := x } )
    | _ => Except.error ("additional property not allowed: \"" ++ k ++ "\"")

/-- Embeds func (strct *ExternalPropertyFileReferences) UnmarshalJSON in src/sarif.go. -/
def ExternalPropertyFileReferences.unmarshalJSON (j : Json) : Except String Sarif.ExternalPropertyFileReferences :=
  match asObject j with
  | Except.error e => Except.error e
  | Except.ok jsonMap =>
    match ExternalPropertyFileReferences.parseProps jsonMap ExternalPropertyFileReferences.zero with
    | Except.error e => Except.error e
    | Except.ok strct =>
      Except.ok strct

/-- Embeds func (strct *ExternalPropertyFileReferences) MarshalJSON in src/sarif.go: every declared field
is emitted, in declaration order; required fields of object type are checked for nil. -/
def ExternalPropertyFileReferences.marshalJSON (strct : Sarif.ExternalPropertyFileReferences) : Except String Json :=
  match encList (encOpt Sarif.ExternalPropertyFileReference.marshalJSON) strct.Addresses with
  | Except.error e => Except.error e
  | Except.ok j0 =>
  match encList (encOpt Sarif.ExternalPropertyFileReference.marshalJSON) strct.Artifacts with
  | Except.error e => Except.error e
  | Except.ok j1 =>
  match encOpt Sarif.ExternalPropertyFileReference.marshalJSON strct.Conversion with
  | Except.error e => Except.error e
  | Except.ok j2 =>
  match encOpt Sarif.ExternalPropertyFileReference.marshalJSON strct.Driver with
  | Except.error e => Except.error e
  | Except.ok j3 =>
  match encList (encOpt Sarif.ExternalPropertyFileReference.marshalJSON) strct.Extensions with
  | Except.error e => Except.error e
  | Except.ok j4 =>
  match encOpt Sarif.ExternalPropertyFileReference.marshalJSON strct.ExternalizedProperties with
  | Except.error e => Except.error e
  | Except.ok j5 =>
  match encList (encOpt Sarif.ExternalPropertyFileReference.marshalJSON) strct.Graphs with
  | Except.error e => Except.error e
  | Except.ok j6 =>
  match encList (encOpt Sarif.ExternalPropertyFileReference.marshalJSON) strct.Invocations with
  | Except.error e => Except.error e
  | Except.ok j7 =>
  match encList (encOpt Sarif.ExternalPropertyFileReference.marshalJSON) strct.LogicalLocations with
  | Except.error e => Except.error e
  | Except.ok j8 =>
  match encList (encOpt Sarif.ExternalPropertyFileReference.marshalJSON) strct.Policies with
  | Except.error e => Except.error e
  | Except.ok j9 =>
  match encOpt Sarif.PropertyBag.marshalJSON strct.Properties with
  | Except.error e => Except.error e
  | Except.ok j10 =>
  match encList (encOpt Sarif.ExternalPropertyFileReference.marshalJSON) strct.Results with
  | Except.error e => Except.error e
  | Except.ok j11 =>
  match encList (encOpt Sarif.ExternalPropertyFileReference.marshalJSON) strct.Taxonomies with
  | Except.error e => Except.error e
  | Except.ok j12 =>
  match encList (encOpt Sarif.ExternalPropertyFileReference.marshalJSON) strct.ThreadFlowLocations with
  | Except.error e => Except.error e
  | Except.ok j13 =>
  match encList (encOpt Sarif.ExternalPropertyFileReference.marshalJSON) strct.Translations with
  | Except.error e => Except.error e
  | Except.ok j14 =>
  match encList (encOpt Sarif.ExternalPropertyFileReference.marshalJSON) strct.WebRequests with
  | Except.error e => Except.error e
  | Except.ok j15 =>
  match encList (encOpt Sarif.ExternalPropertyFileReference.marshalJSON) strct.WebResponses with
  | Except.error e => Except.error e
  | Except.ok j16 =>
  Except.ok (Json.obj [("addresses", j0), ("artifacts", j1), ("conversion", j2), ("driver", j3), ("extensions", j4), ("externalizedProperties", j5), ("graphs", j6), ("invocations", j7), ("logicalLocations", j8), ("policies", j9), ("properties", j10), ("results", j11), ("taxonomies", j12), ("threadFlowLocations", j13), ("translations", j14), ("webRequests", j15), ("webResponses", j16)])

/-- Field record of the Go struct RunAutomationDetails in src/sarif.go (field order preserved). -/
structure RunAutomationDetails where
  CorrelationGuid : String
  Description : Option Sarif.Message
  Guid : String
  Id : String
  Properties : Option Sarif.PropertyBag

/-- The Go zero value of RunAutomationDetails: what UnmarshalJSON starts from. -/
def RunAutomationDetails.zero : Sarif.RunAutomationDetails where
  CorrelationGuid := ""
  Description := none
  Guid := ""
  Id := ""
  Properties := none

/-- The property loop of func (strct *RunAutomationDetails) UnmarshalJSON in src/sarif.go: dispatch
on each key of the decoded object, tracking which required keys were received.
Go iterates the map in unspecified order; entries arrive here in ascending key
order, one admissible schedule, and distinct keys update disjoint fields. -/
def RunAutomationDetails.parseProps : List (String × Json) → (Sarif.RunAutomationDetails) → Except String (Sarif.RunAutomationDetails)
  | [], acc => Except.ok acc
  | (k, v) :: rest, strct =>
    match k with
    | "correlationGuid" =>
      match decString v with
      | Except.error e => Except.error e
      | Except.ok x => RunAutomationDetails.parseProps rest ( { strct with CorrelationGuid := x } )
    | "description" =>
      match decOpt Sarif.Message.unmarshalJSON v with
      | Except.error e => Except.error e
      | Except.ok x => RunAutomationDetails.parseProps rest ( { strct with Description := x } )
    | "guid" =>
      match decString v with
      | Except.error e => Except.error e
      | Except.ok x => RunAutomationDetails.parseProps rest ( { strct with Guid := x } )
    | "id" =>
      match decString v with
      | Except.error e => Except.error e
      | Except.ok x => RunAutomationDetails.parseProps rest ( { strct with Id := x } )
    | "properties" =>
      match decOpt Sarif.PropertyBag.unmarshalJSON v with
      | Except.error e => Except.error e
      | Except.ok x => RunAutomationDetails.parseProps rest ( { strct with Properties := x } )
    | _ => Except.error ("additional property not allowed: \"" ++ k ++ "\"")

/-- Embeds func (strct *RunAutomationDetails) UnmarshalJSON in src/sarif.go. -/
def RunAutomationDetails.unmarshalJSON (j : Json) : Except String Sarif.RunAutomationDetails :=
  match asObject j with
  | Except.error e => Except.error e
  | Except.ok jsonMap =>
    match RunAutomationDetails.parseProps jsonMap RunAutomationDetails.zero with
    | Except.error e => Except.error e
    | Except.ok strct =>
      Except.ok strct

/-- Embeds func (strct *RunAutomationDetails) MarshalJSON in src/sarif.go: every declared field
is emitted, in declaration order; required fields of object type are checked for nil. -/
def RunAutomationDetails.marshalJSON (strct : Sarif.RunAutomationDetails) : Except String Json :=
  match encString strct.CorrelationGuid with
  | Except.error e => Except.error e
  | Except.ok j0 =>
  match encOpt Sarif.Message.marshalJSON strct.Description with
  | Except.error e => Except.error e
  | Except.ok j1 =>
  match encString strct.Guid with
  | Except.error e => Except.error e
  | Except.ok j2 =>
  match encString strct.Id with
  | Except.error e => Except.error e
  | Except.ok j3 =>
  match encOpt Sarif.PropertyBag.marshalJSON strct.Properties with
  | Except.error e => Except.error e
  | Except.ok j4 =>
  Except.ok (Json.obj [("correlationGuid", j0), ("description", j1), ("guid", j2), ("id", j3), ("properties", j4)])

/-- Field record of the Go struct SpecialLocations in src/sarif.go (field order preserved). -/
structure SpecialLocations where
  DisplayBase : Option Sarif.ArtifactLocation
  Properties : Option Sarif.PropertyBag

/-- The Go zero value of SpecialLocations: what UnmarshalJSON starts from. -/
def SpecialLocations.zero : Sarif.SpecialLocations where
  DisplayBase := none
  Properties := none

/-- The property loop of func (strct *SpecialLocations) UnmarshalJSON in src/sarif.go: dispatch
on each key of the decoded object, tracking which required keys were received.
Go iterates the map in unspecified order; entries arrive here in ascending key
order, one admissible schedule, and distinct keys update disjoint fields. -/
def SpecialLocations.parseProps : List (String × Json) → (Sarif.SpecialLocations) → Except String (Sarif.SpecialLocations)
  | [], acc => Except.ok acc
  | (k, v) :: rest, strct =>
    match k with
    | "displayBase" =>
      match decOpt Sarif.ArtifactLocation.unmarshalJSON v with
      | Except.error e => Except.error e
      | Except.ok x => SpecialLocations.parseProps rest ( { strct with DisplayBase := x } )
    | "properties" =>
      match decOpt Sarif.PropertyBag.unmarshalJSON v with
      | Except.error e => Except.error e
      | Except.ok x => SpecialLocations.parseProps rest ( { strct with Properties := x } )
    | _ => Except.error ("additional property not allowed: \"" ++ k ++ "\"")

/-- Embeds func (strct *SpecialLocations) UnmarshalJSON in src/sarif.go. -/
def SpecialLocations.unmarshalJSON (j : Json) : Except String Sarif.SpecialLocations :=
  match asObject j with
  | Except.error e => Except.error e
  | Except.ok jsonMap =>
    match SpecialLocations.parseProps jsonMap SpecialLocations.zero with
    | Except.error e => Except.error e
    | Except.ok strct =>
      Except.ok strct

/-- Embeds func (strct *SpecialLocations) MarshalJSON in src/sarif.go: every declared field
is emitted, in declaration order; required fields of object type are checked for nil. -/
def SpecialLocations.marshalJSON (strct : Sarif.SpecialLocations) : Except String Json :=
  match encOpt Sarif.ArtifactLocation.marshalJSON strct.DisplayBase with
  | Except.error e => Except.error e
  | Except.ok j0 =>
  match encOpt Sarif.PropertyBag.marshalJSON strct.Properties with
  | Except.error e => Except.error e
  | Except.ok j1 =>
  Except.ok (Json.obj [("displayBase", j0), ("properties", j1)])

/-- Field record of the Go struct VersionControlDetails in src/sarif.go (field order preserved). -/
structure VersionControlDetails where
  AsOfTimeUtc : String
  Branch : String
  MappedTo : Option Sarif.ArtifactLocation
  Properties : Option Sarif.PropertyBag
  RepositoryUri : String
  RevisionId : String
  RevisionTag : String

/-- The Go zero value of VersionControlDetails: what UnmarshalJSON starts from. -/
def VersionControlDetails.zero : Sarif.VersionControlDetails where
  AsOfTimeUtc := ""
  Branch := ""
  MappedTo := none
  Properties := none
  RepositoryUri := ""
  RevisionId := ""
  RevisionTag := ""

/-- The property loop of func (strct *VersionControlDetails) UnmarshalJSON in src/sarif.go: dispatch
on each key of the decoded object, tracking which required keys were received.
Go iterates the map in unspecified order; entries arrive here in ascending key
order, one admissible schedule, and distinct keys update disjoint fields. -/
def VersionControlDetails.parseProps : List (String × Json) → (Sarif.VersionControlDetails × Bool) → Except String (Sarif.VersionControlDetails × Bool)
  | [], acc => Except.ok acc
  | (k, v) :: rest, (strct, repositoryUriReceived) =>
    match k with
    | "asOfTimeUtc" =>
      match decString v with
      | Except.error e => Except.error e
      | Except.ok x => VersionControlDetails.parseProps rest (( { strct with AsOfTimeUtc := x } ), repositoryUriReceived)
    | "branch" =>
      match decString v with
      | Except.error e => Except.error e
      | Except.ok x => VersionControlDetails.parseProps rest (( { strct with Branch := x } ), repositoryUriReceived)
    | "mappedTo" =>
      match decOpt Sarif.ArtifactLocation.unmarshalJSON v with
      | Except.error e => Except.error e
      | Except.ok x => VersionControlDetails.parseProps rest (( { strct with MappedTo := x } ), repositoryUriReceived)
    | "properties" =>
      match decOpt Sarif.PropertyBag.unmarshalJSON v with
      | Except.error e => Except.error e
      | Except.ok x => VersionControlDetails.parseProps rest (( { strct with Properties := x } ), repositoryUriReceived)
    | "repositoryUri" =>
      match decString v with
      | Except.error e => Except.error e
      | Except.ok x => VersionControlDetails.parseProps rest (( { strct with RepositoryUri := x } ), true)
    | "revisionId" =>
      match decString v with
      | Except.error e => Except.error e
      | Except.ok x => VersionControlDetails.parseProps rest (( { strct with RevisionId := x } ), repositoryUriReceived)
    | "revisionTag" =>
      match decString v with
      | Except.error e => Except.error e
      | Except.ok x => VersionControlDetails.parseProps rest (( { strct with RevisionTag := x } ), repositoryUriReceived)
    | _ => Except.error ("additional property not allowed: \"" ++ k ++ "\"")

/-- Embeds func (strct *VersionControlDetails) UnmarshalJSON in src/sarif.go. -/
def VersionControlDetails.unmarshalJSON (j : Json) : Except String Sarif.VersionControlDetails :=
  match asObject j with
  | Except.error e => Except.error e
  | Except.ok jsonMap =>
    match VersionControlDetails.parseProps jsonMap (VersionControlDetails.zero, false) with
    | Except.error e => Except.error e
    | Except.ok (strct, repositoryUriReceived) =>
      if !repositoryUriReceived then Except.error "\"repositoryUri\" is required but was not present"
      else Except.ok strct

/-- Embeds func (strct *VersionControlDetails) MarshalJSON in src/sarif.go: every declared field
is emitted, in declaration order; required fields of object type are checked for nil. -/
def VersionControlDetails.marshalJSON (strct : Sarif.VersionControlDetails) : Except String Json :=
  match encString strct.AsOfTimeUtc with
  | Except.error e => Except.error e
  | Except.ok j0 =>
  match encString strct.Branch with
  | Except.error e => Except.error e
  | Except.ok j1 =>
  match encOpt Sarif.ArtifactLocation.marshalJSON strct.MappedTo with
  | Except.error e => Except.error e
  | Except.ok j2 =>
  match encOpt Sarif.PropertyBag.marshalJSON strct.Properties with
  | Except.error e => Except.error e
  | Except.ok j3 =>
  match encString strct.RepositoryUri with
  | Except.error e => Except.error e
  | Except.ok j4 =>
  match encString strct.RevisionId with
  | Except.error e => Except.error e
  | Except.ok j5 =>
  match encString strct.RevisionTag with
  | Except.error e => Except.error e
  | Except.ok j6 =>
  Except.ok (Json.obj [("asOfTimeUtc", j0), ("branch", j1), ("mappedTo", j2), ("properties", j3), ("repositoryUri", j4), ("revisionId", j5), ("revisionTag", j6)])

/-- Field record of the Go struct Run in src/sarif.go (field order preserved). -/
structure Run where
  Addresses : Option (List (Option Sarif.Address))
  Artifacts : Option (List (Option Sarif.Artifact))
  AutomationDetails : Option Sarif.RunAutomationDetails
  BaselineGuid : String
  ColumnKind : String
  Conversion : Option Sarif.Conversion
  DefaultEncoding : String
  DefaultSourceLanguage : String
  ExternalPropertyFileReferences : Option Sarif.ExternalPropertyFileReferences
  Graphs : Option (List (Option Sarif.Graph))
  Invocations : Option (List (Option Sarif.Invocation))
  Language : String
  LogicalLocations : Option (List (Option Sarif.LogicalLocation))
  NewlineSequences : Option (List String)
  OriginalUriBaseIds : Option (List (String × Option Sarif.ArtifactLocation))
  Policies : Option (List (Option Sarif.ToolComponent))
  Properties : Option Sarif.PropertyBag
  RedactionTokens : Option (List String)
  Results : Option (List (Option Sarif.Result))
  RunAggregates : Option (List (Option Sarif.RunAutomationDetails))
  SpecialLocations : Option Sarif.SpecialLocations
  Taxonomies : Option (List (Option Sarif.ToolComponent))
  ThreadFlowLocations : Option (List (Option Sarif.ThreadFlowLocation))
  Tool : Option Sarif.Tool
  Translations : Option (List (Option Sarif.ToolComponent))
  VersionControlProvenance : Option (List (Option Sarif.VersionControlDetails))
  WebRequests : Option (List (Option Sarif.WebRequest))
  WebResponses : Option (List (Option Sarif.WebResponse))

/-- The Go zero value of Run: what UnmarshalJSON starts from. -/
def Run.zero : Sarif.Run where
  Addresses := none
  Artifacts := none
  AutomationDetails := none
  BaselineGuid := ""
  ColumnKind := ""
  Conversion := none
  DefaultEncoding := ""
  DefaultSourceLanguage := ""
  ExternalPropertyFileReferences := none
  Graphs := none
  Invocations := none
  Language := ""
  LogicalLocations := none
  NewlineSequences := none
  OriginalUriBaseIds := none
  Policies := none
  Properties := none
  RedactionTokens := none
  Results := none
  RunAggregates := none
  SpecialLocations := none
  Taxonomies := none
  ThreadFlowLocations := none
  Tool := none
  Translations := none
  VersionControlProvenance := none
  WebRequests := none
  WebResponses := none

/-- The property loop of func (strct *Run) UnmarshalJSON in src/sarif.go: dispatch
on each key of the decoded object, tracking which required keys were received.
Go iterates the map in unspecified order; entries arrive here in ascending key
order, one admissible schedule, and distinct keys update disjoint fields. -/
def Run.parseProps : List (String × Json) → (Sarif.Run × Bool) → Except String (Sarif.Run × Bool)
  | [], acc => Except.ok acc
  | (k, v) :: rest, (strct, toolReceived) =>
    match k with
    | "addresses" =>
      match decList (decOpt Sarif.Address.unmarshalJSON) v with
      | Except.error e => Except.error e
      | Except.ok x => Run.parseProps rest (( { strct with Addresses := x } ), toolReceived)
    | "artifacts" =>
      match decList (decOpt Sarif.Artifact.unmarshalJSON) v with
      | Except.error e => Except.error e
      | Except.ok x => Run.parseProps rest (( { strct with Artifacts := x } ), toolReceived)
    | "automationDetails" =>
      match decOpt Sarif.RunAutomationDetails.unmarshalJSON v with
      | Except.error e => Except.error e
      | Except.ok x => Run.parseProps rest (( { strct with AutomationDetails := x } ), toolReceived)
    | "baselineGuid" =>
      match decString v with
      | Except.error e => Except.error e
      | Except.ok x => Run.parseProps rest (( { strct with BaselineGuid := x } ), toolReceived)
    | "columnKind" =>
      match decString v with
      | Except.error e => Except.error e
      | Except.ok x => Run.parseProps rest (( { strct with ColumnKind := x } ), toolReceived)
    | "conversion" =>
      match decOpt Sarif.Conversion.unmarshalJSON v with
      | Except.error e => Except.error e
      | Except.ok x => Run.parseProps rest (( { strct with Conversion := x } ), toolReceived)
    | "defaultEncoding" =>
      match decString v with
      | Except.error e => Except.error e
      | Except.ok x => Run.parseProps rest (( { strct with DefaultEncoding := x } ), toolReceived)
    | "defaultSourceLanguage" =>
      match decString v with
      | Except.error e => Except.error e
      | Except.ok x => Run.parseProps rest (( { strct with DefaultSourceLanguage := x } ), toolReceived)
    | "externalPropertyFileReferences" =>
      match decOpt Sarif.ExternalPropertyFileReferences.unmarshalJSON v with
      | Except.error e => Except.error e
      | Except.ok x => Run.parseProps rest (( { strct with ExternalPropertyFileReferences := x } ), toolReceived)
    | "graphs" =>
      match decList (decOpt Sarif.Graph.unmarshalJSON) v with
      | Except.error e => Except.error e
      | Except.ok x => Run.parseProps rest (( { strct with Graphs := x } ), toolReceived)
    | "invocations" =>
      match decList (decOpt Sarif.Invocation.unmarshalJSON) v with
      | Except.error e => Except.error e
      | Except.ok x => Run.parseProps rest (( { strct with Invocations := x } ), toolReceived)
    | "language" =>
      match decString v with
      | Except.error e => Except.error e
      | Except.ok x => Run.parseProps rest (( { strct with Language := x } ), toolReceived)
    | "logicalLocations" =>
      match decList (decOpt Sarif.LogicalLocation.unmarshalJSON) v with
      | Except.error e => Except.error e
      | Except.ok x => Run.parseProps rest (( { strct with LogicalLocations := x } ), toolReceived)
    | "newlineSequences" =>
      match decList decString v with
      | Except.error e => Except.error e
      | Except.ok x => Run.parseProps rest (( { strct with NewlineSequences := x } ), toolReceived)
    | "originalUriBaseIds" =>
      match decMap (decOpt Sarif.ArtifactLocation.unmarshalJSON) v with
      | Except.error e => Except.error e
      | Except.ok x => Run.parseProps rest (( { strct with OriginalUriBaseIds := x } ), toolReceived)
    | "policies" =>
      match decList (decOpt Sarif.ToolComponent.unmarshalJSON) v with
      | Except.error e => Except.error e
      | Except.ok x => Run.parseProps rest (( { strct with Policies := x } ), toolReceived)
    | "properties" =>
      match decOpt Sarif.PropertyBag.unmarshalJSON v with
      | Except.error e => Except.error e
      | Except.ok x => Run.parseProps rest (( { strct with Properties := x } ), toolReceived)
    | "redactionTokens" =>
      match decList decString v with
      | Except.error e => Except.error e
      | Except.ok x => Run.parseProps rest (( { strct with RedactionTokens := x } ), toolReceived)
    | "results" =>
      match decList (decOpt Sarif.Result.unmarshalJSON) v with
      | Except.error e => Except.error e
      | Except.ok x => Run.parseProps rest (( { strct with Results := x } ), toolReceived)
    | "runAggregates" =>
      match decList (decOpt Sarif.RunAutomationDetails.unmarshalJSON) v with
      | Except.error e => Except.error e
      | Except.ok x => Run.parseProps rest (( { strct with RunAggregates := x } ), toolReceived)
    | "specialLocations" =>
      match decOpt Sarif.SpecialLocations.unmarshalJSON v with
      | Except.error e => Except.error e
      | Except.ok x => Run.parseProps rest (( { strct with SpecialLocations := x } ), toolReceived)
    | "taxonomies" =>
      match decList (decOpt Sarif.ToolComponent.unmarshalJSON) v with
      | Except.error e => Except.error e
      | Except.ok x => Run.parseProps rest (( { strct with Taxonomies := x } ), toolReceived)
    | "threadFlowLocations" =>
      match decList (decOpt Sarif.ThreadFlowLocation.unmarshalJSON) v with
      | Except.error e => Except.error e
      | Except.ok x => Run.parseProps rest (( { strct with ThreadFlowLocations := x } ), toolReceived)
    | "tool" =>
      match decOpt Sarif.Tool.unmarshalJSON v with
      | Except.error e => Except.error e
      | Except.ok x => Run.parseProps rest (( { strct with Tool := x } ), true)
    | "translations" =>
      match decList (decOpt Sarif.ToolComponent.unmarshalJSON) v with
      | Except.error e => Except.error e
      | Except.ok x => Run.parseProps rest (( { strct with Translations := x } ), toolReceived)
    | "versionControlProvenance" =>
      match decList (decOpt Sarif.VersionControlDetails.unmarshalJSON) v with
      | Except.error e => Except.error e
      | Except.ok x => Run.parseProps rest (( { strct with VersionControlProvenance := x } ), toolReceived)
    | "webRequests" =>
      match decList (decOpt Sarif.WebRequest.unmarshalJSON) v with
      | Except.error e => Except.error e
      | Except.ok x => Run.parseProps rest (( { strct with WebRequests := x } ), toolReceived)
    | "webResponses" =>
      match decList (decOpt Sarif.WebResponse.unmarshalJSON) v with
      | Except.error e => Except.error e
      | Except.ok x => Run.parseProps rest (( { strct with WebResponses := x } ), toolReceived)
    | _ => Except.error ("additional property not allowed: \"" ++ k ++ "\"")

/-- Embeds func (strct *Run) UnmarshalJSON in src/sarif.go. -/
def Run.unmarshalJSON (j : Json) : Except String Sarif.Run :=
  match asObject j with
  | Except.error e => Except.error e
  | Except.ok jsonMap =>
    match Run.parseProps jsonMap (Run.zero, false) with
    | Except.error e => Except.error e
    | Except.ok (strct, toolReceived) =>
      if !toolReceived then Except.error "\"tool\" is required but was not present"
      else Except.ok strct

/-- Embeds func (strct *Run) MarshalJSON in src/sarif.go: every declared field
is emitted, in declaration order; required fields of object type are checked for nil. -/
def Run.marshalJSON (strct : Sarif.Run) : Except String Json :=
  match encList (encOpt Sarif.Address.marshalJSON) strct.Addresses with
  | Except.error e => Except.error e
  | Except.ok j0 =>
  match encList (encOpt Sarif.Artifact.marshalJSON) strct.Artifacts with
  | Except.error e => Except.error e
  | Except.ok j1 =>
  match encOpt Sarif.RunAutomationDetails.marshalJSON strct.AutomationDetails with
  | Except.error e => Except.error e
  | Except.ok j2 =>
  match encString strct.BaselineGuid with
  | Except.error e => Except.error e
  | Except.ok j3 =>
  match encString strct.ColumnKind with
  | Except.error e => Except.error e
  | Except.ok j4 =>
  match encOpt Sarif.Conversion.marshalJSON strct.Conversion with
  | Except.error e => Except.error e
  | Except.ok j5 =>
  match encString strct.DefaultEncoding with
  | Except.error e => Except.error e
  | Except.ok j6 =>
  match encString strct.DefaultSourceLanguage with
  | Except.error e => Except.error e
  | Except.ok j7 =>
  match encOpt Sarif.ExternalPropertyFileReferences.marshalJSON strct.ExternalPropertyFileReferences with
  | Except.error e => Except.error e
  | Except.ok j8 =>
  match encList (encOpt Sarif.Graph.marshalJSON) strct.Graphs with
  | Except.error e => Except.error e
  | Except.ok j9 =>
  match encList (encOpt Sarif.Invocation.marshalJSON) strct.Invocations with
  | Except.error e => Except.error e
  | Except.ok j10 =>
  match encString strct.Language with
  | Except.error e => Except.error e
  | Except.ok j11 =>
  match encList (encOpt Sarif.LogicalLocation.marshalJSON) strct.LogicalLocations with
  | Except.error e => Except.error e
  | Except.ok j12 =>
  match encList encString strct.NewlineSequences with
  | Except.error e => Except.error e
  | Except.ok j13 =>
  match encMap (encOpt Sarif.ArtifactLocation.marshalJSON) strct.OriginalUriBaseIds with
  | Except.error e => Except.error e
  | Except.ok j14 =>
  match encList (encOpt Sarif.ToolComponent.marshalJSON) strct.Policies with
  | Except.error e => Except.error e
  | Except.ok j15 =>
  match encOpt Sarif.PropertyBag.marshalJSON strct.Properties with
  | Except.error e => Except.error e
  | Except.ok j16 =>
  match encList encString strct.RedactionTokens with
  | Except.error e => Except.error e
  | Except.ok j17 =>
  match encList (encOpt Sarif.Result.marshalJSON) strct.Results with
  | Except.error e => Except.error e
  | Except.ok j18 =>
  match encList (encOpt Sarif.RunAutomationDetails.marshalJSON) strct.RunAggregates with
  | Except.error e => Except.error e
  | Except.ok j19 =>
  match encOpt Sarif.SpecialLocations.marshalJSON strct.SpecialLocations with
  | Except.error e => Except.error e
  | Except.ok j20 =>
  match encList (encOpt Sarif.ToolComponent.marshalJSON) strct.Taxonomies with
  | Except.error e => Except.error e
  | Except.ok j21 =>
  match encList (encOpt Sarif.ThreadFlowLocation.marshalJSON) strct.ThreadFlowLocations with
  | Except.error e => Except.error e
  | Except.ok j22 =>
  if strct.Tool.isNone then Except.error "tool is a required field"
  else
  match encOpt Sarif.Tool.marshalJSON strct.Tool with
  | Except.error e => Except.error e
  | Except.ok j23 =>
  match encList (encOpt Sarif.ToolComponent.marshalJSON) strct.Translations with
  | Except.error e => Except.error e
  | Except.ok j24 =>
  match encList (encOpt Sarif.VersionControlDetails.marshalJSON) strct.VersionControlProvenance with
  | Except.error e => Except.error e
  | Except.ok j25 =>
  match encList (encOpt Sarif.WebRequest.marshalJSON) strct.WebRequests with
  | Except.error e => Except.error e
  | Except.ok j26 =>
  match encList (encOpt Sarif.WebResponse.marshalJSON) strct.WebResponses with
  | Except.error e => Except.error e
  | Except.ok j27 =>
  Except.ok (Json.obj [("addresses", j0), ("artifacts", j1), ("automationDetails", j2), ("baselineGuid", j3), ("columnKind", j4), ("conversion", j5), ("defaultEncoding", j6), ("defaultSourceLanguage", j7), ("externalPropertyFileReferences", j8), ("graphs", j9), ("invocations", j10), ("language", j11), ("logicalLocations", j12), ("newlineSequences", j13), ("originalUriBaseIds", j14), ("policies", j15), ("properties", j16), ("redactionTokens", j17), ("results", j18), ("runAggregates", j19), ("specialLocations", j20), ("taxonomies", j21), ("threadFlowLocations", j22), ("tool", j23), ("translations", j24), ("versionControlProvenance", j25), ("webRequests", j26), ("webResponses", j27)])

/-- Field record of the Go struct SARIF in src/sarif.go (field order preserved). -/
structure SARIF where
  InlineExternalProperties : Option (List (Option Sarif.ExternalProperties))
  Properties : Option Sarif.PropertyBag
  Runs : Option (List (Option Sarif.Run))
  Schema : String
  Version : String

/-- The Go zero value of SARIF: what UnmarshalJSON starts from. -/
def SARIF.zero : Sarif.SARIF where
  InlineExternalProperties := none
  Properties := none
  Runs := none
  Schema := ""
  Version := ""

/-- The property loop of func (strct *SARIF) UnmarshalJSON in src/sarif.go: dispatch
on each key of the decoded object, tracking which required keys were received.
Go iterates the map in unspecified order; entries arrive here in ascending key
order, one admissible schedule, and distinct keys update disjoint fields. -/
def SARIF.parseProps : List (String × Json) → (Sarif.SARIF × Bool × Bool) → Except String (Sarif.SARIF × Bool × Bool)
  | [], acc => Except.ok acc
  | (k, v) :: rest, (strct, runsReceived, versionReceived) =>
    match k with
    | "inlineExternalProperties" =>
      match decList (decOpt Sarif.ExternalProperties.unmarshalJSON) v with
      | Except.error e => Except.error e
      | Except.ok x => SARIF.parseProps rest (( { strct with InlineExternalProperties := x } ), runsReceived, versionReceived)
    | "properties" =>
      match decOpt Sarif.PropertyBag.unmarshalJSON v with
      | Except.error e => Except.error e
      | Except.ok x => SARIF.parseProps rest (( { strct with Properties := x } ), runsReceived, versionReceived)
    | "runs" =>
      match decList (decOpt Sarif.Run.unmarshalJSON) v with
      | Except.error e => Except.error e
      | Except.ok x => SARIF.parseProps rest (( { strct with Runs := x } ), true, versionReceived)
    | "$schema" =>
      match decString v with
      | Except.error e => Except.error e
      | Except.ok x => SARIF.parseProps rest (( { strct with Schema := x } ), runsReceived, versionReceived)
    | "version" =>
      match decString v with
      | Except.error e => Except.error e
      | Except.ok x => SARIF.parseProps rest (( { strct with Version := x } ), runsReceived, true)
    | _ => Except.error ("additional property not allowed: \"" ++ k ++ "\"")

/-- Embeds func (strct *SARIF) UnmarshalJSON in src/sarif.go. -/
def SARIF.unmarshalJSON (j : Json) : Except String Sarif.SARIF :=
  match asObject j with
  | Except.error e => Except.error e
  | Except.ok jsonMap =>
    match SARIF.parseProps jsonMap (SARIF.zero, false, false) with
    | Except.error e => Except.error e
    | Except.ok (strct, runsReceived, versionReceived) =>
      if !runsReceived then Except.error "\"runs\" is required but was not present"
      else if !versionReceived then Except.error "\"version\" is required but was not present"
      else Except.ok strct

/-- Embeds func (strct *SARIF) MarshalJSON in src/sarif.go: every declared field
is emitted, in declaration order; required fields of object type are checked for nil. -/
def SARIF.marshalJSON (strct : Sarif.SARIF) : Except String Json :=
  match encList (encOpt Sarif.ExternalProperties.marshalJSON) strct.InlineExternalProperties with
  | Except.error e => Except.error e
  | Except.ok j0 =>
  match encOpt Sarif.PropertyBag.marshalJSON strct.Properties with
  | Except.error e => Except.error e
  | Except.ok j1 =>
  match encList (encOpt Sarif.Run.marshalJSON) strct.Runs with
  | Except.error e => Except.error e
  | Except.ok j2 =>
  match encString strct.Schema with
  | Except.error e => Except.error e
  | Except.ok j3 =>
  match encString strct.Version with
  | Except.error e => Except.error e
  | Except.ok j4 =>
  Except.ok (Json.obj [("inlineExternalProperties", j0), ("properties", j1), ("runs", j2), ("$schema", j3), ("version", j4)])
/-! ### Canonical-map lemmas

The decoders view a JSON object through mapOfEntries, the canonical (ascending,
last-write-wins) representation of the Go map built by encoding/json. The
lemmas below let the round-trip proofs compute with that representation,
starting from the order facts for strLt. -/

theorem strLtL_nil_false : ∀ l : List Char, strLtL l [] = false := by
  intro l; cases l <;> rfl

theorem strLtL_irrefl : ∀ l : List Char, strLtL l l = false
  | [] => rfl
  | a :: as => by simp [strLtL, strLtL_irrefl as]

theorem strLtL_asymm : ∀ a b : List Char, strLtL a b = true → strLtL b a = false
  | [], [], h => by simp [strLtL] at h
  | [], _ :: _, _ => strLtL_nil_false _
  | _ :: _, [], h => by rw [strLtL_nil_false] at h; exact absurd h Bool.false_ne_true
  | a :: as, b :: bs, h => by
    by_cases h1 : a.toNat < b.toNat
    · simp [strLtL, h1, show ¬ b.toNat < a.toNat from by omega]
    · by_cases h2 : b.toNat < a.toNat
      · simp [strLtL, h1, h2] at h
      · simp only [strLtL, if_neg h1, if_neg h2] at h
        simp only [strLtL, if_neg h2, if_neg h1]
        exact strLtL_asymm as bs h

theorem strLtL_trans : ∀ a b c : List Char,
    strLtL a b = true → strLtL b c = true → strLtL a c = true
  | [], b, [], _, hbc => by rw [strLtL_nil_false] at hbc; exact absurd hbc Bool.false_ne_true
  | [], _, _ :: _, _, _ => rfl
  | _ :: _, [], _, hab, _ => by
    rw [strLtL_nil_false] at hab; exact absurd hab Bool.false_ne_true
  | _ :: _, _ :: _, [], _, hbc => by
    rw [strLtL_nil_false] at hbc; exact absurd hbc Bool.false_ne_true
  | a :: as, b :: bs, c :: cs, hab, hbc => by
    by_cases h1 : a.toNat < b.toNat <;> by_cases h2 : b.toNat < c.toNat
    · simp [strLtL, show a.toNat < c.toNat from by omega]
    · by_cases h3 : c.toNat < b.toNat
      · simp [strLtL, h2, h3] at hbc
      · simp [strLtL, show a.toNat < c.toNat from by omega]
    · by_cases h4 : b.toNat < a.toNat
      · simp [strLtL, h1, h4] at hab
      · simp [strLtL, show a.toNat < c.toNat from by omega]
    · by_cases h3 : c.toNat < b.toNat
      · simp [strLtL, h2, h3] at hbc
      · by_cases h4 : b.toNat < a.toNat
        · simp [strLtL, h1, h4] at hab
        · simp only [strLtL, if_neg h1, if_neg h4] at hab
          simp only [strLtL, if_neg h2, if_neg h3] at hbc
          simp only [strLtL, if_neg (show ¬ a.toNat < c.toNat from by omega),
            if_neg (show ¬ c.toNat < a.toNat from by omega)]
          exact strLtL_trans as bs cs hab hbc

theorem strLtL_eq : ∀ a b : List Char, strLtL a b = false → strLtL b a = false → a = b
  | [], [], _, _ => rfl
  | [], _ :: _, hab, _ => by simp [strLtL] at hab
  | _ :: _, [], _, hba => by simp [strLtL] at hba
  | a :: as, b :: bs, hab, hba => by
    by_cases h1 : a.toNat < b.toNat
    · simp [strLtL, h1] at hab
    · by_cases h2 : b.toNat < a.toNat
      · simp [strLtL, h2] at hba
      · have hn : a.toNat = b.toNat := by omega
        have hc : a = b := Char.eq_of_val_eq (UInt32.ext hn)
        simp only [strLtL, if_neg h1, if_neg h2] at hab
        simp only [strLtL, if_neg h2, if_neg h1] at hba
        rw [hc, strLtL_eq as bs hab hba]

theorem strLt_irrefl (a : String) : strLt a a = false := strLtL_irrefl a.data

theorem strLt_asymm {a b : String} (h : strLt a b = true) : strLt b a = false :=
  strLtL_asymm _ _ h

theorem strLt_trans {a b c : String} (h1 : strLt a b = true) (h2 : strLt b c = true) :
    strLt a c = true :=
  strLtL_trans _ _ _ h1 h2

theorem strLt_eq {a b : String} (h1 : strLt a b = false) (h2 : strLt b a = false) :
    a = b := by
  have hd := strLtL_eq a.data b.data h1 h2
  cases a; cases b
  exact congrArg String.mk hd

theorem strLt_ne {a b : String} (h : strLt a b = true) : a ≠ b := by
  intro he
  subst he
  rw [strLt_irrefl] at h
  exact absurd h Bool.false_ne_true

theorem strLt_cases (a b : String) : strLt a b = true ∨ a = b ∨ strLt b a = true := by
  cases hab : strLt a b with
  | true => exact Or.inl rfl
  | false =>
    cases hba : strLt b a with
    | true => exact Or.inr (Or.inr rfl)
    | false => exact Or.inr (Or.inl (strLt_eq hab hba))

/-- Keys of an association list are strictly ascending and hence distinct: the
canonical form of a Go map value in this model. -/
def keysSorted {α : Type} : List (String × α) → Bool
  | [] => true
  | a :: rest => rest.all (fun b => strLt a.1 b.1) && keysSorted rest

theorem keysSorted_iff_pairwise {α : Type} (l : List (String × α)) :
    keysSorted l = true ↔ List.Pairwise (fun a b => strLt a.1 b.1 = true) l := by
  induction l with
  | nil => simp [keysSorted]
  | cons a rest ih =>
    simp [keysSorted, List.pairwise_cons, List.all_eq_true, ih, and_comm]

theorem insertKV_nil {α : Type} (k : String) (v : α) : insertKV k v [] = [(k, v)] := rfl

theorem insertKV_cons_lt {α : Type} {k k2 : String} (v : α) (v2 : α)
    (rest : List (String × α)) (h : strLt k k2 = true) :
    insertKV k v ((k2, v2) :: rest) = (k, v) :: (k2, v2) :: rest := by
  simp only [insertKV, if_pos h]

theorem insertKV_cons_eq {α : Type} {k k2 : String} (v : α) (v2 : α)
    (rest : List (String × α)) (h : k = k2) :
    insertKV k v ((k2, v2) :: rest) = (k, v) :: rest := by
  subst h
  simp [insertKV, strLt_irrefl]

theorem insertKV_cons_gt {α : Type} {k k2 : String} (v : α) (v2 : α)
    (rest : List (String × α)) (h : strLt k2 k = true) :
    insertKV k v ((k2, v2) :: rest) = (k2, v2) :: insertKV k v rest := by
  have hne : ¬ k = k2 := fun he => strLt_ne h he.symm
  simp only [insertKV, strLt_asymm h, Bool.false_eq_true, if_false, if_neg hne]

theorem insertKV_append_of_lt {α : Type} (k : String) (v : α) :
    ∀ m : List (String × α), (∀ a ∈ m, strLt a.1 k = true) → insertKV k v m = m ++ [(k, v)]
  | [], _ => rfl
  | (k2, v2) :: rest, h => by
    have h2 := h (k2, v2) (List.mem_cons_self _ _)
    rw [insertKV_cons_gt _ _ _ h2,
      insertKV_append_of_lt k v rest (fun a ha => h a (List.mem_cons_of_mem _ ha))]
    rfl

theorem insertKV_comm {α : Type} (k k2 : String) (v v2 : α) (hne : k ≠ k2) :
    ∀ m : List (String × α),
      insertKV k v (insertKV k2 v2 m) = insertKV k2 v2 (insertKV k v m)
  | [] => by
    rcases strLt_cases k k2 with h | h | h
    · simp only [insertKV_nil, insertKV_cons_lt _ _ _ h, insertKV_cons_gt _ _ _ h]
    · exact absurd h hne
    · simp only [insertKV_nil, insertKV_cons_lt _ _ _ h, insertKV_cons_gt _ _ _ h]
  | (k3, v3) :: rest => by
    rcases strLt_cases k k3 with h1 | h1 | h1 <;>
      rcases strLt_cases k2 k3 with h2 | h2 | h2
    · rcases strLt_cases k k2 with h3 | h3 | h3
      · simp only [insertKV_cons_lt _ _ _ h2, insertKV_cons_lt _ _ _ h1,
          insertKV_cons_lt _ _ _ h3, insertKV_cons_gt _ _ _ h3]
      · exact absurd h3 hne
      · simp only [insertKV_cons_lt _ _ _ h2, insertKV_cons_lt _ _ _ h1,
          insertKV_cons_gt _ _ _ h3, insertKV_cons_lt _ _ _ h3]
    · subst h2
      simp only [insertKV_cons_eq _ _ _ rfl, insertKV_cons_lt _ _ _ h1,
        insertKV_cons_gt _ _ _ h1]
    · simp only [insertKV_cons_gt _ _ _ h2, insertKV_cons_lt _ _ _ h1,
        insertKV_cons_gt _ _ _ (strLt_trans h1 h2)]
    · subst h1
      simp only [insertKV_cons_eq _ _ _ rfl, insertKV_cons_lt _ _ _ h2,
        insertKV_cons_gt _ _ _ h2]
    · exact absurd (h1.trans h2.symm) hne
    · subst h1
      simp only [insertKV_cons_eq _ _ _ rfl, insertKV_cons_gt _ _ _ h2]
    · simp only [insertKV_cons_lt _ _ _ h2, insertKV_cons_gt _ _ _ h1,
        insertKV_cons_gt _ _ _ (strLt_trans h2 h1)]
    · subst h2
      simp only [insertKV_cons_eq _ _ _ rfl, insertKV_cons_gt _ _ _ h1,
        insertKV_cons_lt _ _ _ h1]
    · simp only [insertKV_cons_gt _ _ _ h1, insertKV_cons_gt _ _ _ h2,
        insertKV_comm k k2 v v2 hne rest]

theorem foldl_insertKV_comm {α : Type} (k : String) (v : α) :
    ∀ (l : List (String × α)) (acc : List (String × α)), k ∉ l.map Prod.fst →
      l.foldl (fun m kv => insertKV kv.1 kv.2 m) (insertKV k v acc)
        = insertKV k v (l.foldl (fun m kv => insertKV kv.1 kv.2 m) acc)
  | [], _, _ => rfl
  | (k1, v1) :: rest, acc, h => by
    simp only [List.map_cons, List.mem_cons, not_or] at h
    simp only [List.foldl_cons]
    rw [insertKV_comm k1 k v1 v (fun he => h.1 he.symm) acc]
    exact foldl_insertKV_comm k v rest (insertKV k1 v1 acc) h.2

theorem mapOfEntries_cons_not_mem {α : Type} (k : String) (v : α)
    (l : List (String × α)) (h : k ∉ l.map Prod.fst) :
    mapOfEntries ((k, v) :: l) = insertKV k v (mapOfEntries l) := by
  unfold mapOfEntries
  simp only [List.foldl_cons]
  exact foldl_insertKV_comm k v l [] h

theorem not_mem_keys_of_lt {α : Type} (k : String) (l : List (String × α))
    (h : ∀ a ∈ l, strLt k a.1 = true) : k ∉ l.map Prod.fst := by
  intro hk
  obtain ⟨b, hb, hfst⟩ := List.mem_map.mp hk
  have h2 := h b hb
  rw [hfst, strLt_irrefl] at h2
  exact absurd h2 Bool.false_ne_true

theorem not_mem_keys_of_gt {α : Type} (k : String) (l : List (String × α))
    (h : ∀ a ∈ l, strLt a.1 k = true) : k ∉ l.map Prod.fst := by
  intro hk
  obtain ⟨b, hb, hfst⟩ := List.mem_map.mp hk
  have h2 := h b hb
  rw [hfst, strLt_irrefl] at h2
  exact absurd h2 Bool.false_ne_true

theorem mapOfEntries_sorted {α : Type} :
    ∀ l : List (String × α), keysSorted l = true → mapOfEntries l = l
  | [], _ => rfl
  | (k, v) :: rest, h => by
    simp only [keysSorted, Bool.and_eq_true, List.all_eq_true] at h
    have hmem : k ∉ rest.map Prod.fst := not_mem_keys_of_lt k rest h.1
    rw [mapOfEntries_cons_not_mem k v rest hmem, mapOfEntries_sorted rest h.2]
    cases rest with
    | nil => rfl
    | cons b tl => exact insertKV_cons_lt _ _ _ (h.1 b (List.mem_cons_self b tl))

theorem insertKV_split {α : Type} (k : String) (v : α) :
    ∀ m : List (String × α), keysSorted m = true → k ∉ m.map Prod.fst →
      ∃ m1 m2, m = m1 ++ m2 ∧ insertKV k v m = m1 ++ (k, v) :: m2 ∧
        (∀ a ∈ m1, strLt a.1 k = true) ∧ (∀ a ∈ m2, strLt k a.1 = true)
  | [], _, _ => ⟨[], [], rfl, rfl, by simp, by simp⟩
  | (k2, v2) :: rest, hs, hmem => by
    simp only [keysSorted, Bool.and_eq_true, List.all_eq_true] at hs
    simp only [List.map_cons, List.mem_cons, not_or] at hmem
    rcases strLt_cases k k2 with h | h | h
    · refine ⟨[], (k2, v2) :: rest, rfl, insertKV_cons_lt _ _ _ h, by simp, ?_⟩
      intro a ha
      rcases List.mem_cons.mp ha with rfl | ha2
      · exact h
      · exact strLt_trans h (hs.1 a ha2)
    · exact absurd h hmem.1
    · obtain ⟨m1, m2, hm, hins, hl1, hl2⟩ := insertKV_split k v rest hs.2 hmem.2
      refine ⟨(k2, v2) :: m1, m2, by rw [List.cons_append, hm],
        by rw [insertKV_cons_gt _ _ _ h, hins, List.cons_append], ?_, hl2⟩
      intro a ha
      rcases List.mem_cons.mp ha with rfl | ha2
      · exact h
      · exact hl1 a ha2

theorem keysSorted_of_append {α : Type} (l1 l2 : List (String × α))
    (h : keysSorted (l1 ++ l2) = true) :
    keysSorted l1 = true ∧ keysSorted l2 = true ∧
      ∀ a ∈ l1, ∀ b ∈ l2, strLt a.1 b.1 = true := by
  rw [keysSorted_iff_pairwise] at h
  rw [List.pairwise_append] at h
  exact ⟨(keysSorted_iff_pairwise l1).mpr h.1, (keysSorted_iff_pairwise l2).mpr h.2.1, h.2.2⟩

/-! ### Generic round-trip helpers for the field codecs -/

theorem each_rt {α : Type} (enc : α → Except String Json) (dec : Json → Except String α) :
    ∀ l : List α, (∀ x ∈ l, ∃ j, enc x = Except.ok j ∧ dec j = Except.ok x) →
      ∃ js, encEach enc l = Except.ok js ∧ decEach dec js = Except.ok l
  | [], _ => ⟨[], rfl, rfl⟩
  | x :: xs, h => by
    obtain ⟨j, hj, hdj⟩ := h x (List.mem_cons_self x xs)
    obtain ⟨js, hjs, hdjs⟩ := each_rt enc dec xs (fun y hy => h y (List.mem_cons_of_mem _ hy))
    exact ⟨j :: js, by simp [encEach, hj, hjs], by simp [decEach, hdj, hdjs]⟩

theorem opt_rt {α : Type} (enc : α → Except String Json) (dec : Json → Except String α)
    (o : Option α)
    (h : ∀ x, o = some x →
      ∃ l, enc x = Except.ok (Json.obj l) ∧ dec (Json.obj l) = Except.ok x) :
    ∃ j, encOpt enc o = Except.ok j ∧ decOpt dec j = Except.ok o := by
  cases o with
  | none => exact ⟨Json.null, rfl, rfl⟩
  | some x =>
    obtain ⟨l, he, hd⟩ := h x rfl
    exact ⟨Json.obj l, by simp [encOpt, he], by simp [decOpt, hd]⟩

theorem list_rt {α : Type} (enc : α → Except String Json) (dec : Json → Except String α)
    (o : Option (List α))
    (h : ∀ x ∈ o.getD [], ∃ j, enc x = Except.ok j ∧ dec j = Except.ok x) :
    ∃ j, encList enc o = Except.ok j ∧ decList dec j = Except.ok o := by
  cases o with
  | none => exact ⟨Json.null, rfl, rfl⟩
  | some xs =>
    obtain ⟨js, he, hd⟩ := each_rt enc dec xs h
    exact ⟨Json.arr js, by simp [encList, he], by simp [decList, hd]⟩

theorem int_rt (n : Int) : ∃ j, encInt n = Except.ok j ∧ decInt j = Except.ok n :=
  ⟨Json.num (n : Rat), rfl, by simp [decInt, Rat.den_intCast, Rat.num_intCast]⟩

theorem string_rt (s : String) : ∃ j, encString s = Except.ok j ∧ decString j = Except.ok s :=
  ⟨Json.str s, rfl, rfl⟩

/-! ### Well-formed instances

Go permits building instances the codec does not round-trip: an additional
property named tags shadows the typed field, an allocated-but-empty open map is
indistinguishable on the wire from an absent one, and required object fields
may be nil. WFb captures the instances the round-trip theorems range over. -/

/-- Well-formedness of a single optional nested entity. -/
def optWF {α : Type} (wf : α → Bool) : Option α → Bool
  | none => true
  | some x => wf x

/-- Well-formedness of every present element of an optional slice. -/
def listWF {α : Type} (wf : α → Bool) : Option (List α) → Bool
  | none => true
  | some xs => xs.all wf

/-- A well-formed PropertyBag: the open map, when allocated, is a canonical Go
map representation, nonempty, and does not shadow the declared key tags. -/
def PropertyBag.WFb (pb : Sarif.PropertyBag) : Bool :=
  match pb.AdditionalProperties with
  | none => true
  | some l => keysSorted l && !(decide ("tags" ∈ l.map Prod.fst)) && !l.isEmpty

theorem PropertyBag.parseProps_append (l1 l2 : List (String × Json)) :
    ∀ pb, PropertyBag.parseProps (l1 ++ l2) pb =
      match PropertyBag.parseProps l1 pb with
      | Except.ok pb2 => PropertyBag.parseProps l2 pb2
      | Except.error e => Except.error e := by
  induction l1 with
  | nil => intro pb; simp [PropertyBag.parseProps]
  | cons hd tl ih =>
    intro pb
    obtain ⟨k, v⟩ := hd
    rw [List.cons_append]
    show PropertyBag.parseProps ((k, v) :: (tl ++ l2)) pb = _
    simp only [PropertyBag.parseProps]
    split
    · split
      · rfl
      · exact ih _
    · exact ih _

theorem PropertyBag.parse_extras :
    ∀ (l acc : List (String × Json)) (tags0 : Option (List String)),
      "tags" ∉ l.map Prod.fst → keysSorted (acc ++ l) = true →
      PropertyBag.parseProps l { AdditionalProperties := some acc, Tags := tags0 }
        = Except.ok { AdditionalProperties := some (acc ++ l), Tags := tags0 }
  | [], acc, tags0, _, _ => by simp [PropertyBag.parseProps]
  | (k, v) :: rest, acc, tags0, hmem, hs => by
    simp only [List.map_cons, List.mem_cons, not_or] at hmem
    have hlt : ∀ a ∈ acc, strLt a.1 k = true :=
      fun a ha => (keysSorted_of_append acc ((k, v) :: rest) hs).2.2 a ha (k, v)
        (List.mem_cons_self _ _)
    have hs2 : keysSorted ((acc ++ [(k, v)]) ++ rest) = true := by
      rw [List.append_assoc, List.singleton_append]; exact hs
    show PropertyBag.parseProps ((k, v) :: rest) _ = _
    simp only [PropertyBag.parseProps]
    split
    · exact absurd rfl hmem.1
    · show PropertyBag.parseProps rest
        { AdditionalProperties := some (insertKV k v acc), Tags := tags0 } = _
      rw [insertKV_append_of_lt k v acc hlt]
      rw [PropertyBag.parse_extras rest (acc ++ [(k, v)]) tags0 hmem.2 hs2]
      rw [List.append_assoc, List.singleton_append]

theorem PropertyBag.parse_extras_none :
    ∀ (l : List (String × Json)) (tags0 : Option (List String)),
      "tags" ∉ l.map Prod.fst → keysSorted l = true →
      PropertyBag.parseProps l { AdditionalProperties := none, Tags := tags0 }
        = Except.ok { AdditionalProperties := (if l.isEmpty then none else some l), Tags := tags0 }
  | [], tags0, _, _ => by simp [PropertyBag.parseProps]
  | (k, v) :: rest, tags0, hmem, hs => by
    simp only [List.map_cons, List.mem_cons, not_or] at hmem
    show PropertyBag.parseProps ((k, v) :: rest) _ = _
    simp only [PropertyBag.parseProps]
    split
    · exact absurd rfl hmem.1
    · show PropertyBag.parseProps rest
        { AdditionalProperties := some [(k, v)], Tags := tags0 } = _
      rw [PropertyBag.parse_extras rest [(k, v)] tags0 hmem.2 (by simpa using hs)]
      simp

theorem propertyBag_marshal_obj (pb : Sarif.PropertyBag) (h : PropertyBag.WFb pb = true) :
    ∃ l, PropertyBag.marshalJSON pb = Except.ok (Json.obj l) ∧
      PropertyBag.unmarshalJSON (Json.obj l) = Except.ok pb := by
  obtain ⟨addl, tags⟩ := pb
  obtain ⟨tj, htj, hdtj⟩ := list_rt encString decString tags (fun s _ => string_rt s)
  cases addl with
  | none =>
    refine ⟨[("tags", tj)], ?_, ?_⟩
    · simp [PropertyBag.marshalJSON, PropertyBag.marshalJSONWith, htj]
    · show PropertyBag.unmarshalJSON (Json.obj [("tags", tj)]) = _
      simp only [PropertyBag.unmarshalJSON, asObject, mapOfEntries, List.foldl_cons,
        List.foldl_nil, insertKV_nil, PropertyBag.zero]
      show (match PropertyBag.parseProps [("tags", tj)] { AdditionalProperties := none, Tags := none } with
        | Except.error e => Except.error e
        | Except.ok strct => Except.ok strct) = _
      simp only [PropertyBag.parseProps, hdtj]
  | some l =>
    simp only [PropertyBag.WFb, Bool.and_eq_true, Bool.not_eq_true',
      decide_eq_false_iff_not] at h
    obtain ⟨⟨hs, hmem⟩, hne⟩ := h
    obtain ⟨m1, m2, hm, hins, hl1, hl2⟩ := insertKV_split "tags" tj l hs hmem
    have hs12 : keysSorted (m1 ++ m2) = true := hm ▸ hs
    obtain ⟨hs1, hs2, _⟩ := keysSorted_of_append m1 m2 hs12
    have hmem1 : "tags" ∉ m1.map Prod.fst := not_mem_keys_of_gt _ _ hl1
    have hmem2 : "tags" ∉ m2.map Prod.fst := not_mem_keys_of_lt _ _ hl2
    refine ⟨("tags", tj) :: l, ?_, ?_⟩
    · simp [PropertyBag.marshalJSON, PropertyBag.marshalJSONWith, htj]
    · show PropertyBag.unmarshalJSON (Json.obj (("tags", tj) :: l)) = _
      simp only [PropertyBag.unmarshalJSON, asObject]
      rw [mapOfEntries_cons_not_mem _ _ _ hmem, mapOfEntries_sorted l hs, hins]
      show (match PropertyBag.parseProps (m1 ++ ("tags", tj) :: m2) { AdditionalProperties := none, Tags := none } with
        | Except.error e => Except.error e
        | Except.ok strct => Except.ok strct) = _
      rw [PropertyBag.parseProps_append m1 (("tags", tj) :: m2)]
      cases m1 with
      | nil =>
        have hm2 : m2 = l := by simpa using hm.symm
        subst hm2
        show (match (match decList decString tj with
          | Except.error e => Except.error e
          | Except.ok x2 => PropertyBag.parseProps m2 { AdditionalProperties := none, Tags := x2 }) with
          | Except.error e => Except.error e
          | Except.ok strct => Except.ok strct) = _
        rw [hdtj]
        show (match PropertyBag.parseProps m2 { AdditionalProperties := none, Tags := tags } with
          | Except.error e => Except.error e
          | Except.ok strct => Except.ok strct) = _
        rw [PropertyBag.parse_extras_none m2 tags hmem hs]
        simp [hne]
      | cons x xs =>
        rw [PropertyBag.parse_extras_none (x :: xs) none hmem1 hs1]
        show (match (match decList decString tj with
          | Except.error e => Except.error e
          | Except.ok x2 => PropertyBag.parseProps m2 { AdditionalProperties := some (x :: xs), Tags := x2 }) with
          | Except.error e => Except.error e
          | Except.ok strct => Except.ok strct) = _
        rw [hdtj]
        show (match PropertyBag.parseProps m2 { AdditionalProperties := some (x :: xs), Tags := tags } with
          | Except.error e => Except.error e
          | Except.ok strct => Except.ok strct) = _
        rw [PropertyBag.parse_extras m2 (x :: xs) tags hmem2 (by rw [hm] at hs; exact hs)]
        rw [show (x :: xs) ++ m2 = l from hm.symm]

theorem decInt_intCast (n : Int) : decInt (Json.num (n : Rat)) = Except.ok n := by
  simp [decInt, Rat.den_intCast, Rat.num_intCast]

/-- A well-formed Message: its property bag is well formed. -/
def Message.WFb (x : Sarif.Message) : Bool :=
  optWF PropertyBag.WFb x.Properties

theorem message_marshal_obj (x : Sarif.Message) (h : Message.WFb x = true) :
    ∃ l, Message.marshalJSON x = Except.ok (Json.obj l) ∧
      Message.unmarshalJSON (Json.obj l) = Except.ok x := by
  obtain ⟨args, id, md, props, text⟩ := x
  simp only [Message.WFb] at h
  obtain ⟨aj, haj, hdaj⟩ := list_rt encString decString args (fun s _ => string_rt s)
  obtain ⟨pj, hpj, hdpj⟩ := opt_rt PropertyBag.marshalJSON PropertyBag.unmarshalJSON props
    (fun pb hpb => propertyBag_marshal_obj pb (by rw [hpb] at h; exact h))
  refine ⟨[("arguments", aj), ("id", Json.str id), ("markdown", Json.str md),
    ("properties", pj), ("text", Json.str text)], ?_, ?_⟩
  · simp [Message.marshalJSON, haj, hpj, encString]
  · simp [Message.unmarshalJSON, asObject, mapOfEntries, insertKV, Message.parseProps,
      Message.zero, hdaj, hdpj, decString]

/-- A well-formed MultiformatMessageString: its property bag is well formed. -/
def MultiformatMessageString.WFb (x : Sarif.MultiformatMessageString) : Bool :=
  optWF PropertyBag.WFb x.Properties

theorem multiformat_marshal_obj (x : Sarif.MultiformatMessageString)
    (h : MultiformatMessageString.WFb x = true) :
    ∃ l, MultiformatMessageString.marshalJSON x = Except.ok (Json.obj l) ∧
      MultiformatMessageString.unmarshalJSON (Json.obj l) = Except.ok x := by
  obtain ⟨md, props, text⟩ := x
  simp only [MultiformatMessageString.WFb] at h
  obtain ⟨pj, hpj, hdpj⟩ := opt_rt PropertyBag.marshalJSON PropertyBag.unmarshalJSON props
    (fun pb hpb => propertyBag_marshal_obj pb (by rw [hpb] at h; exact h))
  refine ⟨[("markdown", Json.str md), ("properties", pj), ("text", Json.str text)], ?_, ?_⟩
  · simp [MultiformatMessageString.marshalJSON, hpj, encString]
  · simp [MultiformatMessageString.unmarshalJSON, asObject, mapOfEntries, insertKV,
      MultiformatMessageString.parseProps, MultiformatMessageString.zero, hdpj, decString]

/-- A well-formed ArtifactContent: nested bag and rendered message are well formed. -/
def ArtifactContent.WFb (x : Sarif.ArtifactContent) : Bool :=
  optWF PropertyBag.WFb x.Properties && optWF MultiformatMessageString.WFb x.Rendered

theorem artifactContent_marshal_obj (x : Sarif.ArtifactContent)
    (h : ArtifactContent.WFb x = true) :
    ∃ l, ArtifactContent.marshalJSON x = Except.ok (Json.obj l) ∧
      ArtifactContent.unmarshalJSON (Json.obj l) = Except.ok x := by
  obtain ⟨bin, props, rend, text⟩ := x
  simp only [ArtifactContent.WFb, Bool.and_eq_true] at h
  obtain ⟨pj, hpj, hdpj⟩ := opt_rt PropertyBag.marshalJSON PropertyBag.unmarshalJSON props
    (fun pb hpb => propertyBag_marshal_obj pb (by rw [hpb] at h; exact h.1))
  obtain ⟨rj, hrj, hdrj⟩ := opt_rt MultiformatMessageString.marshalJSON
    MultiformatMessageString.unmarshalJSON rend
    (fun m hm => multiformat_marshal_obj m (by rw [hm] at h; exact h.2))
  refine ⟨[("binary", Json.str bin), ("properties", pj), ("rendered", rj),
    ("text", Json.str text)], ?_, ?_⟩
  · simp [ArtifactContent.marshalJSON, hpj, hrj, encString]
  · simp [ArtifactContent.unmarshalJSON, asObject, mapOfEntries, insertKV,
      ArtifactContent.parseProps, ArtifactContent.zero, hdpj, hdrj, decString]

/-- A well-formed ArtifactLocation: nested description and bag are well formed. -/
def ArtifactLocation.WFb (x : Sarif.ArtifactLocation) : Bool :=
  optWF Message.WFb x.Description && optWF PropertyBag.WFb x.Properties

theorem artifactLocation_marshal_obj (x : Sarif.ArtifactLocation)
    (h : ArtifactLocation.WFb x = true) :
    ∃ l, ArtifactLocation.marshalJSON x = Except.ok (Json.obj l) ∧
      ArtifactLocation.unmarshalJSON (Json.obj l) = Except.ok x := by
  obtain ⟨desc, idx, props, uri, ubi⟩ := x
  simp only [ArtifactLocation.WFb, Bool.and_eq_true] at h
  obtain ⟨dj, hdj, hddj⟩ := opt_rt Message.marshalJSON Message.unmarshalJSON desc
    (fun m hm => message_marshal_obj m (by rw [hm] at h; exact h.1))
  obtain ⟨pj, hpj, hdpj⟩ := opt_rt PropertyBag.marshalJSON PropertyBag.unmarshalJSON props
    (fun pb hpb => propertyBag_marshal_obj pb (by rw [hpb] at h; exact h.2))
  refine ⟨[("description", dj), ("index", Json.num (idx : Rat)), ("properties", pj),
    ("uri", Json.str uri), ("uriBaseId", Json.str ubi)], ?_, ?_⟩
  · simp [ArtifactLocation.marshalJSON, hdj, hpj, encString, encInt]
  · simp [ArtifactLocation.unmarshalJSON, asObject, mapOfEntries, insertKV,
      ArtifactLocation.parseProps, ArtifactLocation.zero, hddj, hdpj, decString,
      decInt_intCast]

/-- A well-formed Region: nested message, bag, and snippet are well formed. -/
def Region.WFb (x : Sarif.Region) : Bool :=
  optWF Message.WFb x.Message && optWF PropertyBag.WFb x.Properties &&
    optWF ArtifactContent.WFb x.Snippet

theorem region_marshal_obj (x : Sarif.Region) (h : Region.WFb x = true) :
    ∃ l, Region.marshalJSON x = Except.ok (Json.obj l) ∧
      Region.unmarshalJSON (Json.obj l) = Except.ok x := by
  obtain ⟨bl, bo, cl, co, ec, el, msg, props, snip, sl, sc, st⟩ := x
  simp only [Region.WFb, Bool.and_eq_true] at h
  obtain ⟨mj, hmj, hdmj⟩ := opt_rt Message.marshalJSON Message.unmarshalJSON msg
    (fun m hm => message_marshal_obj m (by rw [hm] at h; exact h.1.1))
  obtain ⟨pj, hpj, hdpj⟩ := opt_rt PropertyBag.marshalJSON PropertyBag.unmarshalJSON props
    (fun pb hpb => propertyBag_marshal_obj pb (by rw [hpb] at h; exact h.1.2))
  obtain ⟨sj, hsj, hdsj⟩ := opt_rt ArtifactContent.marshalJSON ArtifactContent.unmarshalJSON
    snip (fun a ha => artifactContent_marshal_obj a (by rw [ha] at h; exact h.2))
  refine ⟨[("byteLength", Json.num (bl : Rat)), ("byteOffset", Json.num (bo : Rat)),
    ("charLength", Json.num (cl : Rat)), ("charOffset", Json.num (co : Rat)),
    ("endColumn", Json.num (ec : Rat)), ("endLine", Json.num (el : Rat)),
    ("message", mj), ("properties", pj), ("snippet", sj),
    ("sourceLanguage", Json.str sl), ("startColumn", Json.num (sc : Rat)),
    ("startLine", Json.num (st : Rat))], ?_, ?_⟩
  · simp [Region.marshalJSON, hmj, hpj, hsj, encString, encInt]
  · simp [Region.unmarshalJSON, asObject, mapOfEntries, insertKV, Region.parseProps,
      Region.zero, hdmj, hdpj, hdsj, decString, decInt_intCast]

theorem encOpt_some {α : Type} (enc : α → Except String Json) (x : α) :
    encOpt enc (some x) = enc x := rfl

theorem decOpt_obj {α : Type} (dec : Json → Except String α) (l : List (String × Json)) :
    decOpt dec (Json.obj l) =
      match dec (Json.obj l) with
      | Except.error e => Except.error e
      | Except.ok x => Except.ok (some x) := rfl

/-- A well-formed Replacement: the required deletedRegion is present and all
nested entities are well formed. -/
def Replacement.WFb (x : Sarif.Replacement) : Bool :=
  x.DeletedRegion.isSome && optWF Region.WFb x.DeletedRegion &&
    optWF ArtifactContent.WFb x.InsertedContent && optWF PropertyBag.WFb x.Properties

theorem replacement_marshal_obj (x : Sarif.Replacement) (h : Replacement.WFb x = true) :
    ∃ l, Replacement.marshalJSON x = Except.ok (Json.obj l) ∧
      Replacement.unmarshalJSON (Json.obj l) = Except.ok x := by
  obtain ⟨dr, ic, props⟩ := x
  simp only [Replacement.WFb, Bool.and_eq_true] at h
  cases dr with
  | none => exact absurd h.1.1.1 (by simp)
  | some r =>
  obtain ⟨rj, hrj, hdrj⟩ := region_marshal_obj r h.1.1.2
  obtain ⟨ij, hij, hdij⟩ := opt_rt ArtifactContent.marshalJSON ArtifactContent.unmarshalJSON
    ic (fun a ha => artifactContent_marshal_obj a (by rw [ha] at h; exact h.1.2))
  obtain ⟨pj, hpj, hdpj⟩ := opt_rt PropertyBag.marshalJSON PropertyBag.unmarshalJSON props
    (fun pb hpb => propertyBag_marshal_obj pb (by rw [hpb] at h; exact h.2))
  refine ⟨[("deletedRegion", Json.obj rj), ("insertedContent", ij), ("properties", pj)],
    ?_, ?_⟩
  · simp [Replacement.marshalJSON, encOpt_some, hrj, hij, hpj]
  · simp [Replacement.unmarshalJSON, asObject, mapOfEntries, insertKV,
      Replacement.parseProps, Replacement.zero, decOpt_obj, hdrj, hdij, hdpj]

/-- A well-formed ArtifactChange: the required artifactLocation is present and
all nested entities, including every present replacement, are well formed. -/
def ArtifactChange.WFb (x : Sarif.ArtifactChange) : Bool :=
  x.ArtifactLocation.isSome && optWF ArtifactLocation.WFb x.ArtifactLocation &&
    optWF PropertyBag.WFb x.Properties && listWF (optWF Replacement.WFb) x.Replacements

theorem artifactChange_marshal_obj (x : Sarif.ArtifactChange)
    (h : ArtifactChange.WFb x = true) :
    ∃ l, ArtifactChange.marshalJSON x = Except.ok (Json.obj l) ∧
      ArtifactChange.unmarshalJSON (Json.obj l) = Except.ok x := by
  obtain ⟨al, props, reps⟩ := x
  simp only [ArtifactChange.WFb, Bool.and_eq_true] at h
  cases al with
  | none => exact absurd h.1.1.1 (by simp)
  | some a =>
  obtain ⟨aj, haj, hdaj⟩ := artifactLocation_marshal_obj a h.1.1.2
  obtain ⟨pj, hpj, hdpj⟩ := opt_rt PropertyBag.marshalJSON PropertyBag.unmarshalJSON props
    (fun pb hpb => propertyBag_marshal_obj pb (by rw [hpb] at h; exact h.1.2))
  have hreps : ∀ o ∈ reps.getD [], ∃ j,
      encOpt Sarif.Replacement.marshalJSON o = Except.ok j ∧
      decOpt Sarif.Replacement.unmarshalJSON j = Except.ok o := by
    intro o ho
    refine opt_rt _ _ o (fun r hr => replacement_marshal_obj r ?_)
    have h2 := h.2
    cases reps with
    | none => simp at ho
    | some xs =>
      simp only [listWF, List.all_eq_true] at h2
      have := h2 o ho
      rw [hr] at this
      exact this
  obtain ⟨rj, hrj, hdrj⟩ := list_rt (encOpt Sarif.Replacement.marshalJSON)
    (decOpt Sarif.Replacement.unmarshalJSON) reps hreps
  refine ⟨[("artifactLocation", Json.obj aj), ("properties", pj), ("replacements", rj)],
    ?_, ?_⟩
  · simp [ArtifactChange.marshalJSON, encOpt_some, haj, hpj, hrj]
  · simp [ArtifactChange.unmarshalJSON, asObject, mapOfEntries, insertKV,
      ArtifactChange.parseProps, ArtifactChange.zero, decOpt_obj, hdaj, hdpj, hdrj]

/-! ### Encoder success characterizations -/

theorem exists_ok_of_isOk {α : Type} {e : Except String α} (h : isOk e = true) :
    ∃ x, e = Except.ok x := by
  cases e with
  | ok x => exact ⟨x, rfl⟩
  | error e2 => simp [isOk] at h

theorem encEach_isOk {α : Type} (enc : α → Except String Json) :
    ∀ l : List α, isOk (encEach enc l) = l.all (fun x => isOk (enc x))
  | [] => rfl
  | x :: xs => by
    have ih := encEach_isOk enc xs
    cases hx : enc x with
    | error e => simp [encEach, hx, isOk]
    | ok j =>
      cases hxs : encEach enc xs with
      | error e =>
        rw [hxs] at ih
        simp only [isOk] at ih
        simp only [encEach, hx, hxs, List.all_cons, isOk, Bool.true_and]
        exact ih
      | ok js =>
        rw [hxs] at ih
        simp only [isOk] at ih
        simp only [encEach, hx, hxs, List.all_cons, isOk, Bool.true_and]
        exact ih

theorem encList_isOk {α : Type} (enc : α → Except String Json) (o : Option (List α)) :
    isOk (encList enc o) = (o.getD []).all (fun x => isOk (enc x)) := by
  cases o with
  | none => rfl
  | some xs =>
    have h := encEach_isOk enc xs
    cases hxs : encEach enc xs with
    | error e =>
      rw [hxs] at h
      simp only [isOk] at h
      simp only [encList, hxs, isOk, Option.getD_some]
      exact h
    | ok js =>
      rw [hxs] at h
      simp only [isOk] at h
      simp only [encList, hxs, isOk, Option.getD_some]
      exact h

theorem encOpt_ok {α : Type} (enc : α → Except String Json) (o : Option α)
    (h : ∀ x, o = some x → ∃ j, enc x = Except.ok j) :
    ∃ j, encOpt enc o = Except.ok j := by
  cases o with
  | none => exact ⟨Json.null, rfl⟩
  | some x => exact (h x rfl).imp (fun j hj => hj)

theorem encEach_encString_ok (l : List String) :
    encEach encString l = Except.ok (l.map Json.str) := by
  induction l with
  | nil => rfl
  | cons s rest ih => simp [encEach, encString, ih]

theorem propertyBag_marshal_ok (pb : Sarif.PropertyBag) :
    ∃ j, PropertyBag.marshalJSON pb = Except.ok j := by
  apply exists_ok_of_isOk
  cases htags : pb.Tags with
  | none =>
    simp [PropertyBag.marshalJSON, PropertyBag.marshalJSONWith, encList, htags, isOk]
  | some ts =>
    simp [PropertyBag.marshalJSON, PropertyBag.marshalJSONWith, encList, htags,
      encEach_encString_ok, isOk]

theorem message_marshal_ok (x : Sarif.Message) :
    ∃ j, Message.marshalJSON x = Except.ok j := by
  obtain ⟨args, id, md, props, text⟩ := x
  obtain ⟨pj, hpj⟩ := encOpt_ok PropertyBag.marshalJSON props
    (fun pb _ => propertyBag_marshal_ok pb)
  apply exists_ok_of_isOk
  cases args with
  | none => simp [Message.marshalJSON, encList, encString, hpj, isOk]
  | some l =>
    simp [Message.marshalJSON, encList, encString, hpj, encEach_encString_ok, isOk]

theorem multiformat_marshal_ok (x : Sarif.MultiformatMessageString) :
    ∃ j, MultiformatMessageString.marshalJSON x = Except.ok j := by
  obtain ⟨md, props, text⟩ := x
  obtain ⟨pj, hpj⟩ := encOpt_ok PropertyBag.marshalJSON props
    (fun pb _ => propertyBag_marshal_ok pb)
  apply exists_ok_of_isOk
  simp [MultiformatMessageString.marshalJSON, encString, hpj, isOk]

theorem artifactContent_marshal_ok (x : Sarif.ArtifactContent) :
    ∃ j, ArtifactContent.marshalJSON x = Except.ok j := by
  obtain ⟨bin, props, rend, text⟩ := x
  obtain ⟨pj, hpj⟩ := encOpt_ok PropertyBag.marshalJSON props
    (fun pb _ => propertyBag_marshal_ok pb)
  obtain ⟨rj, hrj⟩ := encOpt_ok MultiformatMessageString.marshalJSON rend
    (fun m _ => multiformat_marshal_ok m)
  apply exists_ok_of_isOk
  simp [ArtifactContent.marshalJSON, encString, hpj, hrj, isOk]

theorem artifactLocation_marshal_ok (x : Sarif.ArtifactLocation) :
    ∃ j, ArtifactLocation.marshalJSON x = Except.ok j := by
  obtain ⟨desc, idx, props, uri, ubi⟩ := x
  obtain ⟨dj, hdj⟩ := encOpt_ok Message.marshalJSON desc (fun m _ => message_marshal_ok m)
  obtain ⟨pj, hpj⟩ := encOpt_ok PropertyBag.marshalJSON props
    (fun pb _ => propertyBag_marshal_ok pb)
  apply exists_ok_of_isOk
  simp [ArtifactLocation.marshalJSON, encString, encInt, hdj, hpj, isOk]

theorem region_marshal_ok (x : Sarif.Region) :
    ∃ j, Region.marshalJSON x = Except.ok j := by
  obtain ⟨bl, bo, cl, co, ec, el, msg, props, snip, sl, sc, st⟩ := x
  obtain ⟨mj, hmj⟩ := encOpt_ok Message.marshalJSON msg (fun m _ => message_marshal_ok m)
  obtain ⟨pj, hpj⟩ := encOpt_ok PropertyBag.marshalJSON props
    (fun pb _ => propertyBag_marshal_ok pb)
  obtain ⟨sj, hsj⟩ := encOpt_ok ArtifactContent.marshalJSON snip
    (fun a _ => artifactContent_marshal_ok a)
  apply exists_ok_of_isOk
  simp [Region.marshalJSON, encString, encInt, hmj, hpj, hsj, isOk]

theorem replacement_marshal_isOk (x : Sarif.Replacement) :
    isOk (Replacement.marshalJSON x) = x.DeletedRegion.isSome := by
  obtain ⟨dr, ic, props⟩ := x
  cases dr with
  | none => simp [Replacement.marshalJSON, isOk]
  | some r =>
    obtain ⟨rj, hrj⟩ := region_marshal_ok r
    obtain ⟨ij, hij⟩ := encOpt_ok ArtifactContent.marshalJSON ic
      (fun a _ => artifactContent_marshal_ok a)
    obtain ⟨pj, hpj⟩ := encOpt_ok PropertyBag.marshalJSON props
      (fun pb _ => propertyBag_marshal_ok pb)
    simp [Replacement.marshalJSON, encOpt_some, hrj, hij, hpj, isOk]

/-- Success of one replacement-slice element under encoding: a nil element
always marshals (to null); a present one marshals iff its deletedRegion is set. -/
def replacementElemOK : Option Sarif.Replacement → Bool
  | none => true
  | some r => r.DeletedRegion.isSome

theorem encOpt_replacement_isOk (o : Option Sarif.Replacement) :
    isOk (encOpt Sarif.Replacement.marshalJSON o) = replacementElemOK o := by
  cases o with
  | none => rfl
  | some r => simp [encOpt_some, replacement_marshal_isOk, replacementElemOK]

theorem artifactChange_marshal_isOk (x : Sarif.ArtifactChange) :
    isOk (ArtifactChange.marshalJSON x)
      = (x.ArtifactLocation.isSome && (x.Replacements.getD []).all replacementElemOK) := by
  obtain ⟨al, props, reps⟩ := x
  cases al with
  | none => simp [ArtifactChange.marshalJSON, isOk]
  | some a =>
    obtain ⟨aj, haj⟩ := artifactLocation_marshal_ok a
    obtain ⟨pj, hpj⟩ := encOpt_ok PropertyBag.marshalJSON props
      (fun pb _ => propertyBag_marshal_ok pb)
    have hlist := encList_isOk (encOpt Sarif.Replacement.marshalJSON) reps
    rw [show ((fun o => isOk (encOpt Sarif.Replacement.marshalJSON o))) = replacementElemOK
      from funext encOpt_replacement_isOk] at hlist
    cases hr : encList (encOpt Sarif.Replacement.marshalJSON) reps with
    | error e =>
      rw [hr] at hlist
      simp only [isOk] at hlist
      simp [ArtifactChange.marshalJSON, encOpt_some, haj, hpj, hr, isOk, ← hlist]
    | ok rj =>
      rw [hr] at hlist
      simp only [isOk] at hlist
      simp [ArtifactChange.marshalJSON, encOpt_some, haj, hpj, hr, isOk, ← hlist]

/-! ### Claim theorems -/

/-- Input on which the round-trip claim fails: a PropertyBag whose open map
holds an entry under the declared key tags. -/
def pbShadow : Sarif.PropertyBag :=
  { AdditionalProperties := some [("tags", Json.arr [Json.str "c"])], Tags := none }

/-- C1, counterexample: decode(encode(x)) is not x for every validly constructed
instance. For the bag whose open map shadows the key tags, the wire object
carries tags twice, the last occurrence wins in the raw map, and decode
re-parses it into the typed Tags field: the result has Tags some ["c"] while
the input had Tags none (and its open map entry is gone). -/
theorem C1_roundtrip_counterexample :
    ((PropertyBag.marshalJSON pbShadow).bind PropertyBag.unmarshalJSON).map
        Sarif.PropertyBag.Tags = Except.ok (some ["c"]) ∧ pbShadow.Tags = none :=
  ⟨by rfl, rfl⟩

/-- C1, amended: decode(encode(x)) = x for every well-formed instance of each
embedded entity type, where well-formed means every required object field is
present and every property bag in the tree neither shadows the key tags in its
open map nor holds an allocated-but-empty open map (the representative entity
set is the closure of ArtifactChange: PropertyBag, Message,
MultiformatMessageString, ArtifactContent, ArtifactLocation, Region,
Replacement, ArtifactChange, with zero-valued optional fields and populated
property bags included). -/
theorem C1_roundtrip_amended :
    (∀ x : Sarif.PropertyBag, PropertyBag.WFb x = true →
      (PropertyBag.marshalJSON x).bind PropertyBag.unmarshalJSON = Except.ok x) ∧
    (∀ x : Sarif.Message, Message.WFb x = true →
      (Message.marshalJSON x).bind Message.unmarshalJSON = Except.ok x) ∧
    (∀ x : Sarif.MultiformatMessageString, MultiformatMessageString.WFb x = true →
      (MultiformatMessageString.marshalJSON x).bind MultiformatMessageString.unmarshalJSON
        = Except.ok x) ∧
    (∀ x : Sarif.ArtifactContent, ArtifactContent.WFb x = true →
      (ArtifactContent.marshalJSON x).bind ArtifactContent.unmarshalJSON = Except.ok x) ∧
    (∀ x : Sarif.ArtifactLocation, ArtifactLocation.WFb x = true →
      (ArtifactLocation.marshalJSON x).bind ArtifactLocation.unmarshalJSON = Except.ok x) ∧
    (∀ x : Sarif.Region, Region.WFb x = true →
      (Region.marshalJSON x).bind Region.unmarshalJSON = Except.ok x) ∧
    (∀ x : Sarif.Replacement, Replacement.WFb x = true →
      (Replacement.marshalJSON x).bind Replacement.unmarshalJSON = Except.ok x) ∧
    (∀ x : Sarif.ArtifactChange, ArtifactChange.WFb x = true →
      (ArtifactChange.marshalJSON x).bind ArtifactChange.unmarshalJSON = Except.ok x) := by
  refine ⟨fun x h => ?_, fun x h => ?_, fun x h => ?_, fun x h => ?_, fun x h => ?_,
    fun x h => ?_, fun x h => ?_, fun x h => ?_⟩
  · obtain ⟨l, he, hd⟩ := propertyBag_marshal_obj x h
    rw [he]; exact hd
  · obtain ⟨l, he, hd⟩ := message_marshal_obj x h
    rw [he]; exact hd
  · obtain ⟨l, he, hd⟩ := multiformat_marshal_obj x h
    rw [he]; exact hd
  · obtain ⟨l, he, hd⟩ := artifactContent_marshal_obj x h
    rw [he]; exact hd
  · obtain ⟨l, he, hd⟩ := artifactLocation_marshal_obj x h
    rw [he]; exact hd
  · obtain ⟨l, he, hd⟩ := region_marshal_obj x h
    rw [he]; exact hd
  · obtain ⟨l, he, hd⟩ := replacement_marshal_obj x h
    rw [he]; exact hd
  · obtain ⟨l, he, hd⟩ := artifactChange_marshal_obj x h
    rw [he]; exact hd

/-- A concrete well-formed ArtifactChange with zero-valued optional fields, a
populated PropertyBag, and both required fields present. -/
def acRich : Sarif.ArtifactChange :=
  { ArtifactLocation := some { Description := some { Arguments := some ["x"], Id := "", Markdown := "", Properties := some { AdditionalProperties := some [("customX", Json.num 42)], Tags := some ["t"] }, Text := "tx" }, Index := 3, Properties := none, Uri := "u", UriBaseId := "" },
    Properties := some { AdditionalProperties := none, Tags := none },
    Replacements := some [none, some { DeletedRegion := some Region.zero, InsertedContent := none, Properties := none }] }

/-- C1 witness: the amended round trip evaluated on acRich. -/
theorem C1_roundtrip_amended_witness :
    (ArtifactChange.marshalJSON acRich).bind ArtifactChange.unmarshalJSON
      = Except.ok acRich :=
  C1_roundtrip_amended.2.2.2.2.2.2.2 acRich (by decide)

/-- A document root whose required Runs slice is nil. -/
def sarifNilRuns : Sarif.SARIF :=
  { InlineExternalProperties := none, Properties := none, Runs := none, Schema := "", Version := "2.1.0" }

/-- C4, counterexample: encoding a SARIF whose required runs field is nil does
not fail; it emits runs as null. Only required fields of object (single nested
entity) type are nil-checked by the encoders. -/
theorem C4_encode_counterexample :
    SARIF.marshalJSON sarifNilRuns = Except.ok (Json.obj [("inlineExternalProperties", Json.null), ("properties", Json.null), ("runs", Json.null), ("$schema", Json.str ""), ("version", Json.str "2.1.0")]) :=
  by rfl

/-- C4, amended: encoding fails exactly when a required field of object type is
nil, anywhere in the tree: for ArtifactChange, encode succeeds iff its
artifactLocation is present and every present replacement has its required
deletedRegion present; required slice fields are not checked, so a SARIF with
nil runs (and no other content) always encodes. -/
theorem C4_encode_amended :
    (∀ x : Sarif.ArtifactChange,
      isOk (ArtifactChange.marshalJSON x)
        = (x.ArtifactLocation.isSome && (x.Replacements.getD []).all replacementElemOK)) ∧
    (∀ sch ver : String,
      isOk (SARIF.marshalJSON { InlineExternalProperties := none, Properties := none, Runs := none, Schema := sch, Version := ver }) = true) :=
  ⟨artifactChange_marshal_isOk, fun _ _ => by rfl⟩

/-- The document of the nested-failure claim: one run whose tool driver object
is present but lacks its required name. -/
def c5doc : Json :=
  Json.obj [("version", Json.str "2.1.0"), ("runs", Json.arr [Json.obj [("tool", Json.obj [("driver", Json.obj [])])]])]

/-- C5: decoding a SARIF document whose single run has tool.driver without the
required name fails the whole document decode with the inner ToolComponent
error, propagated unchanged through Run and SARIF. -/
theorem C5_nested_failure_propagation :
    SARIF.unmarshalJSON c5doc = Except.error "\"name\" is required but was not present" :=
  by rfl

/-- C6: decoding a root object carrying the wire key dollar-schema populates the
semantic Schema field with its string value, and encoding a root with Schema
set emits that value under the wire key dollar-schema; the bare key schema
never appears in the output. -/
theorem C6_schema_aliasing (s : String) :
    SARIF.unmarshalJSON (Json.obj [("$schema", Json.str s), ("runs", Json.arr []), ("version", Json.str "2.1.0")]) = Except.ok { InlineExternalProperties := none, Properties := none, Runs := some [], Schema := s, Version := "2.1.0" } ∧
    SARIF.marshalJSON { InlineExternalProperties := none, Properties := none, Runs := some [], Schema := s, Version := "2.1.0" } = Except.ok (Json.obj [("inlineExternalProperties", Json.null), ("properties", Json.null), ("runs", Json.arr []), ("$schema", Json.str s), ("version", Json.str "2.1.0")]) ∧
    "$schema" ∈ Json.keys (Json.obj [("inlineExternalProperties", Json.null), ("properties", Json.null), ("runs", Json.arr []), ("$schema", Json.str s), ("version", Json.str "2.1.0")]) ∧
    "schema" ∉ Json.keys (Json.obj [("inlineExternalProperties", Json.null), ("properties", Json.null), ("runs", Json.arr []), ("$schema", Json.str s), ("version", Json.str "2.1.0")]) :=
  ⟨by rfl, by rfl, by simp [Json.keys], by simp [Json.keys]⟩

/-- The wire object of the PropertyBag openness claim. -/
def pbOpenDoc : Json :=
  Json.obj [("tags", Json.arr [Json.str "a", Json.str "b"]), ("customX", Json.num 42), ("customY", Json.str "z")]

/-- C7: decoding the openness document yields Tags a, b and captures customX
and customY (42 and z) in the open map; re-encoding reproduces all three keys. -/
theorem C7_propertybag_openness :
    PropertyBag.unmarshalJSON pbOpenDoc = Except.ok { AdditionalProperties := some [("customX", Json.num 42), ("customY", Json.str "z")], Tags := some ["a", "b"] } ∧
    PropertyBag.marshalJSON { AdditionalProperties := some [("customX", Json.num 42), ("customY", Json.str "z")], Tags := some ["a", "b"] } = Except.ok (Json.obj [("tags", Json.arr [Json.str "a", Json.str "b"]), ("customX", Json.num 42), ("customY", Json.str "z")]) :=
  ⟨by rfl, by rfl⟩

/-- A PropertyBag with two additional properties, for the stability claim. -/
def pbTwo : Sarif.PropertyBag :=
  { AdditionalProperties := some [("a", Json.null), ("b", Json.null)], Tags := none }

/-- C8, counterexample: encoder output is not byte-identical across calls on
equal instances. The additional-properties loop ranges over a Go map, whose
iteration order is unspecified: two admissible orders of the same two-entry
map emit the keys of pbTwo in different orders. -/
theorem C8_stability_counterexample :
    List.Perm [("a", Json.null), ("b", Json.null)] [("b", Json.null), ("a", Json.null)] ∧
    pbTwo.AdditionalProperties = some [("a", Json.null), ("b", Json.null)] ∧
    (PropertyBag.marshalJSONWith pbTwo [("a", Json.null), ("b", Json.null)]).map Json.keys = Except.ok ["tags", "a", "b"] ∧
    (PropertyBag.marshalJSONWith pbTwo [("b", Json.null), ("a", Json.null)]).map Json.keys = Except.ok ["tags", "b", "a"] ∧
    (["tags", "a", "b"] : List String) ≠ ["tags", "b", "a"] :=
  ⟨List.Perm.swap _ _ _, rfl, by rfl, by rfl, by decide⟩

/-- C8, amended: every encoder emits every declared field exactly once, in
declaration order, whatever the instance; only a PropertyBag appends its
additional keys after tags, in whatever order the map range loop takes. -/
theorem artifactChange_marshal_keys (x : Sarif.ArtifactChange) (j : Json)
    (h : ArtifactChange.marshalJSON x = Except.ok j) :
    Json.keys j = ["artifactLocation", "properties", "replacements"] := by
  unfold ArtifactChange.marshalJSON at h
  by_cases h0 : x.ArtifactLocation.isNone
  · rw [if_pos h0] at h
    exact Except.noConfusion h
  · rw [if_neg h0] at h
    cases h1 : encOpt Sarif.ArtifactLocation.marshalJSON x.ArtifactLocation with
    | error e => rw [h1] at h; exact Except.noConfusion h
    | ok j0 =>
    rw [h1] at h
    cases h2 : encOpt Sarif.PropertyBag.marshalJSON x.Properties with
    | error e => rw [h2] at h; exact Except.noConfusion h
    | ok j1 =>
    rw [h2] at h
    cases h3 : encList (encOpt Sarif.Replacement.marshalJSON) x.Replacements with
    | error e => rw [h3] at h; exact Except.noConfusion h
    | ok j2 =>
    rw [h3] at h
    simp only [Except.ok.injEq] at h
    subst h
    rfl

theorem artifactLocation_marshal_keys (x : Sarif.ArtifactLocation) (j : Json)
    (h : ArtifactLocation.marshalJSON x = Except.ok j) :
    Json.keys j = ["description", "index", "properties", "uri", "uriBaseId"] := by
  unfold ArtifactLocation.marshalJSON at h
  cases h1 : encOpt Sarif.Message.marshalJSON x.Description with
  | error e => rw [h1] at h; exact Except.noConfusion h
  | ok j0 =>
  rw [h1] at h
  cases h2 : encOpt Sarif.PropertyBag.marshalJSON x.Properties with
  | error e => rw [h2] at h; exact Except.noConfusion h
  | ok j2 =>
  rw [h2] at h
  simp only [encInt, encString, Except.ok.injEq] at h
  subst h
  rfl

theorem sarif_marshal_keys (x : Sarif.SARIF) (j : Json)
    (h : SARIF.marshalJSON x = Except.ok j) :
    Json.keys j = ["inlineExternalProperties", "properties", "runs", "$schema", "version"] := by
  unfold SARIF.marshalJSON at h
  cases h1 : encList (encOpt Sarif.ExternalProperties.marshalJSON) x.InlineExternalProperties with
  | error e => rw [h1] at h; exact Except.noConfusion h
  | ok j0 =>
  rw [h1] at h
  cases h2 : encOpt Sarif.PropertyBag.marshalJSON x.Properties with
  | error e => rw [h2] at h; exact Except.noConfusion h
  | ok j1 =>
  rw [h2] at h
  cases h3 : encList (encOpt Sarif.Run.marshalJSON) x.Runs with
  | error e => rw [h3] at h; exact Except.noConfusion h
  | ok j2 =>
  rw [h3] at h
  simp only [encString, Except.ok.injEq] at h
  subst h
  rfl

theorem propertyBag_marshalWith_keys (pb : Sarif.PropertyBag) (iter : List (String × Json))
    (j : Json) (h : PropertyBag.marshalJSONWith pb iter = Except.ok j) :
    Json.keys j = "tags" :: iter.map Prod.fst := by
  unfold PropertyBag.marshalJSONWith at h
  cases h1 : encList encString pb.Tags with
  | error e => rw [h1] at h; exact Except.noConfusion h
  | ok j0 =>
  rw [h1] at h
  simp only [Except.ok.injEq] at h
  subst h
  rfl

/-- C8, amended: every encoder emits every declared field exactly once, in
declaration order, whatever the instance; only a PropertyBag appends its
additional keys after tags, in whatever order the map range loop takes. -/
theorem C8_field_order_amended :
    (∀ (x : Sarif.ArtifactChange) (j : Json), ArtifactChange.marshalJSON x = Except.ok j →
      Json.keys j = ["artifactLocation", "properties", "replacements"]) ∧
    (∀ (x : Sarif.ArtifactLocation) (j : Json), ArtifactLocation.marshalJSON x = Except.ok j →
      Json.keys j = ["description", "index", "properties", "uri", "uriBaseId"]) ∧
    (∀ (x : Sarif.SARIF) (j : Json), SARIF.marshalJSON x = Except.ok j →
      Json.keys j = ["inlineExternalProperties", "properties", "runs", "$schema", "version"]) ∧
    (∀ (pb : Sarif.PropertyBag) (iter : List (String × Json)) (j : Json),
      PropertyBag.marshalJSONWith pb iter = Except.ok j →
      Json.keys j = "tags" :: iter.map Prod.fst) :=
  ⟨artifactChange_marshal_keys, artifactLocation_marshal_keys, sarif_marshal_keys,
    propertyBag_marshalWith_keys⟩

/-- C8 witness: the field-order property evaluated on the nil-runs root. -/
theorem C8_field_order_amended_witness :
    Json.keys (Json.obj [("inlineExternalProperties", Json.null), ("properties", Json.null), ("runs", Json.null), ("$schema", Json.str ""), ("version", Json.str "2.1.0")]) = ["inlineExternalProperties", "properties", "runs", "$schema", "version"] :=
  C8_field_order_amended.2.2.1 sarifNilRuns _ rfl

/-- C9: decode checks only that a required key is present, not that its value
is non-null; mapping both required keys of ArtifactChange to null decodes to
the zero instance without error. -/
theorem C9_null_required_values :
    ArtifactChange.unmarshalJSON (Json.obj [("artifactLocation", Json.null), ("replacements", Json.null)]) = Except.ok { ArtifactLocation := none, Properties := none, Replacements := none } :=
  by rfl

/-- C10: the root decoder accepts any string as the value of the required
version key; nothing pins it to 2.1.0. -/
theorem C10_version_not_enforced (v : String) :
    SARIF.unmarshalJSON (Json.obj [("version", Json.str v), ("runs", Json.arr [Json.obj [("tool", Json.obj [("driver", Json.obj [("name", Json.str "Analyzer")])])]])]) = Except.ok { InlineExternalProperties := none, Properties := none, Runs := some [some { Run.zero with Tool := some { Tool.zero with Driver := some { ToolComponent.zero with Name := "Analyzer" } } }], Schema := "", Version := v } :=
  by rfl

/-- C2: every entity type except PropertyBag rejects an unrecognized wire key
with an error naming the offending key, and decodes the same object with the
key removed; PropertyBag instead parses tags as a string list and captures
every other key into its open map. -/
theorem C2_unknown_key_rejection :
    (Sarif.Address.unmarshalJSON (Json.obj [("zzzUnknownKey", Json.null)]) = Except.error "additional property not allowed: \"zzzUnknownKey\"" ∧ isOk (Sarif.Address.unmarshalJSON (Json.obj [])) = true) ∧
    (Sarif.Artifact.unmarshalJSON (Json.obj [("zzzUnknownKey", Json.null)]) = Except.error "additional property not allowed: \"zzzUnknownKey\"" ∧ isOk (Sarif.Artifact.unmarshalJSON (Json.obj [])) = true) ∧
    (Sarif.ArtifactChange.unmarshalJSON (Json.obj [("artifactLocation", Json.null), ("replacements", Json.null), ("zzzUnknownKey", Json.null)]) = Except.error "additional property not allowed: \"zzzUnknownKey\"" ∧ isOk (Sarif.ArtifactChange.unmarshalJSON (Json.obj [("artifactLocation", Json.null), ("replacements", Json.null)])) = true) ∧
    (Sarif.ArtifactContent.unmarshalJSON (Json.obj [("zzzUnknownKey", Json.null)]) = Except.error "additional property not allowed: \"zzzUnknownKey\"" ∧ isOk (Sarif.ArtifactContent.unmarshalJSON (Json.obj [])) = true) ∧
    (Sarif.ArtifactLocation.unmarshalJSON (Json.obj [("zzzUnknownKey", Json.null)]) = Except.error "additional property not allowed: \"zzzUnknownKey\"" ∧ isOk (Sarif.ArtifactLocation.unmarshalJSON (Json.obj [])) = true) ∧
    (Sarif.Attachment.unmarshalJSON (Json.obj [("artifactLocation", Json.null), ("zzzUnknownKey", Json.null)]) = Except.error "additional property not allowed: \"zzzUnknownKey\"" ∧ isOk (Sarif.Attachment.unmarshalJSON (Json.obj [("artifactLocation", Json.null)])) = true) ∧
    (Sarif.CodeFlow.unmarshalJSON (Json.obj [("threadFlows", Json.null), ("zzzUnknownKey", Json.null)]) = Except.error "additional property not allowed: \"zzzUnknownKey\"" ∧ isOk (Sarif.CodeFlow.unmarshalJSON (Json.obj [("threadFlows", Json.null)])) = true) ∧
    (Sarif.ConfigurationOverride.unmarshalJSON (Json.obj [("configuration", Json.null), ("descriptor", Json.null), ("zzzUnknownKey", Json.null)]) = Except.error "additional property not allowed: \"zzzUnknownKey\"" ∧ isOk (Sarif.ConfigurationOverride.unmarshalJSON (Json.obj [("configuration", Json.null), ("descriptor", Json.null)])) = true) ∧
    (Sarif.Conversion.unmarshalJSON (Json.obj [("tool", Json.null), ("zzzUnknownKey", Json.null)]) = Except.error "additional property not allowed: \"zzzUnknownKey\"" ∧ isOk (Sarif.Conversion.unmarshalJSON (Json.obj [("tool", Json.null)])) = true) ∧
    (Sarif.Edge.unmarshalJSON (Json.obj [("id", Json.null), ("sourceNodeId", Json.null), ("targetNodeId", Json.null), ("zzzUnknownKey", Json.null)]) = Except.error "additional property not allowed: \"zzzUnknownKey\"" ∧ isOk (Sarif.Edge.unmarshalJSON (Json.obj [("id", Json.null), ("sourceNodeId", Json.null), ("targetNodeId", Json.null)])) = true) ∧
    (Sarif.EdgeTraversal.unmarshalJSON (Json.obj [("edgeId", Json.null), ("zzzUnknownKey", Json.null)]) = Except.error "additional property not allowed: \"zzzUnknownKey\"" ∧ isOk (Sarif.EdgeTraversal.unmarshalJSON (Json.obj [("edgeId", Json.null)])) = true) ∧
    (Sarif.Exception.unmarshalJSON (Json.obj [("zzzUnknownKey", Json.null)]) = Except.error "additional property not allowed: \"zzzUnknownKey\"" ∧ isOk (Sarif.Exception.unmarshalJSON (Json.obj [])) = true) ∧
    (Sarif.ExternalProperties.unmarshalJSON (Json.obj [("zzzUnknownKey", Json.null)]) = Except.error "additional property not allowed: \"zzzUnknownKey\"" ∧ isOk (Sarif.ExternalProperties.unmarshalJSON (Json.obj [])) = true) ∧
    (Sarif.ExternalPropertyFileReference.unmarshalJSON (Json.obj [("zzzUnknownKey", Json.null)]) = Except.error "additional property not allowed: \"zzzUnknownKey\"" ∧ isOk (Sarif.ExternalPropertyFileReference.unmarshalJSON (Json.obj [])) = true) ∧
    (Sarif.ExternalPropertyFileReferences.unmarshalJSON (Json.obj [("zzzUnknownKey", Json.null)]) = Except.error "additional property not allowed: \"zzzUnknownKey\"" ∧ isOk (Sarif.ExternalPropertyFileReferences.unmarshalJSON (Json.obj [])) = true) ∧
    (Sarif.Fix.unmarshalJSON (Json.obj [("artifactChanges", Json.null), ("zzzUnknownKey", Json.null)]) = Except.error "additional property not allowed: \"zzzUnknownKey\"" ∧ isOk (Sarif.Fix.unmarshalJSON (Json.obj [("artifactChanges", Json.null)])) = true) ∧
    (Sarif.Graph.unmarshalJSON (Json.obj [("zzzUnknownKey", Json.null)]) = Except.error "additional property not allowed: \"zzzUnknownKey\"" ∧ isOk (Sarif.Graph.unmarshalJSON (Json.obj [])) = true) ∧
    (Sarif.GraphTraversal.unmarshalJSON (Json.obj [("zzzUnknownKey", Json.null)]) = Except.error "additional property not allowed: \"zzzUnknownKey\"" ∧ isOk (Sarif.GraphTraversal.unmarshalJSON (Json.obj [])) = true) ∧
    (Sarif.Invocation.unmarshalJSON (Json.obj [("executionSuccessful", Json.null), ("zzzUnknownKey", Json.null)]) = Except.error "additional property not allowed: \"zzzUnknownKey\"" ∧ isOk (Sarif.Invocation.unmarshalJSON (Json.obj [("executionSuccessful", Json.null)])) = true) ∧
    (Sarif.Location.unmarshalJSON (Json.obj [("zzzUnknownKey", Json.null)]) = Except.error "additional property not allowed: \"zzzUnknownKey\"" ∧ isOk (Sarif.Location.unmarshalJSON (Json.obj [])) = true) ∧
    (Sarif.LocationRelationship.unmarshalJSON (Json.obj [("target", Json.null), ("zzzUnknownKey", Json.null)]) = Except.error "additional property not allowed: \"zzzUnknownKey\"" ∧ isOk (Sarif.LocationRelationship.unmarshalJSON (Json.obj [("target", Json.null)])) = true) ∧
    (Sarif.LogicalLocation.unmarshalJSON (Json.obj [("zzzUnknownKey", Json.null)]) = Except.error "additional property not allowed: \"zzzUnknownKey\"" ∧ isOk (Sarif.LogicalLocation.unmarshalJSON (Json.obj [])) = true) ∧
    (Sarif.Message.unmarshalJSON (Json.obj [("zzzUnknownKey", Json.null)]) = Except.error "additional property not allowed: \"zzzUnknownKey\"" ∧ isOk (Sarif.Message.unmarshalJSON (Json.obj [])) = true) ∧
    (Sarif.MultiformatMessageString.unmarshalJSON (Json.obj [("text", Json.null), ("zzzUnknownKey", Json.null)]) = Except.error "additional property not allowed: \"zzzUnknownKey\"" ∧ isOk (Sarif.MultiformatMessageString.unmarshalJSON (Json.obj [("text", Json.null)])) = true) ∧
    (Sarif.Node.unmarshalJSON (Json.obj [("id", Json.null), ("zzzUnknownKey", Json.null)]) = Except.error "additional property not allowed: \"zzzUnknownKey\"" ∧ isOk (Sarif.Node.unmarshalJSON (Json.obj [("id", Json.null)])) = true) ∧
    (Sarif.Notification.unmarshalJSON (Json.obj [("message", Json.null), ("zzzUnknownKey", Json.null)]) = Except.error "additional property not allowed: \"zzzUnknownKey\"" ∧ isOk (Sarif.Notification.unmarshalJSON (Json.obj [("message", Json.null)])) = true) ∧
    (Sarif.PhysicalLocation.unmarshalJSON (Json.obj [("zzzUnknownKey", Json.null)]) = Except.error "additional property not allowed: \"zzzUnknownKey\"" ∧ isOk (Sarif.PhysicalLocation.unmarshalJSON (Json.obj [])) = true) ∧
    (Sarif.Rectangle.unmarshalJSON (Json.obj [("zzzUnknownKey", Json.null)]) = Except.error "additional property not allowed: \"zzzUnknownKey\"" ∧ isOk (Sarif.Rectangle.unmarshalJSON (Json.obj [])) = true) ∧
    (Sarif.Region.unmarshalJSON (Json.obj [("zzzUnknownKey", Json.null)]) = Except.error "additional property not allowed: \"zzzUnknownKey\"" ∧ isOk (Sarif.Region.unmarshalJSON (Json.obj [])) = true) ∧
    (Sarif.Replacement.unmarshalJSON (Json.obj [("deletedRegion", Json.null), ("zzzUnknownKey", Json.null)]) = Except.error "additional property not allowed: \"zzzUnknownKey\"" ∧ isOk (Sarif.Replacement.unmarshalJSON (Json.obj [("deletedRegion", Json.null)])) = true) ∧
    (Sarif.ReportingConfiguration.unmarshalJSON (Json.obj [("zzzUnknownKey", Json.null)]) = Except.error "additional property not allowed: \"zzzUnknownKey\"" ∧ isOk (Sarif.ReportingConfiguration.unmarshalJSON (Json.obj [])) = true) ∧
    (Sarif.ReportingDescriptor.unmarshalJSON (Json.obj [("id", Json.null), ("zzzUnknownKey", Json.null)]) = Except.error "additional property not allowed: \"zzzUnknownKey\"" ∧ isOk (Sarif.ReportingDescriptor.unmarshalJSON (Json.obj [("id", Json.null)])) = true) ∧
    (Sarif.ReportingDescriptorReference.unmarshalJSON (Json.obj [("zzzUnknownKey", Json.null)]) = Except.error "additional property not allowed: \"zzzUnknownKey\"" ∧ isOk (Sarif.ReportingDescriptorReference.unmarshalJSON (Json.obj [])) = true) ∧
    (Sarif.ReportingDescriptorRelationship.unmarshalJSON (Json.obj [("target", Json.null), ("zzzUnknownKey", Json.null)]) = Except.error "additional property not allowed: \"zzzUnknownKey\"" ∧ isOk (Sarif.ReportingDescriptorRelationship.unmarshalJSON (Json.obj [("target", Json.null)])) = true) ∧
    (Sarif.Result.unmarshalJSON (Json.obj [("message", Json.null), ("zzzUnknownKey", Json.null)]) = Except.error "additional property not allowed: \"zzzUnknownKey\"" ∧ isOk (Sarif.Result.unmarshalJSON (Json.obj [("message", Json.null)])) = true) ∧
    (Sarif.ResultProvenance.unmarshalJSON (Json.obj [("zzzUnknownKey", Json.null)]) = Except.error "additional property not allowed: \"zzzUnknownKey\"" ∧ isOk (Sarif.ResultProvenance.unmarshalJSON (Json.obj [])) = true) ∧
    (Sarif.Run.unmarshalJSON (Json.obj [("tool", Json.null), ("zzzUnknownKey", Json.null)]) = Except.error "additional property not allowed: \"zzzUnknownKey\"" ∧ isOk (Sarif.Run.unmarshalJSON (Json.obj [("tool", Json.null)])) = true) ∧
    (Sarif.RunAutomationDetails.unmarshalJSON (Json.obj [("zzzUnknownKey", Json.null)]) = Except.error "additional property not allowed: \"zzzUnknownKey\"" ∧ isOk (Sarif.RunAutomationDetails.unmarshalJSON (Json.obj [])) = true) ∧
    (Sarif.SARIF.unmarshalJSON (Json.obj [("runs", Json.null), ("version", Json.null), ("zzzUnknownKey", Json.null)]) = Except.error "additional property not allowed: \"zzzUnknownKey\"" ∧ isOk (Sarif.SARIF.unmarshalJSON (Json.obj [("runs", Json.null), ("version", Json.null)])) = true) ∧
    (Sarif.SpecialLocations.unmarshalJSON (Json.obj [("zzzUnknownKey", Json.null)]) = Except.error "additional property not allowed: \"zzzUnknownKey\"" ∧ isOk (Sarif.SpecialLocations.unmarshalJSON (Json.obj [])) = true) ∧
    (Sarif.Stack.unmarshalJSON (Json.obj [("frames", Json.null), ("zzzUnknownKey", Json.null)]) = Except.error "additional property not allowed: \"zzzUnknownKey\"" ∧ isOk (Sarif.Stack.unmarshalJSON (Json.obj [("frames", Json.null)])) = true) ∧
    (Sarif.StackFrame.unmarshalJSON (Json.obj [("zzzUnknownKey", Json.null)]) = Except.error "additional property not allowed: \"zzzUnknownKey\"" ∧ isOk (Sarif.StackFrame.unmarshalJSON (Json.obj [])) = true) ∧
    (Sarif.Suppression.unmarshalJSON (Json.obj [("kind", Json.null), ("zzzUnknownKey", Json.null)]) = Except.error "additional property not allowed: \"zzzUnknownKey\"" ∧ isOk (Sarif.Suppression.unmarshalJSON (Json.obj [("kind", Json.null)])) = true) ∧
    (Sarif.ThreadFlow.unmarshalJSON (Json.obj [("locations", Json.null), ("zzzUnknownKey", Json.null)]) = Except.error "additional property not allowed: \"zzzUnknownKey\"" ∧ isOk (Sarif.ThreadFlow.unmarshalJSON (Json.obj [("locations", Json.null)])) = true) ∧
    (Sarif.ThreadFlowLocation.unmarshalJSON (Json.obj [("zzzUnknownKey", Json.null)]) = Except.error "additional property not allowed: \"zzzUnknownKey\"" ∧ isOk (Sarif.ThreadFlowLocation.unmarshalJSON (Json.obj [])) = true) ∧
    (Sarif.Tool.unmarshalJSON (Json.obj [("driver", Json.null), ("zzzUnknownKey", Json.null)]) = Except.error "additional property not allowed: \"zzzUnknownKey\"" ∧ isOk (Sarif.Tool.unmarshalJSON (Json.obj [("driver", Json.null)])) = true) ∧
    (Sarif.ToolComponent.unmarshalJSON (Json.obj [("name", Json.null), ("zzzUnknownKey", Json.null)]) = Except.error "additional property not allowed: \"zzzUnknownKey\"" ∧ isOk (Sarif.ToolComponent.unmarshalJSON (Json.obj [("name", Json.null)])) = true) ∧
    (Sarif.ToolComponentReference.unmarshalJSON (Json.obj [("zzzUnknownKey", Json.null)]) = Except.error "additional property not allowed: \"zzzUnknownKey\"" ∧ isOk (Sarif.ToolComponentReference.unmarshalJSON (Json.obj [])) = true) ∧
    (Sarif.TranslationMetadata.unmarshalJSON (Json.obj [("name", Json.null), ("zzzUnknownKey", Json.null)]) = Except.error "additional property not allowed: \"zzzUnknownKey\"" ∧ isOk (Sarif.TranslationMetadata.unmarshalJSON (Json.obj [("name", Json.null)])) = true) ∧
    (Sarif.VersionControlDetails.unmarshalJSON (Json.obj [("repositoryUri", Json.null), ("zzzUnknownKey", Json.null)]) = Except.error "additional property not allowed: \"zzzUnknownKey\"" ∧ isOk (Sarif.VersionControlDetails.unmarshalJSON (Json.obj [("repositoryUri", Json.null)])) = true) ∧
    (Sarif.WebRequest.unmarshalJSON (Json.obj [("zzzUnknownKey", Json.null)]) = Except.error "additional property not allowed: \"zzzUnknownKey\"" ∧ isOk (Sarif.WebRequest.unmarshalJSON (Json.obj [])) = true) ∧
    (Sarif.WebResponse.unmarshalJSON (Json.obj [("zzzUnknownKey", Json.null)]) = Except.error "additional property not allowed: \"zzzUnknownKey\"" ∧ isOk (Sarif.WebResponse.unmarshalJSON (Json.obj [])) = true) ∧
    PropertyBag.unmarshalJSON (Json.obj [("tags", Json.arr [Json.str "a"]), ("zzzUnknownKey", Json.num 1)]) = Except.ok { AdditionalProperties := some [("zzzUnknownKey", Json.num 1)], Tags := some ["a"] } :=
  ⟨⟨by rfl, by rfl⟩, ⟨by rfl, by rfl⟩, ⟨by rfl, by rfl⟩, ⟨by rfl, by rfl⟩, ⟨by rfl, by rfl⟩, ⟨by rfl, by rfl⟩, ⟨by rfl, by rfl⟩, ⟨by rfl, by rfl⟩, ⟨by rfl, by rfl⟩, ⟨by rfl, by rfl⟩, ⟨by rfl, by rfl⟩, ⟨by rfl, by rfl⟩, ⟨by rfl, by rfl⟩, ⟨by rfl, by rfl⟩, ⟨by rfl, by rfl⟩, ⟨by rfl, by rfl⟩, ⟨by rfl, by rfl⟩, ⟨by rfl, by rfl⟩, ⟨by rfl, by rfl⟩, ⟨by rfl, by rfl⟩, ⟨by rfl, by rfl⟩, ⟨by rfl, by rfl⟩, ⟨by rfl, by rfl⟩, ⟨by rfl, by rfl⟩, ⟨by rfl, by rfl⟩, ⟨by rfl, by rfl⟩, ⟨by rfl, by rfl⟩, ⟨by rfl, by rfl⟩, ⟨by rfl, by rfl⟩, ⟨by rfl, by rfl⟩, ⟨by rfl, by rfl⟩, ⟨by rfl, by rfl⟩, ⟨by rfl, by rfl⟩, ⟨by rfl, by rfl⟩, ⟨by rfl, by rfl⟩, ⟨by rfl, by rfl⟩, ⟨by rfl, by rfl⟩, ⟨by rfl, by rfl⟩, ⟨by rfl, by rfl⟩, ⟨by rfl, by rfl⟩, ⟨by rfl, by rfl⟩, ⟨by rfl, by rfl⟩, ⟨by rfl, by rfl⟩, ⟨by rfl, by rfl⟩, ⟨by rfl, by rfl⟩, ⟨by rfl, by rfl⟩, ⟨by rfl, by rfl⟩, ⟨by rfl, by rfl⟩, ⟨by rfl, by rfl⟩, ⟨by rfl, by rfl⟩, ⟨by rfl, by rfl⟩, ⟨by rfl, by rfl⟩, by rfl⟩

/-- C3: for every required field of every entity type, decoding a wire object
with that key omitted (all other required keys present) fails with an error
naming it, and decoding with every required key present succeeds. -/
theorem C3_required_field_rejection :
    Sarif.ArtifactChange.unmarshalJSON (Json.obj [("replacements", Json.null)]) = Except.error "\"artifactLocation\" is required but was not present" ∧
    Sarif.ArtifactChange.unmarshalJSON (Json.obj [("artifactLocation", Json.null)]) = Except.error "\"replacements\" is required but was not present" ∧
    isOk (Sarif.ArtifactChange.unmarshalJSON (Json.obj [("artifactLocation", Json.null), ("replacements", Json.null)])) = true ∧
    Sarif.Attachment.unmarshalJSON (Json.obj []) = Except.error "\"artifactLocation\" is required but was not present" ∧
    isOk (Sarif.Attachment.unmarshalJSON (Json.obj [("artifactLocation", Json.null)])) = true ∧
    Sarif.CodeFlow.unmarshalJSON (Json.obj []) = Except.error "\"threadFlows\" is required but was not present" ∧
    isOk (Sarif.CodeFlow.unmarshalJSON (Json.obj [("threadFlows", Json.null)])) = true ∧
    Sarif.ConfigurationOverride.unmarshalJSON (Json.obj [("descriptor", Json.null)]) = Except.error "\"configuration\" is required but was not present" ∧
    Sarif.ConfigurationOverride.unmarshalJSON (Json.obj [("configuration", Json.null)]) = Except.error "\"descriptor\" is required but was not present" ∧
    isOk (Sarif.ConfigurationOverride.unmarshalJSON (Json.obj [("configuration", Json.null), ("descriptor", Json.null)])) = true ∧
    Sarif.Conversion.unmarshalJSON (Json.obj []) = Except.error "\"tool\" is required but was not present" ∧
    isOk (Sarif.Conversion.unmarshalJSON (Json.obj [("tool", Json.null)])) = true ∧
    Sarif.Edge.unmarshalJSON (Json.obj [("sourceNodeId", Json.null), ("targetNodeId", Json.null)]) = Except.error "\"id\" is required but was not present" ∧
    Sarif.Edge.unmarshalJSON (Json.obj [("id", Json.null), ("targetNodeId", Json.null)]) = Except.error "\"sourceNodeId\" is required but was not present" ∧
    Sarif.Edge.unmarshalJSON (Json.obj [("id", Json.null), ("sourceNodeId", Json.null)]) = Except.error "\"targetNodeId\" is required but was not present" ∧
    isOk (Sarif.Edge.unmarshalJSON (Json.obj [("id", Json.null), ("sourceNodeId", Json.null), ("targetNodeId", Json.null)])) = true ∧
    Sarif.EdgeTraversal.unmarshalJSON (Json.obj []) = Except.error "\"edgeId\" is required but was not present" ∧
    isOk (Sarif.EdgeTraversal.unmarshalJSON (Json.obj [("edgeId", Json.null)])) = true ∧
    Sarif.Fix.unmarshalJSON (Json.obj []) = Except.error "\"artifactChanges\" is required but was not present" ∧
    isOk (Sarif.Fix.unmarshalJSON (Json.obj [("artifactChanges", Json.null)])) = true ∧
    Sarif.Invocation.unmarshalJSON (Json.obj []) = Except.error "\"executionSuccessful\" is required but was not present" ∧
    isOk (Sarif.Invocation.unmarshalJSON (Json.obj [("executionSuccessful", Json.null)])) = true ∧
    Sarif.LocationRelationship.unmarshalJSON (Json.obj []) = Except.error "\"target\" is required but was not present" ∧
    isOk (Sarif.LocationRelationship.unmarshalJSON (Json.obj [("target", Json.null)])) = true ∧
    Sarif.MultiformatMessageString.unmarshalJSON (Json.obj []) = Except.error "\"text\" is required but was not present" ∧
    isOk (Sarif.MultiformatMessageString.unmarshalJSON (Json.obj [("text", Json.null)])) = true ∧
    Sarif.Node.unmarshalJSON (Json.obj []) = Except.error "\"id\" is required but was not present" ∧
    isOk (Sarif.Node.unmarshalJSON (Json.obj [("id", Json.null)])) = true ∧
    Sarif.Notification.unmarshalJSON (Json.obj []) = Except.error "\"message\" is required but was not present" ∧
    isOk (Sarif.Notification.unmarshalJSON (Json.obj [("message", Json.null)])) = true ∧
    Sarif.Replacement.unmarshalJSON (Json.obj []) = Except.error "\"deletedRegion\" is required but was not present" ∧
    isOk (Sarif.Replacement.unmarshalJSON (Json.obj [("deletedRegion", Json.null)])) = true ∧
    Sarif.ReportingDescriptor.unmarshalJSON (Json.obj []) = Except.error "\"id\" is required but was not present" ∧
    isOk (Sarif.ReportingDescriptor.unmarshalJSON (Json.obj [("id", Json.null)])) = true ∧
    Sarif.ReportingDescriptorRelationship.unmarshalJSON (Json.obj []) = Except.error "\"target\" is required but was not present" ∧
    isOk (Sarif.ReportingDescriptorRelationship.unmarshalJSON (Json.obj [("target", Json.null)])) = true ∧
    Sarif.Result.unmarshalJSON (Json.obj []) = Except.error "\"message\" is required but was not present" ∧
    isOk (Sarif.Result.unmarshalJSON (Json.obj [("message", Json.null)])) = true ∧
    Sarif.Run.unmarshalJSON (Json.obj []) = Except.error "\"tool\" is required but was not present" ∧
    isOk (Sarif.Run.unmarshalJSON (Json.obj [("tool", Json.null)])) = true ∧
    Sarif.SARIF.unmarshalJSON (Json.obj [("version", Json.null)]) = Except.error "\"runs\" is required but was not present" ∧
    Sarif.SARIF.unmarshalJSON (Json.obj [("runs", Json.null)]) = Except.error "\"version\" is required but was not present" ∧
    isOk (Sarif.SARIF.unmarshalJSON (Json.obj [("runs", Json.null), ("version", Json.null)])) = true ∧
    Sarif.Stack.unmarshalJSON (Json.obj []) = Except.error "\"frames\" is required but was not present" ∧
    isOk (Sarif.Stack.unmarshalJSON (Json.obj [("frames", Json.null)])) = true ∧
    Sarif.Suppression.unmarshalJSON (Json.obj []) = Except.error "\"kind\" is required but was not present" ∧
    isOk (Sarif.Suppression.unmarshalJSON (Json.obj [("kind", Json.null)])) = true ∧
    Sarif.ThreadFlow.unmarshalJSON (Json.obj []) = Except.error "\"locations\" is required but was not present" ∧
    isOk (Sarif.ThreadFlow.unmarshalJSON (Json.obj [("locations", Json.null)])) = true ∧
    Sarif.Tool.unmarshalJSON (Json.obj []) = Except.error "\"driver\" is required but was not present" ∧
    isOk (Sarif.Tool.unmarshalJSON (Json.obj [("driver", Json.null)])) = true ∧
    Sarif.ToolComponent.unmarshalJSON (Json.obj []) = Except.error "\"name\" is required but was not present" ∧
    isOk (Sarif.ToolComponent.unmarshalJSON (Json.obj [("name", Json.null)])) = true ∧
    Sarif.TranslationMetadata.unmarshalJSON (Json.obj []) = Except.error "\"name\" is required but was not present" ∧
    isOk (Sarif.TranslationMetadata.unmarshalJSON (Json.obj [("name", Json.null)])) = true ∧
    Sarif.VersionControlDetails.unmarshalJSON (Json.obj []) = Except.error "\"repositoryUri\" is required but was not present" ∧
    isOk (Sarif.VersionControlDetails.unmarshalJSON (Json.obj [("repositoryUri", Json.null)])) = true :=
  ⟨by rfl, by rfl, by rfl, by rfl, by rfl, by rfl, by rfl, by rfl, by rfl, by rfl, by rfl, by rfl, by rfl, by rfl, by rfl, by rfl, by rfl, by rfl, by rfl, by rfl, by rfl, by rfl, by rfl, by rfl, by rfl, by rfl, by rfl, by rfl, by rfl, by rfl, by rfl, by rfl, by rfl, by rfl, by rfl, by rfl, by rfl, by rfl, by rfl, by rfl, by rfl, by rfl, by rfl, by rfl, by rfl, by rfl, by rfl, by rfl, by rfl, by rfl, by rfl, by rfl, by rfl, by rfl, by rfl, by rfl, by rfl⟩

end Sarif
